import Mathlib

/-!
# GoKBBI: retrieval pipeline

A shallow embedding of the fetch orchestrator (`internal/fetcher/fetcher.go`) and of the
cache store (`internal/cache/cache.go`), with the properties of the specification that
concern them.

Go strings are sequences of bytes; they are modelled as lists of natural numbers (each
below 256 for a well-formed string), and string literals are UTF-8 encoded the way the Go
compiler encodes them.
-/

namespace GoKBBI

/-! ## Strings -/

/-- A Go string: its bytes. -/
abbrev Str := List Nat

/-- UTF-8 encoding of one character. -/
def utf8Encode (c : Char) : Str :=
  let v := c.toNat
  if v < 0x80 then [v]
  else if v < 0x800 then [0xC0 + v / 64, 0x80 + v % 64]
  else if v < 0x10000 then [0xE0 + v / 4096, 0x80 + v / 64 % 64, 0x80 + v % 64]
  else [0xF0 + v / 262144, 0x80 + v / 4096 % 64, 0x80 + v / 64 % 64, 0x80 + v % 64]

/-- The bytes of a string literal of the source. -/
def str (s : String) : Str := s.toList.flatMap utf8Encode

/-- Go `strings.HasPrefix s p`. -/
def HasPrefix : Str → Str → Bool
  | _, [] => true
  | [], _ :: _ => false
  | a :: s, b :: p => a == b && HasPrefix s p

/-- Go `strings.Contains s substr`: `substr` occurs in `s` at some byte offset. -/
def Contains : Str → Str → Bool
  | [], substr => HasPrefix [] substr
  | c :: s, substr => HasPrefix (c :: s) substr || Contains s substr

/-- Decimal digits of a natural number. -/
def digits (n : Nat) : Str := (Nat.toDigits 10 n).map Char.toNat

/-- What the verb `%d` prints for a Go `int`. -/
def fmtInt : Int → Str
  | .ofNat n => digits n
  | .negSucc n => str "-" ++ digits (n + 1)

/-- Standard-library functions that the source calls and that are left uninterpreted:
every property below holds whatever they compute. -/
structure Pustaka where
  /-- Go `strings.ToLower`. -/
  ToLower : Str → Str
  /-- Go `url.QueryEscape`. -/
  QueryEscape : Str → Str
  /-- Go `url.PathEscape`. -/
  PathEscape : Str → Str
  /-- Go `filepath.Dir`. -/
  Dir : Str → Str
  /-- Go `filepath.Join`. -/
  Join : List Str → Str
  /-- Go `sha256.Sum256`, as the list of the bytes of the digest. -/
  Sum256 : Str → Str

/-! ## Errors (fetcher.go, lines 21-52) -/

/-- The struct `KesalahanKBBI`. -/
structure KesalahanKBBI where
  Jenis : Str
  Pesan : Str
  deriving DecidableEq

def ErrTidakDitemukan : KesalahanKBBI :=
  { Jenis := str "TidakDitemukan", Pesan := str "Entri tidak ditemukan dalam KBBI" }

def ErrBatasSehari : KesalahanKBBI :=
  { Jenis := str "BatasSehari",
    Pesan := str "Pencarian Anda telah mencapai batas maksimum dalam sehari" }

def ErrModaTerbatas : KesalahanKBBI :=
  { Jenis := str "ModaTerbatas",
    Pesan := str "KBBI Daring sedang dalam moda terbatas. Fitur pencarian dibatasi untuk pengguna umum" }

def ErrTerjadiKesalahan : KesalahanKBBI :=
  { Jenis := str "TerjadiKesalahan", Pesan := str "Terjadi kesalahan saat memproses permintaan Anda" }

def ErrAkunDibekukan : KesalahanKBBI :=
  { Jenis := str "AkunDibekukan", Pesan := str "Akun ini sedang dibekukan, tidak dapat digunakan" }

/-- A non-nil value of the Go interface `error`; the Go type `error` is `Option Galat`. -/
inductive Galat where
  /-- A `*KesalahanKBBI`. -/
  | kbbi (e : KesalahanKBBI)
  /-- Any other error that wraps nothing, with its message. -/
  | polos (pesan : Str)
  /-- The result of `fmt.Errorf` with one `%w`: the formatted message and the wrapped
  error, which is `none` when the operand of `%w` was nil. -/
  | bungkus (pesan : Str) (sebab : Option Galat)

/-- The method `Error()`. -/
def Galat.Error : Galat → Str
  | .kbbi e => e.Pesan
  | .polos pesan => pesan
  | .bungkus pesan _ => pesan

/-- The method `Unwrap()` as `errors.Unwrap` sees it. -/
def Galat.Unwrap : Galat → Option Galat
  | .bungkus _ sebab => sebab
  | _ => none

/-- What the verb `%w` prints for its operand. -/
def fmtErr : Option Galat → Str
  | some e => e.Error
  | none => str "%!w(<nil>)"

/-- Go `fmt.Errorf(awalan + "%w", err)`. -/
def Errorf (awalan : Str) (err : Option Galat) : Galat :=
  .bungkus (awalan ++ fmtErr err) err

/-! ## Error classifier and request path (fetcher.go, lines 168-221) -/

/-- The function `tentukanLokasi`. -/
def tentukanLokasi (L : Pustaka) (kata : Str) : Str :=
  let kasusKhusus : List Bool :=
    [ Contains kata (str "."),
      Contains kata (str "?"),
      L.ToLower kata == str "nul",
      L.ToLower kata == str "bin" ]
  if kasusKhusus.any id then str "Cari/Hasil?frasa=" ++ L.QueryEscape kata
  else str "entri/" ++ L.PathEscape kata

/-- The function `cekKesalahan`; `none` is the nil error. -/
def cekKesalahan (urlResponse htmlContent : Str) : Option KesalahanKBBI :=
  if Contains urlResponse (str "Beranda/Error") then some ErrTerjadiKesalahan
  else if Contains urlResponse (str "Beranda/BatasSehari") then some ErrBatasSehari
  else if Contains urlResponse (str "Beranda/ModaTerbatas") then some ErrModaTerbatas
  else if Contains urlResponse (str "Account/Banned") then some ErrAkunDibekukan
  else if Contains htmlContent (str "Entri tidak ditemukan.") then some ErrTidakDitemukan
  else if Contains htmlContent (str "Moda terbatas sedang diaktifkan")
      || Contains htmlContent (str "pengguna tidak terdaftar tidak dapat dilayani")
      || Contains htmlContent (str "moda terbatas") then some ErrModaTerbatas
  else none

/-- The decision list of the specification of the classifier (section 4.2), in its order:
each rule is a test on the final URL and the markup, and the error kind it yields. -/
def aturanKlasifikasi : List ((Str → Str → Bool) × KesalahanKBBI) :=
  [ (fun url _ => Contains url (str "Beranda/Error"), ErrTerjadiKesalahan),
    (fun url _ => Contains url (str "Beranda/BatasSehari"), ErrBatasSehari),
    (fun url _ => Contains url (str "Beranda/ModaTerbatas"), ErrModaTerbatas),
    (fun url _ => Contains url (str "Account/Banned"), ErrAkunDibekukan),
    (fun _ html => Contains html (str "Entri tidak ditemukan."), ErrTidakDitemukan),
    (fun _ html => Contains html (str "Moda terbatas sedang diaktifkan")
        || Contains html (str "pengguna tidak terdaftar tidak dapat dilayani")
        || Contains html (str "moda terbatas"), ErrModaTerbatas) ]

/-- The classifier as the specification words it: the kind of the first rule of the
decision list that matches, and no error when none matches. -/
def klasifikasiSpek (url html : Str) : Option KesalahanKBBI :=
  (aturanKlasifikasi.find? (fun aturan => aturan.1 url html)).map (fun aturan => aturan.2)

/-- Some marker of the four error paths occurs in the final URL. -/
def adaPenandaURL (url : Str) : Bool :=
  Contains url (str "Beranda/Error") || Contains url (str "Beranda/BatasSehari")
    || Contains url (str "Beranda/ModaTerbatas") || Contains url (str "Account/Banned")

/-! ## JSON text of a Go string

`json.MarshalIndent` writes a string value as JSON text coerced to valid UTF-8: every byte
at which `utf8.DecodeRuneInString` reports `RuneError` with width 1 is written as the
escape of U+FFFD, and every other byte comes back unchanged from `json.Unmarshal`. -/

/-- The table of `unicode/utf8` for a leading byte of a multi-byte sequence: the width of
the sequence and the range allowed for its second byte. -/
def utf8First (b : Nat) : Option (Nat × Nat × Nat) :=
  if 0xC2 ≤ b ∧ b ≤ 0xDF then some (2, 0x80, 0xBF)
  else if b = 0xE0 then some (3, 0xA0, 0xBF)
  else if (0xE1 ≤ b ∧ b ≤ 0xEC) ∨ b = 0xEE ∨ b = 0xEF then some (3, 0x80, 0xBF)
  else if b = 0xED then some (3, 0x80, 0x9F)
  else if b = 0xF0 then some (4, 0x90, 0xBF)
  else if 0xF1 ≤ b ∧ b ≤ 0xF3 then some (4, 0x80, 0xBF)
  else if b = 0xF4 then some (4, 0x80, 0x8F)
  else none

/-- A continuation byte. -/
def utf8Cont (b : Nat) : Bool := 0x80 ≤ b && b ≤ 0xBF

/-- Width that `utf8.DecodeRuneInString` reports at the head of a non-empty string, with 0
standing for an invalid byte (`RuneError` of width 1). -/
def runeLen : Str → Nat
  | [] => 0
  | b0 :: rest =>
    if b0 < 0x80 then 1
    else
      match utf8First b0, rest with
      | some (2, lo, hi), b1 :: _ => if lo ≤ b1 ∧ b1 ≤ hi then 2 else 0
      | some (3, lo, hi), b1 :: b2 :: _ => if lo ≤ b1 ∧ b1 ≤ hi ∧ utf8Cont b2 then 3 else 0
      | some (4, lo, hi), b1 :: b2 :: b3 :: _ =>
        if lo ≤ b1 ∧ b1 ≤ hi ∧ utf8Cont b2 ∧ utf8Cont b3 then 4 else 0
      | _, _ => 0

/-- Scan of `jsonString`: `sisa` bytes of the current valid sequence are still to be
copied. -/
def jsonStringAux : Nat → Str → Str
  | _, [] => []
  | sisa + 1, b :: rest => b :: jsonStringAux sisa rest
  | 0, b :: rest =>
    match runeLen (b :: rest) with
    | 0 => [0xEF, 0xBF, 0xBD] ++ jsonStringAux 0 rest
    | n + 1 => b :: jsonStringAux n rest

/-- The string that `json.Unmarshal` reads back from the JSON text that `json.MarshalIndent`
writes for a string: every invalid byte has become U+FFFD. -/
def jsonString (s : Str) : Str := jsonStringAux 0 s

/-- Scan of `ValidString`. -/
def validAux : Nat → Str → Bool
  | sisa, [] => sisa == 0
  | sisa + 1, _ :: rest => validAux sisa rest
  | 0, b :: rest =>
    match runeLen (b :: rest) with
    | 0 => false
    | n + 1 => validAux n rest

/-- Go `utf8.ValidString`. -/
def ValidString (s : Str) : Bool := validAux 0 s

/-! ## Cache store (cache.go) -/

/-- The constant `DirCache`. -/
def DirCache : Str := str "cache"

/-- The constant `DurasiCache`, 30 days in nanoseconds (the unit of `time.Duration`). -/
def DurasiCache : Int := 30 * 24 * (60 * 60 * 1000000000)

/-- The struct `EntriCache`; an instant is its number of nanoseconds since the epoch. -/
structure EntriCache where
  Kata : Str
  HTML : Str
  Timestamp : Int
  Expired : Int

/-- The struct `ManagerCache`. -/
structure ManagerCache where
  DirektorCache : Str

/-- What a path of the file system holds. -/
inductive Berkas where
  /-- JSON text that `json.Unmarshal` decodes into the entry. -/
  | json (entri : EntriCache)
  /-- A file that `os.ReadFile` cannot read or `json.Unmarshal` cannot decode. -/
  | rusak

/-- The struct `AutentikasiKBBI`, without its HTTP client. -/
structure AutentikasiKBBI where
  Email : Str
  Sandi : Str
  LokasiKuki : Str
  Terautentikasi : Bool

/-- What one run of the HTTP exchange of `ambilHalamanLangsung` comes to. -/
inductive Respons where
  /-- The call of `http.NewRequest` fails. -/
  | gagalRequest (err : Galat)
  /-- The call of `client.Do` fails. -/
  | gagalKirim (err : Galat)
  /-- The response has a status code other than 200. -/
  | statusLain (kode : Int)
  /-- The call of `gzip.NewReader` fails. -/
  | gagalGzip (err : Galat)
  /-- The call of `io.ReadAll` fails. -/
  | gagalBaca (err : Galat)
  /-- Status 200: the final URL after redirects and the decoded body. -/
  | halaman (url : Str) (isi : Str)

/-- The surroundings of a run: the standard library, and what the operating system and the
network answer. Faults of the file system are persistent: they depend on the path only. -/
structure Env where
  lib : Pustaka
  /-- Successive readings of `time.Now()`. -/
  now : Nat → Int
  /-- Go `os.UserHomeDir()`. -/
  homeDir : Except Galat Str
  /-- Error of `os.MkdirAll` on a directory, if any. -/
  mkdirAll : Str → Option Galat
  /-- Error of `json.MarshalIndent` on an entry, if any. -/
  marshalErr : EntriCache → Option Galat
  /-- Error of `os.WriteFile` on a path, if any. -/
  writeFile : Str → Option Galat
  /-- Outcome of the n-th HTTP exchange (counted from 0), for the URL requested. -/
  http : Nat → Str → Respons

/-- The state that the pipeline reads and changes, with counters of what it has done. -/
structure World where
  /-- Content of each path; `none` where `os.Stat` reports that nothing exists. -/
  files : Str → Option Berkas
  /-- Number of readings of `time.Now()` taken so far. -/
  clock : Nat
  /-- Number of runs of `ambilHalamanLangsung` so far: the network attempts. -/
  fetches : Nat
  /-- Number of 500 ms sleeps before `client.Do` so far. -/
  courtesy : Nat
  /-- Seconds slept by each `time.Sleep` of the retry loop so far, oldest first. -/
  backoff : List Nat
  /-- Number of calls of `SimpanCache` so far. -/
  saves : Nat

/-- Go `os.Remove` on a path; it is taken to succeed on a file that was just read. -/
def World.remove (w : World) (path : Str) : World :=
  { w with files := fun p => if p = path then none else w.files p }

/-- Go `os.WriteFile` once it succeeds. -/
def World.write (w : World) (path : Str) (b : Berkas) : World :=
  { w with files := fun p => if p = path then some b else w.files p }

/-- The function `BaruManagerCache`. -/
def BaruManagerCache (E : Env) (lokasiKuki : Str) : Except Galat ManagerCache :=
  let dir : Except Galat Str :=
    if lokasiKuki = [] then
      match E.homeDir with
      | .error err => .error (Errorf (str "gagal mendapatkan home directory: ") (some err))
      | .ok homeDir => .ok (E.lib.Join [homeDir, str ".kbbi", DirCache])
    else .ok (E.lib.Join [E.lib.Dir lokasiKuki, DirCache])
  match dir with
  | .error err => .error err
  | .ok dirCache =>
    match E.mkdirAll dirCache with
    | some err => .error (Errorf (str "gagal membuat direktori cache: ") (some err))
    | none => .ok { DirektorCache := dirCache }

/-- Go `hex.EncodeToString`. -/
def hexEncode (bytes : Str) : Str :=
  bytes.flatMap fun b =>
    [(str "0123456789abcdef").getD (b / 16) 0, (str "0123456789abcdef").getD (b % 16) 0]

/-- The method `buatKey`. -/
def ManagerCache.buatKey (_m : ManagerCache) (L : Pustaka) (kata : Str) : Str :=
  hexEncode (L.Sum256 kata)

/-- The method `namaFileCache`. -/
def ManagerCache.namaFileCache (m : ManagerCache) (L : Pustaka) (kata : Str) : Str :=
  L.Join [m.DirektorCache, m.buatKey L kata ++ str ".json"]

/-- The method `AmbilCache`: the world after the call, the markup and the flag. -/
def ManagerCache.AmbilCache (m : ManagerCache) (E : Env) (w : World) (kata : Str) :
    World × Str × Bool :=
  let namaFile := m.namaFileCache E.lib kata
  match w.files namaFile with
  | none => (w, [], false)
  | some .rusak => (w, [], false)
  | some (.json entri) =>
    let now := E.now w.clock
    let w1 := { w with clock := w.clock + 1 }
    if now > entri.Expired then (w1.remove namaFile, [], false)
    else (w1, entri.HTML, true)

/-- The method `SimpanCache`: the world after the call and the error, if any. -/
def ManagerCache.SimpanCache (m : ManagerCache) (E : Env) (w : World) (kata html : Str) :
    World × Option Galat :=
  let namaFile := m.namaFileCache E.lib kata
  let now := E.now w.clock
  let w1 := { w with clock := w.clock + 1, saves := w.saves + 1 }
  let entri : EntriCache :=
    { Kata := kata, HTML := html, Timestamp := now, Expired := now + DurasiCache }
  match E.marshalErr entri with
  | some err => (w1, some (Errorf (str "gagal mengenkode cache: ") (some err)))
  | none =>
    match E.writeFile namaFile with
    | some err => (w1, some (Errorf (str "gagal menyimpan cache: ") (some err)))
    | none =>
      (w1.write namaFile
        (.json { entri with Kata := jsonString kata, HTML := jsonString html }), none)

/-! ## Fetch orchestrator (fetcher.go) -/

/-- The constant `HostKBBI`. -/
def HostKBBI : Str := str "https://kbbi.kemdikbud.go.id"

/-- The method `CekAutentikasi`: the session after the call. -/
def AutentikasiKBBI.CekAutentikasi (a : AutentikasiKBBI) (htmlContent : Str) :
    AutentikasiKBBI :=
  { a with Terautentikasi := !Contains htmlContent (str "loginLink") }

/-- What a fetch function hands back: the world and the session after the call, and the
returned pair of markup and error. -/
structure Hasil where
  world : World
  sesi : Option AutentikasiKBBI
  html : Str
  err : Option Galat

/-- The function `ambilHalamanLangsung`. -/
def ambilHalamanLangsung (E : Env) (w : World) (kata : Str)
    (autentikasi : Option AutentikasiKBBI) : Hasil :=
  let lokasi := tentukanLokasi E.lib kata
  let urlLengkap := HostKBBI ++ str "/" ++ lokasi
  let w1 := { w with fetches := w.fetches + 1 }
  let w2 := { w1 with courtesy := w1.courtesy + 1 }
  match E.http w.fetches urlLengkap with
  | .gagalRequest err =>
    ⟨w1, autentikasi, [], some (Errorf (str "gagal membuat request: ") (some err))⟩
  | .gagalKirim err =>
    ⟨w2, autentikasi, [], some (Errorf (str "gagal mengambil halaman: ") (some err))⟩
  | .statusLain kode =>
    ⟨w2, autentikasi, [],
      some (.polos (str "server mengembalikan status code: " ++ fmtInt kode))⟩
  | .gagalGzip err =>
    ⟨w2, autentikasi, [], some (Errorf (str "gagal membuat gzip reader: ") (some err))⟩
  | .gagalBaca err =>
    ⟨w2, autentikasi, [], some (Errorf (str "gagal membaca response body: ") (some err))⟩
  | .halaman url htmlContent =>
    let sesi := autentikasi.map fun a => a.CekAutentikasi htmlContent
    match cekKesalahan url htmlContent with
    | some err => ⟨w2, sesi, htmlContent, some (.kbbi err)⟩
    | none => ⟨w2, sesi, htmlContent, none⟩

/-- The function `AmbilHalamanDenganCache`. -/
def AmbilHalamanDenganCache (E : Env) (w : World) (kata : Str)
    (autentikasi : Option AutentikasiKBBI) (lokasiKuki : Str) (tanpaCache : Bool) : Hasil :=
  let managerCache : Option ManagerCache :=
    if tanpaCache then none
    else
      match BaruManagerCache E lokasiKuki with
      | .error _ => none
      | .ok m => some m
  match managerCache with
  | none => ambilHalamanLangsung E w kata autentikasi
  | some m =>
    match m.AmbilCache E w kata with
    | (w1, htmlCache, true) => ⟨w1, autentikasi, htmlCache, none⟩
    | (w1, _, false) =>
      let r := ambilHalamanLangsung E w1 kata autentikasi
      match r.err with
      | none => { r with world := (m.SimpanCache E r.world kata r.html).1 }
      | some _ => r

/-- The test of the retry loop on a failed attempt: the error is a `*KesalahanKBBI` whose
`Jenis` is one of the four of the `switch`, and the loop returns at once. -/
def janganRetry : Galat → Bool
  | .kbbi kesalahanKBBI =>
    kesalahanKBBI.Jenis == str "TidakDitemukan" || kesalahanKBBI.Jenis == str "BatasSehari"
      || kesalahanKBBI.Jenis == str "ModaTerbatas" || kesalahanKBBI.Jenis == str "AkunDibekukan"
  | _ => false

/-- The loop `for i := 0; i < maxRetry; i++` of `AmbilHalamanDenganRetrydanCache`, entered
at index `i` with `sisa` iterations to go (`maxRetry - i`, or none when `maxRetry` is not
positive). The sleep of `i + 1` seconds is recorded in seconds; the multiplication by
`time.Second` stays within 64 bits for every `i` below 9 223 372 036. -/
def retryLoop (E : Env) (kata : Str) (maxRetry : Int) (lokasiKuki : Str) (tanpaCache : Bool) :
    Nat → Nat → World → Option AutentikasiKBBI → Option Galat → Hasil
  | 0, _, w, autentikasi, lastErr =>
    ⟨w, autentikasi, [],
      some (.bungkus (str "gagal mengambil halaman setelah " ++ fmtInt maxRetry
        ++ str " percobaan: " ++ fmtErr lastErr) lastErr)⟩
  | sisa + 1, i, w, autentikasi, _ =>
    let r := AmbilHalamanDenganCache E w kata autentikasi lokasiKuki tanpaCache
    match r.err with
    | some err =>
      if janganRetry err then r
      else
        retryLoop E kata maxRetry lokasiKuki tanpaCache sisa (i + 1)
          { r.world with backoff := r.world.backoff ++ [i + 1] } r.sesi (some err)
    | none => r

/-- The function `AmbilHalamanDenganRetrydanCache`. -/
def AmbilHalamanDenganRetrydanCache (E : Env) (w : World) (kata : Str)
    (autentikasi : Option AutentikasiKBBI) (maxRetry : Int) (lokasiKuki : Str)
    (tanpaCache : Bool) : Hasil :=
  retryLoop E kata maxRetry lokasiKuki tanpaCache maxRetry.toNat 0 w autentikasi none

/-- The function `AmbilHalamanDenganRetry`. -/
def AmbilHalamanDenganRetry (E : Env) (w : World) (kata : Str)
    (autentikasi : Option AutentikasiKBBI) (maxRetry : Int) : Hasil :=
  AmbilHalamanDenganRetrydanCache E w kata autentikasi maxRetry [] false

/-! ## More of the package `strings` -/

/-- Go `strings.HasSuffix s suffix`. -/
def HasSuffix (s suffix : Str) : Bool := HasPrefix s.reverse suffix.reverse

/-- Go `strings.TrimPrefix`. -/
def TrimPrefix (s awalan : Str) : Str :=
  if HasPrefix s awalan then s.drop awalan.length else s

/-- Go `strings.TrimSuffix`. -/
def TrimSuffix (s akhiran : Str) : Str :=
  if HasSuffix s akhiran then s.take (s.length - akhiran.length) else s

/-- Go `strings.TrimLeft` for a cutset of ASCII characters. -/
def TrimLeft (s cutset : Str) : Str := s.dropWhile fun b => cutset.contains b

/-- Go `strings.Trim` for a cutset of ASCII characters. -/
def Trim (s cutset : Str) : Str :=
  ((s.dropWhile fun b => cutset.contains b).reverse.dropWhile fun b => cutset.contains b).reverse

/-- Go `strings.Index`: the offset of the first occurrence, `none` for -1. -/
def Index : Str → Str → Option Nat
  | [], substr => if HasPrefix [] substr then some 0 else none
  | c :: s, substr =>
    if HasPrefix (c :: s) substr then some 0 else (Index s substr).map fun i => i + 1

/-- Scan of `Split`: `lewati` bytes of a separator just found are still to be skipped, and
`bagian` is the piece read so far. -/
def splitAux (sep : Str) : Nat → Str → Str → List Str
  | _, bagian, [] => [bagian]
  | lewati + 1, bagian, _ :: rest => splitAux sep lewati bagian rest
  | 0, bagian, c :: rest =>
    if HasPrefix (c :: rest) sep then bagian :: splitAux sep (sep.length - 1) [] rest
    else splitAux sep 0 (bagian ++ [c]) rest

/-- Go `strings.Split` for a non-empty separator. -/
def Split (s sep : Str) : List Str := splitAux sep 0 [] s

/-- Go `strings.Join`. -/
def Join (elems : List Str) (sep : Str) : Str := sep.intercalate elems

/-- The six ASCII white-space bytes of `strings.TrimSpace`: tab, line feed, vertical tab,
form feed, carriage return and space. -/
def asciiSpace (b : Nat) : Bool := (9 ≤ b && b ≤ 13) || b == 32

/-- The two bytes encode U+0085 or U+00A0. -/
def spasi2 (b0 b1 : Nat) : Bool := b0 == 0xC2 && (b1 == 0x85 || b1 == 0xA0)

/-- The three bytes encode a white-space character of `unicode.IsSpace` beyond Latin-1:
U+1680, U+2000 to U+200A, U+2028, U+2029, U+202F, U+205F or U+3000. -/
def spasi3 (b0 b1 b2 : Nat) : Bool :=
  (b0 == 0xE1 && b1 == 0x9A && b2 == 0x80)
    || (b0 == 0xE2 && b1 == 0x80
        && ((0x80 ≤ b2 && b2 ≤ 0x8A) || b2 == 0xA8 || b2 == 0xA9 || b2 == 0xAF))
    || (b0 == 0xE2 && b1 == 0x81 && b2 == 0x9F)
    || (b0 == 0xE3 && b1 == 0x80 && b2 == 0x80)

/-- Removal of the leading white-space characters. -/
def trimSpaceLeft : Str → Str
  | [] => []
  | b0 :: t1 =>
    if asciiSpace b0 then trimSpaceLeft t1
    else
      match t1 with
      | [] => b0 :: t1
      | b1 :: t2 =>
        if spasi2 b0 b1 then trimSpaceLeft t2
        else
          match t2 with
          | [] => b0 :: t1
          | b2 :: t3 => if spasi3 b0 b1 b2 then trimSpaceLeft t3 else b0 :: t1

/-- Removal of the trailing white-space characters, on the reversed string. -/
def trimSpaceRev : Str → Str
  | [] => []
  | b0 :: t1 =>
    if asciiSpace b0 then trimSpaceRev t1
    else
      match t1 with
      | [] => b0 :: t1
      | b1 :: t2 =>
        if spasi2 b1 b0 then trimSpaceRev t2
        else
          match t2 with
          | [] => b0 :: t1
          | b2 :: t3 => if spasi3 b2 b1 b0 then trimSpaceRev t3 else b0 :: t1

/-- Go `strings.TrimSpace`: the white-space characters of `unicode.IsSpace` are removed at
both ends. -/
def TrimSpace (s : Str) : Str := (trimSpaceRev (trimSpaceLeft s).reverse).reverse

/-! ## Documents and selections

The tree that `html.Parse` builds, and the operations of `goquery` that the parser uses. A
node of a document is named by its path, the list of child indices that leads to it from
the root, and a selection is a list of paths in a document. -/

/-- A node of `golang.org/x/net/html`. -/
inductive Node where
  /-- The document node. -/
  | document (children : List Node)
  /-- An element node: its tag is `Data`, its attributes are pairs of key and value. -/
  | element (tag : Str) (attr : List (Str × Str)) (children : List Node)
  /-- A text node with its `Data`. -/
  | text (data : Str)
  /-- A comment node with its `Data`. -/
  | comment (data : Str)
  /-- A node that `Remove` has detached: nothing reaches it from its former parent, while
  a selection made earlier still reaches the nodes inside it. -/
  | removed (n : Node)

/-- The place of a node in a document: child indices from the root. -/
abbrev Path := List Nat

/-- The node is attached (not detached by `Remove`). -/
def Node.hidup : Node → Bool
  | .removed _ => false
  | _ => true

/-- The node is an `ElementNode`. -/
def Node.isElement : Node → Bool
  | .element _ _ _ => true
  | _ => false

/-- The child nodes as stored, detached ones included. -/
def Node.children : Node → List Node
  | .document cs => cs
  | .element _ _ cs => cs
  | _ => []

/-- The field `Data`. -/
def Node.Data : Node → Str
  | .element tag _ _ => tag
  | .text data => data
  | .comment data => data
  | _ => []

mutual
/-- The node that a path leads to. -/
def Node.di : Node → Path → Option Node
  | .removed n, p => Node.di n p
  | .document cs, [] => some (.document cs)
  | .element tag attr cs, [] => some (.element tag attr cs)
  | .text data, [] => some (.text data)
  | .comment data, [] => some (.comment data)
  | .document cs, i :: p => diAnak cs i p
  | .element _ _ cs, i :: p => diAnak cs i p
  | .text _, _ :: _ => none
  | .comment _, _ :: _ => none
/-- The node that a path leads to from a list of children. -/
def diAnak : List Node → Nat → Path → Option Node
  | [], _, _ => none
  | c :: _, 0, p => Node.di c p
  | _ :: cs, i + 1, p => diAnak cs i p
end

mutual
/-- The function `getNodeText` of `goquery`: the text nodes below a node, in order. -/
def getNodeText : Node → Str
  | .text data => data
  | .document cs => getNodeTextAnak cs
  | .element _ _ cs => getNodeTextAnak cs
  | .comment _ => []
  | .removed _ => []
/-- The text of a list of children. -/
def getNodeTextAnak : List Node → Str
  | [] => []
  | c :: cs => getNodeText c ++ getNodeTextAnak cs
end

/-- The method `Text` of a selection. -/
def Text (doc : Node) (sel : List Path) : Str :=
  sel.flatMap fun p =>
    match doc.di p with
    | some n => getNodeText n
    | none => []

/-- The function `goquery.NodeName` for the first node of a selection. -/
def NodeName (doc : Node) (sel : List Path) : Str :=
  match sel with
  | [] => []
  | p :: _ =>
    match doc.di p with
    | some (.element tag _ _) => tag
    | some (.text _) => str "#text"
    | some (.document _) => str "#document"
    | some (.comment _) => str "#comment"
    | _ => []

/-- Value of the first attribute with the key, if any. -/
def cariAttr (attr : List (Str × Str)) (key : Str) : Option Str :=
  (attr.find? fun a => a.1 == key).map fun a => a.2

/-- The method `AttrOr` of a selection. -/
def AttrOr (doc : Node) (sel : List Path) (nama bawaan : Str) : Str :=
  match sel with
  | [] => bawaan
  | p :: _ =>
    match doc.di p with
    | some (.element _ attr _) => (cariAttr attr nama).getD bawaan
    | _ => bawaan

/-- A test on one attribute in a selector. -/
inductive AttrTest where
  /-- The test `[key="val"]`. -/
  | sama (key val : Str)
  /-- The test `[key*="val"]`. -/
  | memuat (key val : Str)
  /-- The test `.val`: `val` is one of the words of the attribute `class`. -/
  | kelas (val : Str)

/-- The selectors of the parser: an optional tag and tests on attributes. -/
structure Selector where
  tag : Option Str
  uji : List AttrTest

/-- The words of a `class` attribute, cut at space, tab, carriage return, line feed and
form feed. -/
def kataKelas : Str → Str → List Str
  | kata, [] => [kata]
  | kata, b :: rest =>
    if b == 32 || b == 9 || b == 13 || b == 10 || b == 12 then kata :: kataKelas [] rest
    else kataKelas (kata ++ [b]) rest

/-- One attribute test of `cascadia` on the attributes of an element. An element is taken
to carry one attribute per key, as the tree construction of HTML prescribes: the test
reads the attribute that `AttrOr` reads, the first one with the key. -/
def AttrTest.cocok (attr : List (Str × Str)) : AttrTest → Bool
  | .sama key val => cariAttr attr key == some val
  | .memuat key val =>
    match cariAttr attr key with
    | some v => val != [] && Contains v val
    | none => false
  | .kelas val =>
    match cariAttr attr (str "class") with
    | some v => (kataKelas [] v).contains val
    | none => false

/-- The selector matches the node: only elements match. -/
def Selector.cocok (sel : Selector) : Node → Bool
  | .element tag attr _ =>
    (match sel.tag with
      | some t => tag == t
      | none => true) && sel.uji.all fun u => u.cocok attr
  | _ => false

/-- The selector of a tag, such as `"hr"`. -/
def selTag (tag : String) : Selector := { tag := some (str tag), uji := [] }

/-- The selector `"*"`. -/
def selSemua : Selector := { tag := none, uji := [] }

/-- The selector of a class, such as `".rootword"`. -/
def selKelas (kelas : String) : Selector := { tag := none, uji := [.kelas (str kelas)] }

/-- The selector of a tag and a class, such as `"span.entrisButton"`. -/
def selTagKelas (tag kelas : String) : Selector :=
  { tag := some (str tag), uji := [.kelas (str kelas)] }

/-- The selector of an attribute value, such as `[color="red"]`. -/
def selAttr (key val : String) : Selector := { tag := none, uji := [.sama (str key) (str val)] }

/-- The selector of a tag and a part of an attribute value, such as
`span[style*="color:red"]`. -/
def selTagMemuat (tag key val : String) : Selector :=
  { tag := some (str tag), uji := [.memuat (str key) (str val)] }

mutual
/-- The matching nodes of the subtree of a node, the node itself included, in document
order. -/
def cariNode (sel : Selector) : Path → Node → List Path
  | p, .element tag attr cs =>
    (if sel.cocok (.element tag attr cs) then [p] else []) ++ cariAnak sel p 0 cs
  | p, .document cs => cariAnak sel p 0 cs
  | _, .text _ => []
  | _, .comment _ => []
  | _, .removed _ => []
/-- The matching nodes below the children of the node at a path. -/
def cariAnak (sel : Selector) (p : Path) : Nat → List Node → List Path
  | _, [] => []
  | i, c :: cs => cariNode sel (p ++ [i]) c ++ cariAnak sel p (i + 1) cs
end

/-- A list of paths without the later occurrences of a path, as `goquery` keeps a node
once in a selection. -/
def tanpaUlang : List Path → List Path
  | [] => []
  | p :: ps => p :: (tanpaUlang ps).filter fun q => q != p

/-- The method `Find` of a selection: the descendants of its nodes that match, in order
and without repetition. -/
def Find (doc : Node) (sel : List Path) (selector : Selector) : List Path :=
  (sel.flatMap fun p =>
    match doc.di p with
    | some n => cariAnak selector p 0 n.children
    | none => []) |> tanpaUlang

/-- The attached children of a list of children from index `i` on, with their indices. -/
def anakHidup : Nat → List Node → List (Nat × Node)
  | _, [] => []
  | i, c :: cs => (if c.hidup then [(i, c)] else []) ++ anakHidup (i + 1) cs

/-- The method `Contents` of a selection: the children of its nodes, of every type. -/
def Contents (doc : Node) (sel : List Path) : List Path :=
  sel.flatMap fun p =>
    match doc.di p with
    | some n => (anakHidup 0 n.children).map fun c => p ++ [c.1]
    | none => []

/-- The attached siblings that follow the node at a path, with their indices; a detached
node has none. -/
def saudaraBerikut (doc : Node) (p : Path) : List (Nat × Node) :=
  match p.getLast? with
  | none => []
  | some i =>
    match doc.di p.dropLast with
    | none => []
    | some induk =>
      match induk.children.get? i with
      | some (.removed _) => []
      | _ => anakHidup (i + 1) (induk.children.drop (i + 1))

/-- The field `NextSibling` of the node at a path. -/
def NextSibling (doc : Node) (p : Path) : Option Node :=
  (saudaraBerikut doc p).head?.map fun c => c.2

/-- The method `NextAll` of a selection: the element siblings that follow its nodes. -/
def NextAll (doc : Node) (sel : List Path) : List Path :=
  (sel.flatMap fun p =>
    ((saudaraBerikut doc p).filter fun c => c.2.isElement).map fun c =>
      p.dropLast ++ [c.1]) |> tanpaUlang

/-- The method `Next` of a selection: the next element sibling of each of its nodes. -/
def Next (doc : Node) (sel : List Path) : List Path :=
  (sel.flatMap fun p =>
    (((saudaraBerikut doc p).filter fun c => c.2.isElement).take 1).map fun c =>
      p.dropLast ++ [c.1]) |> tanpaUlang

/-- The method `First` of a selection. -/
def First (sel : List Path) : List Path := sel.take 1

mutual
/-- The document in which the node at a path is detached. -/
def lepas : Node → Path → Node
  | .removed n, [] => .removed n
  | .removed n, i :: p => .removed (lepas n (i :: p))
  | .document cs, [] => .removed (.document cs)
  | .element tag attr cs, [] => .removed (.element tag attr cs)
  | .text data, [] => .removed (.text data)
  | .comment data, [] => .removed (.comment data)
  | .document cs, i :: p => .document (lepasAnak cs i p)
  | .element tag attr cs, i :: p => .element tag attr (lepasAnak cs i p)
  | .text data, _ :: _ => .text data
  | .comment data, _ :: _ => .comment data
/-- The children among which the node at a path is detached. -/
def lepasAnak : List Node → Nat → Path → List Node
  | [], _, _ => []
  | c :: cs, 0, p => lepas c p :: cs
  | c :: cs, i + 1, p => c :: lepasAnak cs i p
end

/-- The method `Remove` of a selection: the document without its nodes. -/
def Remove (doc : Node) (sel : List Path) : Node := sel.foldl lepas doc

/-- What the parser takes from outside the repository and is left uninterpreted: the
parser and the renderer of `golang.org/x/net/html`, and the order in which a `range` visits
the two keys of the map of `parseTerkait`. -/
structure PustakaHTML where
  /-- The function `goquery.NewDocumentFromReader` on a string. -/
  Parse : Str → Except Galat Node
  /-- The function `html.Render` on each node of a list, as `Selection.Html` writes the
  children of a node. -/
  Render : List Node → Str
  /-- At the n-th heading, the key "Kata Turunan" is visited before "Gabungan Kata". -/
  turunanDulu : Nat → Bool

/-- The method `Html` of a selection: the rendering of the children of its first node. -/
def Html (H : PustakaHTML) (doc : Node) (sel : List Path) : Str :=
  match sel with
  | [] => []
  | p :: _ =>
    match doc.di p with
    | some n => H.Render ((anakHidup 0 n.children).map fun c => c.2)
    | none => []

/-! ## Result model (model.go) -/

/-- The struct `KelasKata`. -/
structure KelasKata where
  Kode : Str
  Nama : Str
  Deskripsi : Str
  deriving DecidableEq

/-- The struct `Makna`. -/
structure Makna where
  Kelas : List KelasKata
  Submakna : List Str
  Info : Str
  Contoh : List Str
  deriving DecidableEq

/-- The struct `Etimologi`. -/
structure Etimologi where
  Kelas : List Str
  Bahasa : Str
  AsalKata : Str
  Pelafalan : Str
  Arti : List Str
  deriving DecidableEq

/-- The struct `Entri`; a nil slice and an empty slice are both the empty list. -/
structure Entri where
  Nama : Str
  Nomor : Str
  KataDasar : List Str
  Varian : List Str
  BentukTidakBaku : List Str
  Pelafalan : Str
  Makna : List Makna
  Etimologi : Option Etimologi
  KataTurunan : List Str
  GabunganKata : List Str
  Peribahasa : List Str
  Idiom : List Str
  deriving DecidableEq

/-- The struct `Definisi` as the parser fills it: `ParseDefinisi` and
`parsePeribahawanIdiom` assign the fields `Peribahasa` and `Idiom` of the result, which
the declaration in model.go does not list. -/
structure Definisi where
  Pranala : Str
  Entri : List Entri
  Peribahasa : List Str
  Idiom : List Str
  SaranEntri : List Str
  deriving DecidableEq

/-- The zero value `model.Entri{}`. -/
def Entri.nol : Entri :=
  { Nama := [], Nomor := [], KataDasar := [], Varian := [], BentukTidakBaku := [],
    Pelafalan := [], Makna := [], Etimologi := none, KataTurunan := [], GabunganKata := [],
    Peribahasa := [], Idiom := [] }

/-! ## Structural parser (parser.go) -/

/-- The path of the document node, the selection that `doc.Find` starts from. -/
def akar : List Path := [[]]

/-- The cross-reference arrow "→". -/
def panah : Str := str "→"

/-- The function `parseSaranEntri`. -/
def parseSaranEntri (doc : Node) : List Str :=
  (Find doc akar (selKelas "col-md-3")).filterMap fun s =>
    let saran := TrimSpace (Text doc [s])
    if saran ≠ [] then some saran else none

/-- The function `ambilTeksDalamLabel`. -/
def ambilTeksDalamLabel (doc : Node) (s : List Path) : Str :=
  Join ((Contents doc s).filterMap fun content =>
    if NodeName doc [content] = str "#text" then
      let text := TrimSpace (Text doc [content])
      if text ≠ [] then some text else none
    else none) (str " ")

/-- The function `parseNamaEntri`. -/
def parseNamaEntri (doc : Node) (judul : List Path) (entri : Entri) : Entri :=
  let italic := Find doc judul (selTag "i")
  if italic.length > 0 then { entri with Nama := TrimSpace (Text doc italic) }
  else
    let textParts := (Contents doc judul).filterMap fun s =>
      if NodeName doc [s] = str "#text" then
        let text := TrimSpace (Text doc [s])
        if text ≠ [] then some text else none
      else none
    { entri with Nama := Join textParts (str " ") }

/-- The function `parseNomorEntri`. -/
def parseNomorEntri (doc : Node) (judul : List Path) (entri : Entri) : Entri :=
  let sup := First (Find doc judul (selTag "sup"))
  if sup.length > 0 then { entri with Nomor := TrimSpace (Text doc sup) } else entri

/-- The function `parseKataDasar`. -/
def parseKataDasar (doc : Node) (judul : List Path) (entri : Entri) : Entri :=
  (Find doc judul (selKelas "rootword")).foldl (fun entri s =>
    let link := Find doc [s] (selTag "a")
    if link.length > 0 then
      let kata := ambilTeksDalamLabel doc link
      let nomor := Find doc link (selTag "sup")
      let kata :=
        if nomor.length > 0 then kata ++ str " (" ++ TrimSpace (Text doc nomor) ++ str ")"
        else kata
      { entri with KataDasar := entri.KataDasar ++ [kata] }
    else entri) entri

/-- The function `parsePelafalan`. -/
def parsePelafalan (doc : Node) (judul : List Path) (entri : Entri) : Entri :=
  let lafal := Find doc judul (selKelas "syllable")
  if lafal.length > 0 then { entri with Pelafalan := TrimSpace (Text doc lafal) } else entri

/-- The choice of the `small` element in `parseVarian`: `none` is the nil pointer. -/
def pilihVarian (doc : Node) (judul : List Path) (terautentikasi : Bool) :
    Option (List Path) :=
  if terautentikasi then
    (Find doc judul (selTag "small")).foldl (fun varian s =>
      let span := Find doc [s] (selTag "span")
      if span.length > 0 && Contains (AttrOr doc span (str "class") []) (str "entrisButton")
      then varian
      else some [s]) none
  else some (First (Find doc judul (selTag "small")))

/-- The function `parseVarian`. -/
def parseVarian (doc : Node) (judul : List Path) (entri : Entri) (terautentikasi : Bool) :
    Entri :=
  match pilihVarian doc judul terautentikasi with
  | none => entri
  | some varian =>
    if varian.length = 0 then entri
    else
      let bentukTidakBaku := Find doc varian (selTag "b")
      if bentukTidakBaku.length > 0 then
        bentukTidakBaku.foldl (fun entri s =>
          let nama := TrimLeft (TrimSpace (Text doc [s])) (str ", ")
          let nomor := Find doc [s] (selTag "sup")
          let nama :=
            if nomor.length > 0 then nama ++ str " (" ++ TrimSpace (Text doc nomor) ++ str ")"
            else nama
          { entri with BentukTidakBaku := entri.BentukTidakBaku ++ [nama] }) entri
      else
        let text := TrimSpace (Text doc varian)
        if HasPrefix text (str "varian: ") then
          { entri with
            Varian := (Split (TrimPrefix text (str "varian: ")) (str ", ")).map TrimSpace }
        else entri

/-- The trimmed text of the last node of a selection, as a loop of assignments leaves it;
empty when the selection is empty. -/
def teksTerakhir (doc : Node) (sel : List Path) : Str :=
  sel.foldl (fun _ s => TrimSpace (Text doc [s])) []

/-- The function `parseEtimologiHTML`; `none` is the nil pointer. -/
def parseEtimologiHTML (H : PustakaHTML) (html : Str) : Option Etimologi :=
  let html := TrimPrefix html (str "[")
  let html := TrimSuffix html (str "]")
  match H.Parse html with
  | .error _ => none
  | .ok doc =>
    let kelas := (Find doc akar (selTagMemuat "span" "style" "color:red")).filterMap fun s =>
      let kelas := TrimSpace (Text doc [s])
      if kelas ≠ [] then some kelas else none
    let text := Trim (Text doc akar) (str "'\"")
    some
      { Kelas := kelas,
        Bahasa := teksTerakhir doc (Find doc akar (selTagMemuat "i" "style" "color:darkred")),
        AsalKata := teksTerakhir doc (Find doc akar (selTag "b")),
        Pelafalan :=
          teksTerakhir doc (Find doc akar (selTagMemuat "span" "style" "color:darkgreen")),
        Arti :=
          if Contains text (str "; ") then (Split text (str "; ")).map TrimSpace
          else if text ≠ [] then [TrimSpace text]
          else [] }

/-- The function `parseEtimologi`. -/
def parseEtimologi (H : PustakaHTML) (doc : Node) (entri : Entri) : Entri :=
  (Find doc akar selSemua).foldl (fun entri s =>
    if Contains (Text doc [s]) (str "Etimologi:") then
      let next := Next doc [s]
      if next.length > 0 then
        match parseEtimologiHTML H (Html H doc next) with
        | some etimologi => { entri with Etimologi := some etimologi }
        | none => entri
      else entri
    else entri) entri

/-- The trimmed non-empty texts of the links below the next sibling of a heading. -/
def tautanBerikut (doc : Node) (s : Path) : List Str :=
  let next := Next doc [s]
  if next.length > 0 then
    (Find doc next (selTag "a")).filterMap fun link =>
      let text := TrimSpace (Text doc [link])
      if text ≠ [] then some text else none
  else []

/-- One heading of `parseTerkait`: the first key of the map, in the order of the `range`,
that the heading contains decides the field that receives the links. -/
def terkaitSatu (H : PustakaHTML) (doc : Node) (entri : Entri) (i : Nat) (s : Path) : Entri :=
  let headerText := TrimSpace (Text doc [s])
  let turunan := Contains headerText (str "Kata Turunan")
  let gabungan := Contains headerText (str "Gabungan Kata")
  if turunan && (H.turunanDulu i || !gabungan) then
    { entri with KataTurunan := entri.KataTurunan ++ tautanBerikut doc s }
  else if gabungan then
    { entri with GabunganKata := entri.GabunganKata ++ tautanBerikut doc s }
  else entri

/-- The function `parseTerkait`. -/
def parseTerkait (H : PustakaHTML) (doc : Node) (entri : Entri) : Entri :=
  ((Find doc akar (selTag "h4")).enum.foldl (fun entri s =>
    terkaitSatu H doc entri s.1 s.2) entri)

/-- The word class that `parseMaknaSingle` reads from an element: its trimmed text as the
code, and its `title` cut at ": " into name and description. -/
def bacaKelas (doc : Node) (s : Path) : KelasKata :=
  let parts := Split (AttrOr doc [s] (str "title") []) (str ": ")
  { Kode := TrimSpace (Text doc [s]),
    Nama :=
      match parts with
      | nama :: _ => TrimSpace nama
      | [] => [],
    Deskripsi :=
      match parts with
      | _ :: deskripsi :: _ => TrimSpace deskripsi
      | _ => [] }

/-- The sub-senses that `parseMaknaSingle` reads, before their final trimming. -/
def bacaSubmakna (doc : Node) (s : Path) : List Str :=
  let rujukan := Find doc [s] (selTag "a")
  if rujukan.length > 0
      && (Find doc rujukan (selTagMemuat "span" "style" "color:red")).length = 0 then
    let rujukanText := ambilTeksDalamLabel doc rujukan
    let nomor := Find doc rujukan (selTag "sup")
    let rujukanText :=
      if nomor.length > 0 then
        rujukanText ++ str " (" ++ TrimSpace (Text doc nomor) ++ str ")"
      else rujukanText
    [panah ++ str " " ++ rujukanText]
  else if AttrOr doc [s] (str "color") [] = str "darkgreen" then
    match NextSibling doc s with
    | some next =>
      let text := TrimSpace next.Data
      if text ≠ [] then [text] else []
    | none => []
  else
    let text := (Contents doc [s]).foldl (fun text content =>
      if NodeName doc [content] = str "#text" then text ++ Text doc [content]
      else if NodeName doc [content] ≠ str "font" then text ++ Text doc [content]
      else text) []
    let text := TrimSuffix (TrimSpace text) (str ":")
    if text ≠ [] then
      if Contains text (str "; ") then Split text (str "; ") else [text]
    else []

/-- The function `parseMaknaSingle`: the document after the removal of the buttons, and
the sense. -/
def parseMaknaSingle (doc0 : Node) (s : Path) : Node × Makna :=
  let doc := Remove doc0 (Find doc0 [s] (selTagKelas "span" "entrisButton"))
  let kelas := (Find doc [s] (selAttr "color" "red")).flatMap fun kelasElement =>
    (Find doc [kelasElement] (selTag "span")).filterMap fun span =>
      if (bacaKelas doc span).Kode ≠ [] then some (bacaKelas doc span) else none
  let kelas :=
    if AttrOr doc [s] (str "color") [] = str "darkgreen" then kelas ++ [bacaKelas doc s]
    else kelas
  let info := Find doc [s] (selAttr "color" "green")
  let infoText := TrimSpace (Text doc info)
  let fullText := Text doc [s]
  (doc,
    { Kelas := kelas,
      Info :=
        if info.length > 0 && !(kelas.any fun k => infoText == k.Kode) then infoText else [],
      Submakna := (bacaSubmakna doc s).map TrimSpace,
      Contoh :=
        match Index fullText (str ": ") with
        | some idx =>
          let contohText := TrimSpace (fullText.drop (idx + 2))
          if contohText ≠ [] then (Split contohText (str "; ")).map TrimSpace else []
        | none => [] })

/-- The test of `parseMakna` on a sense: every sub-sense, trimmed, starts with the
arrow. -/
def isAllRujukan (makna : Makna) : Bool :=
  makna.Submakna.all fun submakna => HasPrefix (TrimSpace submakna) panah

/-- One list item of `parseMakna`: the document and the entry after it. -/
def maknaSatu (terautentikasi : Bool) (keadaan : Node × Entri) (s : Path) : Node × Entri :=
  let doc := keadaan.1
  let entri := keadaan.2
  if terautentikasi && Contains (Text doc [s]) (str "Usulkan makna baru") then keadaan
  else if HasPrefix (TrimSpace (Text doc [s])) panah then keadaan
  else
    let hasil := parseMaknaSingle doc s
    if hasil.2.Submakna.length > 0 then
      if isAllRujukan hasil.2 && hasil.2.Kelas.length = 0 then (hasil.1, entri)
      else (hasil.1, { entri with Makna := entri.Makna ++ [hasil.2] })
    else (hasil.1, entri)

/-- The function `parseMakna`. -/
def parseMakna (doc : Node) (entri : Entri) (terautentikasi : Bool) : Entri :=
  let prakategorial := Find doc akar (selAttr "color" "darkgreen")
  match prakategorial with
  | pertama :: _ => { entri with Makna := entri.Makna ++ [(parseMaknaSingle doc pertama).2] }
  | [] => ((Find doc akar (selTag "li")).foldl (maknaSatu terautentikasi) (doc, entri)).2

/-- The function `parseEntri`. -/
def parseEntri (H : PustakaHTML) (htmlEntri : Str) (terautentikasi : Bool) : Entri :=
  match H.Parse htmlEntri with
  | .error _ => Entri.nol
  | .ok doc =>
    let entri := Entri.nol
    let judul := First (Find doc akar (selTag "h2"))
    if judul.length = 0 then entri
    else
      let entri := parseNamaEntri doc judul entri
      let entri := parseNomorEntri doc judul entri
      let entri := parseKataDasar doc judul entri
      let entri := parsePelafalan doc judul entri
      let entri := parseVarian doc judul entri terautentikasi
      let entri :=
        if terautentikasi then parseTerkait H doc (parseEtimologi H doc entri) else entri
      parseMakna doc entri terautentikasi

/-- The variables that the closure of `parseEntriList` changes. -/
structure Segmen where
  entris : List Entri
  currentEntri : Str
  finished : Bool

/-- The block `entri := parseEntri(...); if entri.Nama != ""` of `parseEntriList`: the
entries after the current fragment has been parsed. -/
def simpanEntri (H : PustakaHTML) (terautentikasi : Bool) (entris : List Entri)
    (currentEntri : Str) : List Entri :=
  let entri := parseEntri H currentEntri terautentikasi
  if entri.Nama ≠ [] then entris ++ [entri] else entris

/-- The closure of `parseEntriList` run on one sibling. -/
def langkahSegmen (H : PustakaHTML) (terautentikasi : Bool) (doc : Node) (st : Segmen)
    (s : Path) : Segmen :=
  if NodeName doc [s] = str "hr" ∧ AttrOr doc [s] (str "style") [] = [] then
    { (if st.currentEntri.length > 0 then
        { st with entris := simpanEntri H terautentikasi st.entris st.currentEntri }
       else st) with finished := true }
  else
    let st1 :=
      if NodeName doc [s] = str "h2" ∧ st.currentEntri.length > 0 then
        { st with entris := simpanEntri H terautentikasi st.entris st.currentEntri,
                  currentEntri := [] }
      else st
    if NodeName doc [s] = str "h2" ∧ AttrOr doc [s] (str "style") [] = str "color:gray" then st1
    else
      { st1 with
        currentEntri := st1.currentEntri ++ str "<" ++ NodeName doc [s] ++ str ">"
          ++ Html H doc [s] ++ str "</" ++ NodeName doc [s] ++ str ">" }

/-- The function `parseEntriList`. -/
def parseEntriList (H : PustakaHTML) (doc : Node) (terautentikasi : Bool) : List Entri :=
  let st := (NextAll doc (First (Find doc akar (selTag "hr")))).foldl
    (langkahSegmen H terautentikasi doc) { entris := [], currentEntri := [], finished := false }
  if !st.finished && st.currentEntri.length > 0 then
    simpanEntri H terautentikasi st.entris st.currentEntri
  else st.entris

/-- One heading of `parsePeribahawanIdiom`. -/
def peribahasaSatu (doc : Node) (definisi : Definisi) (s : Path) : Definisi :=
  let headerText := TrimSpace (Text doc [s])
  if Contains headerText (str "Peribahasa") then
    { definisi with Peribahasa := definisi.Peribahasa ++ tautanBerikut doc s }
  else if Contains headerText (str "Idiom") then
    { definisi with Idiom := definisi.Idiom ++ tautanBerikut doc s }
  else definisi

/-- The function `parsePeribahawanIdiom`. -/
def parsePeribahawanIdiom (doc : Node) (definisi : Definisi) : Definisi :=
  (Find doc akar (selTag "h4")).foldl (peribahasaSatu doc) definisi

/-- The function `ParseDefinisi`. -/
def ParseDefinisi (H : PustakaHTML) (html : Str) (terautentikasi : Bool) :
    Except Galat Definisi :=
  match H.Parse html with
  | .error err => .error (Errorf (str "gagal parsing HTML: ") (some err))
  | .ok doc =>
    let definisi : Definisi :=
      { Pranala := [], Entri := [], Peribahasa := [], Idiom := [], SaranEntri := [] }
    if Contains html (str "Berikut beberapa saran entri lain yang mirip.") then
      .ok { definisi with SaranEntri := parseSaranEntri doc }
    else
      .ok (parsePeribahawanIdiom doc
        { definisi with Entri := parseEntriList H doc terautentikasi })

/-- The function `SetPranala`. -/
def SetPranala (d : Definisi) (kata : Str) : Definisi :=
  { d with Pranala := str "https://kbbi.kemdikbud.go.id/entri/" ++ kata }

/-! ## Library surface (kbbi.go) -/

/-- What `CariDenganAuth` hands back: the world and the session after the call, and the
returned pair of result and error, `none` being nil. -/
structure HasilCari where
  world : World
  sesi : Option AutentikasiKBBI
  definisi : Option Definisi
  err : Option Galat

/-- The test `err.(*fetcher.KesalahanKBBI)` with `Jenis == "TidakDitemukan"`. -/
def jenisTidakDitemukan : Galat → Bool
  | .kbbi kesalahanKBBI => kesalahanKBBI.Jenis == str "TidakDitemukan"
  | _ => false

/-- The expression `autentikasi != nil && autentikasi.Terautentikasi`. -/
def sesiTerautentikasi : Option AutentikasiKBBI → Bool
  | some a => a.Terautentikasi
  | none => false

/-- The function `CariDenganAuth`. -/
def CariDenganAuth (E : Env) (H : PustakaHTML) (w : World) (kata : Str)
    (autentikasi : Option AutentikasiKBBI) : HasilCari :=
  let r := AmbilHalamanDenganRetry E w kata autentikasi 3
  match r.err with
  | some err =>
    if jenisTidakDitemukan err ∧ r.html ≠ [] then
      match ParseDefinisi H r.html (sesiTerautentikasi r.sesi) with
      | .error parseErr => ⟨r.world, r.sesi, none, some parseErr⟩
      | .ok definisi => ⟨r.world, r.sesi, some (SetPranala definisi kata), some err⟩
    else ⟨r.world, r.sesi, none, some err⟩
  | none =>
    match ParseDefinisi H r.html (sesiTerautentikasi r.sesi) with
    | .error err => ⟨r.world, r.sesi, none, some err⟩
    | .ok definisi => ⟨r.world, r.sesi, some (SetPranala definisi kata), none⟩

/-! ## Text rendering (model.go) -/

/-- Scan of `ReplaceAll`: `lewati` bytes of an occurrence just replaced are still to be
skipped. -/
def replaceAux (old new : Str) : Nat → Str → Str
  | _, [] => []
  | lewati + 1, _ :: rest => replaceAux old new lewati rest
  | 0, c :: rest =>
    if HasPrefix (c :: rest) old then new ++ replaceAux old new (old.length - 1) rest
    else c :: replaceAux old new 0 rest

/-- Go `strings.ReplaceAll` for a non-empty `old`. -/
def ReplaceAll (s old new : Str) : Str := replaceAux old new 0 s

/-- The method `String` of `Makna`. -/
def Makna.String (m : Makna) : Str :=
  let hasil : List Str := []
  let hasil :=
    if m.Kelas.length > 0 then
      hasil ++ [Join (m.Kelas.map fun k => str "(" ++ k.Kode ++ str ")") (str " ")]
    else hasil
  let hasil := hasil ++ [Join m.Submakna (str "; ")]
  let hasil := if m.Info ≠ [] then hasil ++ [m.Info] else hasil
  if m.Contoh.length > 0 then
    Join hasil (str "  ") ++ str ": " ++ Join m.Contoh (str "; ")
  else Join hasil (str "  ")

/-- The method `String` of `Etimologi`. -/
def Etimologi.String (e : Etimologi) : Str :=
  let hasil : List Str := []
  let hasil := if e.Bahasa ≠ [] then hasil ++ [str "[" ++ e.Bahasa ++ str "]"] else hasil
  let hasil :=
    if e.Kelas.length > 0 then
      hasil ++ [Join (e.Kelas.map fun k => str "(" ++ k ++ str ")") (str " ")]
    else hasil
  let asalKata := e.AsalKata
  let asalKata := if e.Pelafalan ≠ [] then asalKata ++ str " " ++ e.Pelafalan else asalKata
  let hasil := hasil ++ [asalKata]
  if e.Arti.length > 0 then Join hasil (str " ") ++ str ": " ++ Join e.Arti (str "; ")
  else Join hasil (str " ")

/-- The numbered lines that `Entri.String` writes for several senses, from the index
`i`. -/
def barisMakna : Nat → List Makna → List Str
  | _, [] => []
  | i, makna :: rest =>
    (fmtInt ((i + 1 : Nat) : Int) ++ str ". " ++ makna.String) :: barisMakna (i + 1) rest

/-- The method `String` of `Entri`. -/
def Entri.String (e : Entri) : Str :=
  let nama := e.Nama
  let nama := if e.Nomor ≠ [] then nama ++ str " (" ++ e.Nomor ++ str ")" else nama
  let nama :=
    if e.KataDasar.length > 0 then Join e.KataDasar (str " » ") ++ str " » " ++ nama
    else nama
  let nama := if e.Pelafalan ≠ [] then nama ++ str "  " ++ e.Pelafalan else nama
  let hasil : List Str := [nama]
  let hasil :=
    if e.BentukTidakBaku.length > 0 then
      hasil ++ [str "bentuk tidak baku: " ++ Join e.BentukTidakBaku (str ", ")]
    else if e.Varian.length > 0 then hasil ++ [str "varian: " ++ Join e.Varian (str ", ")]
    else hasil
  let hasil :=
    match e.Etimologi with
    | some etimologi => hasil ++ [str "Etimologi: " ++ etimologi.String]
    | none => hasil
  let hasil :=
    match e.Makna with
    | [] => hasil
    | [makna] => hasil ++ [makna.String]
    | _ => hasil ++ barisMakna 0 e.Makna
  let namaMurni := ReplaceAll e.Nama (str ".") []
  let hasil :=
    if e.KataTurunan.length > 0 then
      hasil ++ [str "\nKata Turunan\n" ++ Join e.KataTurunan (str "; ")]
    else hasil
  let hasil :=
    if e.GabunganKata.length > 0 then
      hasil ++ [str "\nGabungan Kata\n" ++ Join e.GabunganKata (str "; ")]
    else hasil
  let hasil :=
    if e.Peribahasa.length > 0 then
      hasil ++ [str "\nPeribahasa (mengandung [" ++ namaMurni ++ str "])\n"
        ++ Join e.Peribahasa (str "; ")]
    else hasil
  let hasil :=
    if e.Idiom.length > 0 then
      hasil ++ [str "\nIdiom (mengandung [" ++ namaMurni ++ str "])\n"
        ++ Join e.Idiom (str "; ")]
    else hasil
  Join hasil (str "\n")

/-- The method `String` of `Definisi`. -/
def Definisi.String (d : Definisi) : Str :=
  if d.SaranEntri.length > 0 ∧ d.Entri.length = 0 then
    str "Berikut beberapa saran entri lain yang mirip.\n" ++ Join d.SaranEntri (str ", ")
  else Join (d.Entri.map fun entri => entri.String) (str "\n\n")

/-- The encoder of `encoding/json` on a result, left uninterpreted. -/
structure PustakaJSON where
  /-- Go `json.Marshal`. -/
  Marshal : Definisi → Except Galat Str
  /-- Go `json.MarshalIndent` with the prefix "" and the indent of two spaces. -/
  MarshalIndent : Definisi → Except Galat Str

/-- The method `ToJSON` of `Definisi`. -/
def Definisi.ToJSON (J : PustakaJSON) (d : Definisi) (indent : Bool) : Except Galat Str :=
  match (if indent then J.MarshalIndent d else J.Marshal d) with
  | .error err => .error (Errorf (str "gagal mengkonversi ke JSON: ") (some err))
  | .ok data => .ok data

/-! ## Command line (cmd/kbbi/main.go) -/

/-- The flags that a search reads. -/
structure Bendera where
  kata : Str
  outputJSON : Bool
  indentJSON : Bool
  tanpaContoh : Bool
  tanpaTerkait : Bool

/-- What a function of the command line does: the pieces that it prints on the standard
output, first to last, the results that it hands to `tampilkanHasil`, and the error that
it returns. -/
structure Keluaran where
  stdout : List Str
  ditampilkan : List Definisi
  err : Option Galat

/-- The function `hapusContoh`. -/
def hapusContoh (text : Str) : Str :=
  let lines := Split text (str "\n")
  let hasil := lines.map fun line =>
    match Index line (str ": ") with
    | some idx =>
      match TrimSpace line with
      | c :: _ => if 49 ≤ c ∧ c ≤ 57 then line.take idx else line
      | [] => line
    | none => line
  Join hasil (str "\n")

/-- The function `hapusTerkait`. -/
def hapusTerkait (text : Str) : Str :=
  let lines := Split text (str "\n")
  let akhir := lines.foldl (fun (keadaan : List Str × Bool) line =>
    let hasil := keadaan.1
    let skipMode := keadaan.2
    let trimmed := TrimSpace line
    if skipMode || HasPrefix trimmed (str "Kata Turunan")
        || HasPrefix trimmed (str "Gabungan Kata") || HasPrefix trimmed (str "Peribahasa")
        || HasPrefix trimmed (str "Idiom") then (hasil, true)
    else if Contains trimmed (str "→") then (hasil, skipMode)
    else if skipMode && trimmed == [] then (hasil, false)
    else if skipMode && Contains trimmed (str ";") then (hasil, skipMode)
    else
      let skipMode :=
        if skipMode && !Contains trimmed (str ";") && trimmed != [] then false else skipMode
      if !skipMode then (hasil ++ [line], skipMode) else (hasil, skipMode)) ([], false)
  Join akhir.1 (str "\n")

/-- The function `tampilkanHasil`. -/
def tampilkanHasil (J : PustakaJSON) (F : Bendera) (definisi : Definisi) : Keluaran :=
  if F.outputJSON then
    match definisi.ToJSON J F.indentJSON with
    | .error err =>
      ⟨[], [definisi], some (Errorf (str "gagal mengkonversi ke JSON: ") (some err))⟩
    | .ok jsonStr => ⟨[jsonStr ++ str "\n"], [definisi], none⟩
  else
    let output := definisi.String
    let output := if F.tanpaContoh then hapusContoh output else output
    let output := if F.tanpaTerkait then hapusTerkait output else output
    ⟨[output ++ str "\n"], [definisi], none⟩

/-- The function `tampilkanSaran`. -/
def tampilkanSaran (H : PustakaHTML) (J : PustakaJSON) (F : Bendera) (html : Str)
    (autentikasiObj : Option AutentikasiKBBI) : Keluaran :=
  let terautentikasi := sesiTerautentikasi autentikasiObj
  match ParseDefinisi H html terautentikasi with
  | .error err => ⟨[], [], some (Errorf (str "gagal parsing saran: ") (some err))⟩
  | .ok definisi =>
    let stdout : List Str :=
      if !F.outputJSON then [F.kata ++ str " tidak ditemukan dalam KBBI.\n"] else []
    if definisi.SaranEntri.length > 0 ∧ (terautentikasi = true ∨ F.outputJSON = true) then
      let r := tampilkanHasil J F definisi
      ⟨stdout ++ r.stdout, r.ditampilkan, r.err⟩
    else ⟨stdout, [], none⟩

/-- The function `lakukanPencarian` from the fetch on; `autentikasiObj` is the session
that its first block has set up, nil with `--nonpengguna` or when `auth.BaruAuth`
fails. -/
def lakukanPencarian (E : Env) (H : PustakaHTML) (J : PustakaJSON) (F : Bendera) (w : World)
    (autentikasiObj : Option AutentikasiKBBI) : Keluaran :=
  let r := AmbilHalamanDenganRetry E w F.kata autentikasiObj 3
  match r.err with
  | some err =>
    if jenisTidakDitemukan err ∧ r.html ≠ [] then tampilkanSaran H J F r.html r.sesi
    else ⟨[], [], some err⟩
  | none =>
    match ParseDefinisi H r.html (sesiTerautentikasi r.sesi) with
    | .error err => ⟨[], [], some (Errorf (str "gagal parsing HTML: ") (some err))⟩
    | .ok definisi => tampilkanHasil J F (SetPranala definisi F.kata)

/-! ## Notions used by the statements -/

/-- The condition under which the specification sends a term to the search path: it
contains "." or "?", or its lower-cased form is "nul" or "bin". -/
def kataKhusus (L : Pustaka) (kata : Str) : Prop :=
  Contains kata (str ".") = true ∨ Contains kata (str "?") = true
    ∨ L.ToLower kata = str "nul" ∨ L.ToLower kata = str "bin"

/-- The lookup that `AmbilHalamanDenganCache` starts with is a hit: the cache is in use,
its manager can be created and `AmbilCache` finds the term. -/
def cacheHit (E : Env) (w : World) (kata lokasiKuki : Str) (tanpaCache : Bool) : Bool :=
  if tanpaCache then false
  else
    match BaruManagerCache E lokasiKuki with
    | .error _ => false
    | .ok m => (m.AmbilCache E w kata).2.2

/-- The URL that `ambilHalamanLangsung` requests for a term. -/
def urlLengkap (L : Pustaka) (kata : Str) : Str :=
  HostKBBI ++ str "/" ++ tentukanLokasi L kata

/-- A response that the retry loop answers with another attempt: a failure at the
transport level (no page with status 200 was read), or a page classified
`ErrTerjadiKesalahan`. -/
def Respons.sementara : Respons → Bool
  | .halaman url isi => cekKesalahan url isi == some ErrTerjadiKesalahan
  | _ => true

/-- A later use of the cache store through a manager. -/
inductive OperasiCache where
  /-- A call of `AmbilCache` for a term. -/
  | ambil (kata : Str)
  /-- A call of `SimpanCache` for a term and a markup. -/
  | simpan (kata html : Str)

/-- The world after one use of the cache store. -/
def OperasiCache.jalankan (m : ManagerCache) (E : Env) (w : World) : OperasiCache → World
  | .ambil kata => (m.AmbilCache E w kata).1
  | .simpan kata html => (m.SimpanCache E w kata html).1

/-- The world after a sequence of uses of the cache store, first to last. -/
def jalankanSemua (m : ManagerCache) (E : Env) : World → List OperasiCache → World
  | w, [] => w
  | w, op :: ops => jalankanSemua m E (op.jalankan m E w) ops

/-- The operation writes the file of the term `kata`. -/
def OperasiCache.menulis (m : ManagerCache) (L : Pustaka) (kata : Str) : OperasiCache → Prop
  | .ambil _ => False
  | .simpan k _ => m.namaFileCache L k = m.namaFileCache L kata

/-- A world with an empty file system in which nothing has happened yet. -/
def duniaAwal : World where
  files := fun _ => none
  clock := 0
  fetches := 0
  courtesy := 0
  backoff := []
  saves := 0

/-- The pair of markup and error that the network attempt number `n` (counted from 0)
returns for a term: `ambilHalamanLangsung` run as that attempt. -/
def percobaan (E : Env) (kata : Str) (n : Nat) : Str × Option Galat :=
  ((ambilHalamanLangsung E { duniaAwal with fetches := n } kata none).html,
   (ambilHalamanLangsung E { duniaAwal with fetches := n } kata none).err)

/-- The file cannot give a hit whatever the clock reads: it does not exist, or it cannot
be read or decoded. -/
def buntu (files : Str → Option Berkas) (path : Str) : Prop :=
  files path = none ∨ files path = some .rusak

/-- The lookup of `AmbilHalamanDenganCache` cannot be a hit whatever the clock reads: the
cache is not in use, or its manager cannot be created, or the file of the term cannot give
a hit. -/
def tetapMiss (E : Env) (files : Str → Option Berkas) (kata lokasiKuki : Str)
    (tanpaCache : Bool) : Prop :=
  tanpaCache = true ∨ (∃ err, BaruManagerCache E lokasiKuki = .error err)
    ∨ ∃ m, BaruManagerCache E lokasiKuki = .ok m ∧ buntu files (m.namaFileCache E.lib kata)

/-- The message of the error that `AmbilHalamanDenganRetrydanCache` returns when its loop
is exhausted. -/
def pesanHabis (maxRetry : Int) (lastErr : Option Galat) : Str :=
  str "gagal mengambil halaman setelah " ++ fmtInt maxRetry ++ str " percobaan: "
    ++ fmtErr lastErr

/-- The marker of a page with suggestions. -/
def penandaSaran : Str := str "Berikut beberapa saran entri lain yang mirip."

/-- The fields of an entry that the specification reserves to an authenticated parse. -/
def Entri.khusus (e : Entri) :
    Option GoKBBI.Etimologi × List Str × List Str × List Str × List Str :=
  (e.Etimologi, e.KataTurunan, e.GabunganKata, e.Peribahasa, e.Idiom)

/-- The variants and the nonstandard forms of an entry. -/
def Entri.bentuk (e : Entri) : List Str × List Str := (e.Varian, e.BentukTidakBaku)

/-- The tag and the attributes of a node, when it is an element. -/
def kepala : Option Node → Option (Str × List (Str × Str))
  | some (.element tag attr _) => some (tag, attr)
  | _ => none

/-- The sense has no word class and nothing but cross-references for sub-senses: each of
them starts with the arrow. -/
def hanyaRujukan (m : Makna) : Prop :=
  m.Kelas = [] ∧ ∀ sub ∈ m.Submakna, HasPrefix sub panah = true

/-- The value of a lower-case hexadecimal digit. -/
def nilaiHex (c : Nat) : Nat := if 48 ≤ c ∧ c ≤ 57 then c - 48 else c - 87

/-- The bytes that a string of hexadecimal digits spells, two digits to the byte. -/
def hexDecode : Str → Str
  | c1 :: c2 :: rest => (nilaiHex c1 * 16 + nilaiHex c2) :: hexDecode rest
  | _ => []

/-! ## Examples of surroundings -/

/-- A library for the examples: lower-casing of ASCII letters, escapes that leave a term
of letters as it is, paths joined by "/", and a stand-in digest. -/
def pustakaContoh : Pustaka where
  ToLower := fun s => s.map fun b => if 65 ≤ b ∧ b ≤ 90 then b + 32 else b
  QueryEscape := fun s => s
  PathEscape := fun s => s
  Dir := fun _ => str "."
  Join := fun elem => (str "/").intercalate elem
  Sum256 := fun s => s

/-- Surroundings for the examples: the clock reads `jam`, the file system has no fault,
and every HTTP exchange comes to `respons`. -/
def envContoh (jam : Int) (respons : Respons) : Env where
  lib := pustakaContoh
  now := fun _ => jam
  homeDir := .ok (str "/home/u")
  mkdirAll := fun _ => none
  marshalErr := fun _ => none
  writeFile := fun _ => none
  http := fun _ _ => respons


/-- The manager that `BaruManagerCache` creates in `envContoh` for the default location. -/
def managerContoh : ManagerCache :=
  { DirektorCache := pustakaContoh.Join [str "/home/u", str ".kbbi", DirCache] }

/-- The entry that `SimpanCache` leaves in `envContoh` at time 0 for the term "a" and the
markup "rumah". -/
def entriContoh : EntriCache :=
  { Kata := jsonString (str "a"), HTML := jsonString (str "rumah"), Timestamp := 0,
    Expired := 0 + DurasiCache }

/-- Surroundings as `envContoh`, except that the cache directory cannot be created. -/
def envTanpaDirektori (jam : Int) (respons : Respons) : Env :=
  { envContoh jam respons with mkdirAll := fun _ => some (.polos (str "permission denied")) }

/-- The element names that `html.Render` writes without an end tag. -/
def tagKosong (tag : Str) : Bool :=
  [str "area", str "base", str "br", str "col", str "embed", str "hr", str "img",
    str "input", str "link", str "meta", str "source", str "track", str "wbr"].contains tag

mutual
/-- A renderer for the examples: what `html.Render` writes for a node whose texts and
attribute values hold none of the characters that it escapes. -/
def tulisNode : Node → Str
  | .text data => data
  | .comment data => str "<!--" ++ data ++ str "-->"
  | .document cs => tulisAnak cs
  | .removed _ => []
  | .element tag attr cs =>
    if tagKosong tag then
      str "<" ++ tag ++ (attr.flatMap fun a => str " " ++ a.1 ++ str "=\"" ++ a.2 ++ str "\"")
        ++ str "/>"
    else
      str "<" ++ tag ++ (attr.flatMap fun a => str " " ++ a.1 ++ str "=\"" ++ a.2 ++ str "\"")
        ++ str ">" ++ tulisAnak cs ++ str "</" ++ tag ++ str ">"
/-- The renderer for the examples on a list of nodes. -/
def tulisAnak : List Node → Str
  | [] => []
  | c :: cs => tulisNode c ++ tulisAnak cs
end

/-- The document that `html.Parse` builds around the nodes of a body. -/
def dokumen (isi : List Node) : Node :=
  .document [.element (str "html") []
    [.element (str "head") [] [], .element (str "body") [] isi]]

/-- An element without attributes. -/
def el (tag : String) (anak : List Node) : Node := .element (str tag) [] anak

/-- A text node. -/
def teks (data : String) : Node := .text (str data)

/-- The markups of the examples, each with the document that `html.Parse` builds for
it. -/
def tabelParse : List (Str × Node) :=
  [ (str "Entri tidak ditemukan.<hr><h2>kata</h2>",
      dokumen [teks "Entri tidak ditemukan.", el "hr" [], el "h2" [teks "kata"]]),
    (str "<h2>kata</h2>", dokumen [el "h2" [teks "kata"]]),
    (str "<hr><h2>a</h2><hr><h2>b</h2>",
      dokumen [el "hr" [], el "h2" [teks "a"], el "hr" [], el "h2" [teks "b"]]),
    (str "<hr><h2>a</h2><hr>", dokumen [el "hr" [], el "h2" [teks "a"], el "hr" []]),
    (str "<h2>a</h2>", dokumen [el "h2" [teks "a"]]),
    (str "<h2>b</h2>", dokumen [el "h2" [teks "b"]]),
    (str "<h4>Peribahasa</h4><p><a>x</a></p>",
      dokumen [el "h4" [teks "Peribahasa"], el "p" [el "a" [teks "x"]]]),
    (str "<hr><h2>kata</h2><ol><li>satu; → dua</li></ol>",
      dokumen [el "hr" [], el "h2" [teks "kata"], el "ol" [el "li" [teks "satu; → dua"]]]),
    (str "<h2>kata</h2><ol><li>satu; → dua</li></ol>",
      dokumen [el "h2" [teks "kata"], el "ol" [el "li" [teks "satu; → dua"]]]),
    (str "Entri tidak ditemukan. Berikut beberapa saran entri lain yang mirip.<div class=\"col-md-3\">kata</div>",
      dokumen [teks "Entri tidak ditemukan. Berikut beberapa saran entri lain yang mirip.",
        .element (str "div") [(str "class", str "col-md-3")] [teks "kata"]]),
    (str "<hr><h2>kata<small>varian: a, b</small></h2><ol><li><a>lain</a></li><li>arti</li></ol>",
      dokumen [el "hr" [], el "h2" [teks "kata", el "small" [teks "varian: a, b"]],
        el "ol" [el "li" [el "a" [teks "lain"]], el "li" [teks "arti"]]]),
    (str "<h2>kata<small>varian: a, b</small></h2><ol><li><a>lain</a></li><li>arti</li></ol>",
      dokumen [el "h2" [teks "kata", el "small" [teks "varian: a, b"]],
        el "ol" [el "li" [el "a" [teks "lain"]], el "li" [teks "arti"]]]),
    (str "<i style=\"color:darkred\">Arab</i> <b>kitab</b>: buku; tulisan",
      dokumen [.element (str "i") [(str "style", str "color:darkred")] [teks "Arab"], teks " ",
        el "b" [teks "kitab"], teks ": buku; tulisan"]),
    (str "<hr><h2>kata</h2><p><font color=\"darkgreen\">a</font> awalan</p><ol><li>arti</li></ol>",
      dokumen [el "hr" [], el "h2" [teks "kata"],
        el "p" [.element (str "font") [(str "color", str "darkgreen")] [teks "a"],
          teks " awalan"],
        el "ol" [el "li" [teks "arti"]]]),
    (str "<h2>kata</h2><p><font color=\"darkgreen\">a</font> awalan</p><ol><li>arti</li></ol>",
      dokumen [el "h2" [teks "kata"],
        el "p" [.element (str "font") [(str "color", str "darkgreen")] [teks "a"],
          teks " awalan"],
        el "ol" [el "li" [teks "arti"]]]) ]

/-- The HTML library for the examples: the parser knows the markups of `tabelParse` and
answers the empty document to any other. -/
def htmlContoh : PustakaHTML where
  Parse := fun html =>
    match tabelParse.find? fun baris => baris.1 == html with
    | some baris => .ok baris.2
    | none => .ok (dokumen [])
  Render := tulisAnak
  turunanDulu := fun _ => true


/-- The result of `ParseDefinisi` in the examples, the empty result standing for nil. -/
def hasilContoh (html : String) (terautentikasi : Bool) : Definisi :=
  match ParseDefinisi htmlContoh (str html) terautentikasi with
  | .ok d => d
  | .error _ => { Pranala := [], Entri := [], Peribahasa := [], Idiom := [], SaranEntri := [] }

/-- The page of the examples with a headword, variants and two list items, the first of
which is a link. -/
def halamanContoh : String :=
  "<hr><h2>kata<small>varian: a, b</small></h2><ol><li><a>lain</a></li><li>arti</li></ol>"

/-- The not-found page of the examples with one suggestion. -/
def halamanSaran : String :=
  "Entri tidak ditemukan. Berikut beberapa saran entri lain yang mirip.<div class=\"col-md-3\">kata</div>"

/-- The first entry of the result in the examples. -/
def entriPertama (html : String) (terautentikasi : Bool) : Entri :=
  (hasilContoh html terautentikasi).Entri.headD Entri.nol

/-- The first sense of the first entry of the result in the examples. -/
def maknaPertama (html : String) (terautentikasi : Bool) : Makna :=
  (entriPertama html terautentikasi).Makna.headD
    { Kelas := [], Submakna := [], Info := [], Contoh := [] }

/-- Surroundings as `envContoh`, except that the HTTP exchanges before the one numbered
`gagal` come to status 500. -/
def envPulih (gagal : Nat) (respons : Respons) : Env :=
  { envContoh 0 respons with
    http := fun n _ => if n < gagal then .statusLain 500 else respons }

/-- A session of the examples, with its flag as given. -/
def sesiContoh (terautentikasi : Bool) : AutentikasiKBBI :=
  { Email := str "u@x.id", Sandi := str "s", LokasiKuki := [],
    Terautentikasi := terautentikasi }

/-- Flags of the examples: text output of the term "kata", or JSON output. -/
def benderaContoh (outputJSON : Bool) : Bendera :=
  { kata := str "kata", outputJSON := outputJSON, indentJSON := false, tanpaContoh := false,
    tanpaTerkait := false }

/-- An encoder for the examples, which writes "{}" for every result. -/
def jsonContoh : PustakaJSON where
  Marshal := fun _ => .ok (str "{}")
  MarshalIndent := fun _ => .ok (str "{}")

/-! ### SHA-256 for the library of the examples -/

/-- Rotation to the right of a word of 32 bits. -/
def rotr (x n : Nat) : Nat := (x >>> n ||| x <<< (32 - n)) % 4294967296

/-- The round constants of SHA-256: the first 32 bits of the fractional parts of the cube
roots of the first 64 primes. -/
def kSha : List Nat :=
  [1116352408, 1899447441, 3049323471, 3921009573, 961987163, 1508970993, 2453635748,
    2870763221, 3624381080, 310598401, 607225278, 1426881987, 1925078388, 2162078206,
    2614888103, 3248222580, 3835390401, 4022224774, 264347078, 604807628, 770255983,
    1249150122, 1555081692, 1996064986, 2554220882, 2821834349, 2952996808, 3210313671,
    3336571891, 3584528711, 113926993, 338241895, 666307205, 773529912, 1294757372, 1396182291,
    1695183700, 1986661051, 2177026350, 2456956037, 2730485921, 2820302411, 3259730800,
    3345764771, 3516065817, 3600352804, 4094571909, 275423344, 430227734, 506948616, 659060556,
    883997877, 958139571, 1322822218, 1537002063, 1747873779, 1955562222, 2024104815,
    2227730452, 2361852424, 2428436474, 2756734187, 3204031479, 3329325298]

/-- The initial hash value of SHA-256: the first 32 bits of the fractional parts of the
square roots of the first 8 primes. -/
def h0Sha : List Nat :=
  [1779033703, 3144134277, 1013904242, 2773480762, 1359893119, 2600822924, 528734635,
    1541459225]

/-- The `lebar` low bytes of a number, most significant first. -/
def bytesBE : Nat → Nat → Str
  | 0, _ => []
  | lebar + 1, n => (n / 256 ^ lebar % 256) :: bytesBE lebar n

/-- The words of 32 bits that a string of bytes spells, most significant byte first. -/
def kataBE : Str → List Nat
  | b0 :: b1 :: b2 :: b3 :: rest => (((b0 * 256 + b1) * 256 + b2) * 256 + b3) :: kataBE rest
  | _ => []

/-- The padding of SHA-256. -/
def padSha (msg : Str) : Str :=
  msg ++ [0x80] ++ List.replicate ((119 - msg.length % 64) % 64) 0
    ++ bytesBE 8 (msg.length * 8)

/-- The message schedule, newest word first: `n` more words. -/
def perluas : Nat → List Nat → List Nat
  | 0, r => r
  | n + 1, r =>
    let w2 := r.getD 1 0
    let w7 := r.getD 6 0
    let w15 := r.getD 14 0
    let w16 := r.getD 15 0
    let s0 := rotr w15 7 ^^^ rotr w15 18 ^^^ (w15 >>> 3)
    let s1 := rotr w2 17 ^^^ rotr w2 19 ^^^ (w2 >>> 10)
    perluas n (((w16 + s0 + w7 + s1) % 4294967296) :: r)

/-- One round of the compression function. -/
def putaran (s : List Nat) (kw : Nat × Nat) : List Nat :=
  match s with
  | [a, b, c, d, e, f, g, h] =>
    let s1 := rotr e 6 ^^^ rotr e 11 ^^^ rotr e 25
    let ch := (e &&& f) ^^^ ((4294967295 - e) &&& g)
    let t1 := (h + s1 + ch + kw.1 + kw.2) % 4294967296
    let s0 := rotr a 2 ^^^ rotr a 13 ^^^ rotr a 22
    let maj := (a &&& b) ^^^ (a &&& c) ^^^ (b &&& c)
    let t2 := (s0 + maj) % 4294967296
    [(t1 + t2) % 4294967296, a, b, c, (d + t1) % 4294967296, e, f, g]
  | _ => s

/-- The hash value after one block of 64 bytes. -/
def blokSha (h : List Nat) (blok : Str) : List Nat :=
  let w := (perluas 48 (kataBE blok).reverse).reverse
  List.zipWith (fun x y => (x + y) % 4294967296) h ((kSha.zip w).foldl putaran h)

/-- The blocks of 64 bytes of a string, at most `n` of them. -/
def potong : Nat → Str → List Str
  | 0, _ => []
  | n + 1, s => if s = [] then [] else s.take 64 :: potong n (s.drop 64)

/-- SHA-256 (FIPS 180-4) of a string of bytes. -/
def sha256 (msg : Str) : Str :=
  ((potong (msg.length + 64) (padSha msg)).foldl blokSha h0Sha).flatMap (bytesBE 4)

/-- The library of the examples with the digest of `crypto/sha256`. -/
def pustakaSHA : Pustaka := { pustakaContoh with Sum256 := sha256 }

/-- A sense of the examples without word class, with one sub-sense and one example. -/
def maknaContoh (submakna contoh : String) : Makna :=
  { Kelas := [], Submakna := [str submakna], Info := [], Contoh := [str contoh] }

/-- A result of the examples: the entry "kata" with the senses given. -/
def definisiContoh (makna : List Makna) : Definisi :=
  { Pranala := [], Entri := [{ Entri.nol with Nama := str "kata", Makna := makna }],
    Peribahasa := [], Idiom := [], SaranEntri := [] }

/-- The fragment of the examples with a prakategorial element and a list item. -/
def fragmenPrakategorial : String :=
  "<h2>kata</h2><p><font color=\"darkgreen\">a</font> awalan</p><ol><li>arti</li></ol>"

/-! ## Theorems -/

/-- C1: `cekKesalahan` returns the kind of the first matching rule of the ordered decision
list of the specification and nothing else; a URL marker makes the result independent of
the markup, and without a URL marker the not-found marker yields `ErrTidakDitemukan`
whatever restricted-mode phrase the markup also contains. -/
theorem cekKesalahan_first_match (url html : Str) :
    cekKesalahan url html = klasifikasiSpek url html
    ∧ (adaPenandaURL url = true →
        ∀ html2 : Str, cekKesalahan url html = cekKesalahan url html2
          ∧ cekKesalahan url html ≠ some ErrTidakDitemukan)
    ∧ (adaPenandaURL url = false → Contains html (str "Entri tidak ditemukan.") = true →
        cekKesalahan url html = some ErrTidakDitemukan) := by
  refine ⟨?_, ?_, ?_⟩
  · simp only [cekKesalahan, klasifikasiSpek, aturanKlasifikasi, List.find?]
    by_cases h1 : Contains url (str "Beranda/Error") = true
    · simp [h1]
    by_cases h2 : Contains url (str "Beranda/BatasSehari") = true
    · simp [h1, h2]
    by_cases h3 : Contains url (str "Beranda/ModaTerbatas") = true
    · simp [h1, h2, h3]
    by_cases h4 : Contains url (str "Account/Banned") = true
    · simp [h1, h2, h3, h4]
    by_cases h5 : Contains html (str "Entri tidak ditemukan.") = true
    · simp [h1, h2, h3, h4, h5]
    by_cases h6 : Contains html (str "Moda terbatas sedang diaktifkan") = true
    · simp [h1, h2, h3, h4, h5, h6]
    by_cases h7 : Contains html (str "pengguna tidak terdaftar tidak dapat dilayani") = true
    · simp [h1, h2, h3, h4, h5, h6, h7]
    by_cases h8 : Contains html (str "moda terbatas") = true
    · simp [h1, h2, h3, h4, h5, h6, h7, h8]
    simp [h1, h2, h3, h4, h5, h6, h7, h8]
  · intro h html2
    simp only [adaPenandaURL, Bool.or_eq_true] at h
    simp only [cekKesalahan]
    by_cases h1 : Contains url (str "Beranda/Error") = true
    · simp [h1]; decide
    by_cases h2 : Contains url (str "Beranda/BatasSehari") = true
    · simp [h1, h2]; decide
    by_cases h3 : Contains url (str "Beranda/ModaTerbatas") = true
    · simp [h1, h2, h3]; decide
    by_cases h4 : Contains url (str "Account/Banned") = true
    · simp [h1, h2, h3, h4]; decide
    simp_all
  · intro h h5
    simp only [adaPenandaURL, Bool.or_eq_false_iff] at h
    obtain ⟨⟨⟨h1, h2⟩, h3⟩, h4⟩ := h
    simp [cekKesalahan, h1, h2, h3, h4, h5]

/-- C1, at a URL of the generic error path whose markup carries the not-found marker and a
restricted-mode phrase: the URL marker decides. -/
theorem cekKesalahan_first_match_witness :
    cekKesalahan (str "x/Beranda/Error") (str "Entri tidak ditemukan. moda terbatas")
        = cekKesalahan (str "x/Beranda/Error") []
      ∧ cekKesalahan (str "x/entri/a") (str "Entri tidak ditemukan. moda terbatas")
        = some ErrTidakDitemukan :=
  ⟨((cekKesalahan_first_match (str "x/Beranda/Error")
        (str "Entri tidak ditemukan. moda terbatas")).2.1 (by decide) []).1,
    (cekKesalahan_first_match (str "x/entri/a")
        (str "Entri tidak ditemukan. moda terbatas")).2.2 (by decide) (by decide)⟩

/-- C10: `tentukanLokasi` is the search path with the query-escaped term if and only if the
term contains "." or "?" or its lower-cased form is "nul" or "bin", and the entry path with
the path-escaped term for every other term. -/
theorem tentukanLokasi_shape (L : Pustaka) (kata : Str) :
    (tentukanLokasi L kata = str "Cari/Hasil?frasa=" ++ L.QueryEscape kata ↔ kataKhusus L kata)
    ∧ (¬ kataKhusus L kata → tentukanLokasi L kata = str "entri/" ++ L.PathEscape kata) := by
  have hc : str "Cari/Hasil?frasa=" = 67 :: (str "Cari/Hasil?frasa=").tail := by decide
  have he : str "entri/" = 101 :: (str "entri/").tail := by decide
  by_cases hk : kataKhusus L kata
  · refine ⟨⟨fun _ => hk, fun _ => ?_⟩, fun h => absurd hk h⟩
    unfold kataKhusus at hk
    simp only [tentukanLokasi, List.any_cons, List.any_nil, id, Bool.or_false,
      Bool.or_eq_true, beq_iff_eq]
    rw [if_pos (by tauto)]
  · have hloc : tentukanLokasi L kata = str "entri/" ++ L.PathEscape kata := by
      unfold kataKhusus at hk
      simp only [tentukanLokasi, List.any_cons, List.any_nil, id, Bool.or_false,
        Bool.or_eq_true, beq_iff_eq]
      rw [if_neg (by tauto)]
    refine ⟨⟨fun h => ?_, fun h => absurd h hk⟩, fun _ => hloc⟩
    rw [hloc, hc, he] at h
    simp at h

/-- C10, at the ordinary term "rumah". -/
theorem tentukanLokasi_shape_witness :
    tentukanLokasi pustakaContoh (str "rumah")
      = str "entri/" ++ pustakaContoh.PathEscape (str "rumah") :=
  (tentukanLokasi_shape pustakaContoh (str "rumah")).2 (by unfold kataKhusus; decide)

/-! ### Cache store -/

theorem AmbilCache_absent (m : ManagerCache) (E : Env) (w : World) (kata : Str)
    (h : w.files (m.namaFileCache E.lib kata) = none) :
    m.AmbilCache E w kata = (w, [], false) := by
  simp [ManagerCache.AmbilCache, h]

theorem AmbilCache_keeps_absent (m : ManagerCache) (E : Env) (w : World) (kata path : Str)
    (h : w.files path = none) : (m.AmbilCache E w kata).1.files path = none := by
  cases hf : w.files (m.namaFileCache E.lib kata) with
  | none => simpa [ManagerCache.AmbilCache, hf] using h
  | some b =>
    cases b with
    | rusak => simpa [ManagerCache.AmbilCache, hf] using h
    | json entri =>
      by_cases hexp : E.now w.clock > entri.Expired
      · by_cases hp : path = m.namaFileCache E.lib kata
        · simp [ManagerCache.AmbilCache, hf, hexp, World.remove, hp]
        · simp [ManagerCache.AmbilCache, hf, hexp, World.remove, hp, h]
      · simpa [ManagerCache.AmbilCache, hf, hexp] using h

theorem SimpanCache_other_path (m : ManagerCache) (E : Env) (w : World) (kata html path : Str)
    (hne : m.namaFileCache E.lib kata ≠ path) :
    (m.SimpanCache E w kata html).1.files path = w.files path := by
  simp only [ManagerCache.SimpanCache]
  split
  · rfl
  · split
    · rfl
    · simp [World.write, Ne.symm hne]

theorem jalankanSemua_keeps_absent (m : ManagerCache) (E : Env) (kata : Str)
    (ops : List OperasiCache) :
    ∀ w : World, w.files (m.namaFileCache E.lib kata) = none →
      (∀ op ∈ ops, ¬ op.menulis m E.lib kata) →
      (jalankanSemua m E w ops).files (m.namaFileCache E.lib kata) = none := by
  induction ops with
  | nil => intro w h _; exact h
  | cons op ops ih =>
    intro w h hops
    apply ih
    · cases op with
      | ambil k => exact AmbilCache_keeps_absent m E w k _ h
      | simpan k html =>
        have hne : m.namaFileCache E.lib k ≠ m.namaFileCache E.lib kata :=
          hops (.simpan k html) (List.mem_cons_self _ _)
        simpa [OperasiCache.jalankan, SimpanCache_other_path m E w k html _ hne] using h
    · intro op2 hop2
      exact hops op2 (List.mem_cons_of_mem _ hop2)

theorem validAux_jsonStringAux (s : Str) :
    ∀ sisa : Nat, validAux sisa s = true → jsonStringAux sisa s = s := by
  induction s with
  | nil => intro sisa _; cases sisa <;> rfl
  | cons b rest ih =>
    intro sisa h
    cases sisa with
    | succ k =>
      simp only [validAux] at h
      simp [jsonStringAux, ih k h]
    | zero =>
      simp only [validAux] at h
      simp only [jsonStringAux]
      cases hr : runeLen (b :: rest) with
      | zero => simp [hr] at h
      | succ n =>
        simp only [hr] at h
        simp [ih n h]

theorem Char_range (c : Char) :
    c.toNat < 0xD800 ∨ (0xDFFF < c.toNat ∧ c.toNat < 0x110000) := by
  have h := c.valid
  simp only [UInt32.isValidChar, Nat.isValidChar] at h
  exact h

theorem runeLen_two (b0 b1 : Nat) (rest : Str) (h0 : 0xC2 ≤ b0 ∧ b0 ≤ 0xDF)
    (h1 : 0x80 ≤ b1 ∧ b1 ≤ 0xBF) : runeLen (b0 :: b1 :: rest) = 2 := by
  have hlt : ¬ b0 < 0x80 := by omega
  simp [runeLen, utf8First, hlt, h0, h1]

theorem runeLen_three (b0 b1 b2 : Nat) (rest : Str)
    (h0 : 0xE0 ≤ b0 ∧ b0 ≤ 0xEF)
    (h1 : 0x80 ≤ b1 ∧ b1 ≤ 0xBF) (hE0 : b0 = 0xE0 → 0xA0 ≤ b1) (hED : b0 = 0xED → b1 ≤ 0x9F)
    (h2 : 0x80 ≤ b2 ∧ b2 ≤ 0xBF) : runeLen (b0 :: b1 :: b2 :: rest) = 3 := by
  have hlt : ¬ b0 < 0x80 := by omega
  have hn2 : ¬ (0xC2 ≤ b0 ∧ b0 ≤ 0xDF) := by omega
  have hc2 : utf8Cont b2 = true := by simp [utf8Cont, h2]
  by_cases hA : b0 = 0xE0
  · have := hE0 hA
    subst hA
    simp [runeLen, utf8First, hc2, h1, this]
  by_cases hB : b0 = 0xED
  · have := hED hB
    subst hB
    simp [runeLen, utf8First, hc2, h1, this]
  have h3 : (0xE1 ≤ b0 ∧ b0 ≤ 0xEC) ∨ b0 = 0xEE ∨ b0 = 0xEF := by omega
  simp [runeLen, utf8First, hlt, hn2, hA, h3, hc2, h1]

theorem runeLen_four (b0 b1 b2 b3 : Nat) (rest : Str)
    (h0 : 0xF0 ≤ b0 ∧ b0 ≤ 0xF4)
    (h1 : 0x80 ≤ b1 ∧ b1 ≤ 0xBF) (hF0 : b0 = 0xF0 → 0x90 ≤ b1) (hF4 : b0 = 0xF4 → b1 ≤ 0x8F)
    (h2 : 0x80 ≤ b2 ∧ b2 ≤ 0xBF) (h3 : 0x80 ≤ b3 ∧ b3 ≤ 0xBF) :
    runeLen (b0 :: b1 :: b2 :: b3 :: rest) = 4 := by
  have hc2 : utf8Cont b2 = true := by simp [utf8Cont, h2]
  have hc3 : utf8Cont b3 = true := by simp [utf8Cont, h3]
  by_cases hA : b0 = 0xF0
  · have := hF0 hA
    subst hA
    simp [runeLen, utf8First, hc2, hc3, h1, this]
  by_cases hB : b0 = 0xF4
  · have := hF4 hB
    subst hB
    simp [runeLen, utf8First, hc2, hc3, h1, this]
  have h5 : 0xF1 ≤ b0 ∧ b0 ≤ 0xF3 := by omega
  have hlt : ¬ b0 < 0x80 := by omega
  have hn2 : ¬ (0xC2 ≤ b0 ∧ b0 ≤ 0xDF) := by omega
  have hn3 : ¬ ((0xE1 ≤ b0 ∧ b0 ≤ 0xEC) ∨ b0 = 0xEE ∨ b0 = 0xEF) := by omega
  have hn4 : ¬ b0 = 0xE0 := by omega
  have hn5 : ¬ b0 = 0xED := by omega
  simp [runeLen, utf8First, hlt, hn2, hn3, hn4, hn5, hA, h5, hc2, hc3, h1]

theorem validAux_utf8Encode (c : Char) (rest : Str) :
    validAux 0 (utf8Encode c ++ rest) = validAux 0 rest := by
  have hc := Char_range c
  unfold utf8Encode
  simp only []
  generalize c.toNat = v at hc ⊢
  by_cases h1 : v < 0x80
  · simp [h1, validAux, runeLen]
  by_cases h2 : v < 0x800
  · simp only [h1, h2, if_true, if_false, List.cons_append, List.nil_append, validAux]
    rw [runeLen_two _ _ _ (by omega) (by omega)]
    rfl
  by_cases h3 : v < 0x10000
  · simp only [h1, h2, h3, if_true, if_false, List.cons_append, List.nil_append, validAux]
    rw [runeLen_three _ _ _ _ (by omega) (by omega) (by omega) (by omega) (by omega)]
    rfl
  · simp only [h1, h2, h3, if_true, if_false, List.cons_append, List.nil_append, validAux]
    rw [runeLen_four _ _ _ _ _ (by omega) (by omega) (by omega) (by omega) (by omega)
      (by omega)]
    rfl

theorem ValidString_str (s : String) : ValidString (str s) = true := by
  unfold ValidString str
  induction s.toList with
  | nil => rfl
  | cons c cs ih => rw [List.flatMap_cons, validAux_utf8Encode]; exact ih

theorem jsonString_str (s : String) : jsonString (str s) = str s :=
  validAux_jsonStringAux (str s) 0 (ValidString_str s)

/-- C7 (amended): after `SimpanCache` has succeeded at time `t0`, `AmbilCache` for the term
in any later world that still holds the written file, at any time up to `t0` plus 30 days,
is a hit that returns the markup as JSON text holds it, each invalid UTF-8 byte being
replaced by U+FFFD; it is the markup itself whenever the markup is valid UTF-8, as the
encoding of every text is. -/
theorem cache_round_trip (E E2 : Env) (m : ManagerCache) (w w1 w2 : World) (kata html : Str)
    (hsave : m.SimpanCache E w kata html = (w1, none))
    (hlib : E2.lib = E.lib)
    (hfile : w2.files (m.namaFileCache E.lib kata) = w1.files (m.namaFileCache E.lib kata))
    (ht : E2.now w2.clock ≤ E.now w.clock + DurasiCache) :
    (m.AmbilCache E2 w2 kata).2 = (jsonString html, true)
    ∧ (ValidString html = true → (m.AmbilCache E2 w2 kata).2 = (html, true))
    ∧ (∀ teks : String, html = str teks → (m.AmbilCache E2 w2 kata).2 = (html, true)) := by
  have hw1 : w1.files (m.namaFileCache E.lib kata)
      = some (.json { Kata := jsonString kata, HTML := jsonString html,
                      Timestamp := E.now w.clock, Expired := E.now w.clock + DurasiCache }) := by
    simp only [ManagerCache.SimpanCache] at hsave
    split at hsave
    · simp at hsave
    · split at hsave
      · simp at hsave
      · simp only [Prod.mk.injEq, and_true] at hsave
        rw [← hsave]
        simp [World.write]
  have hget : (m.AmbilCache E2 w2 kata).2 = (jsonString html, true) := by
    simp only [ManagerCache.AmbilCache, hlib, hfile, hw1]
    simp [not_lt.mpr ht]
  refine ⟨hget, fun hv => ?_, fun teks ht => ?_⟩
  · rw [hget, jsonString, validAux_jsonStringAux html 0 hv]
  · rw [hget, ht, jsonString_str]

/-- C7, for the markup "rumah" stored at time 0 and read 30 days later to the
nanosecond. -/
theorem cache_round_trip_witness :
    ((ManagerCache.mk (str "c")).AmbilCache (envContoh DurasiCache (.statusLain 500))
      ((ManagerCache.mk (str "c")).SimpanCache (envContoh 0 (.statusLain 500)) duniaAwal
        (str "a") (str "rumah")).1 (str "a")).2 = (str "rumah", true) :=
  (cache_round_trip (envContoh 0 (.statusLain 500)) (envContoh DurasiCache (.statusLain 500))
    (ManagerCache.mk (str "c")) duniaAwal _ _ (str "a") (str "rumah") rfl rfl rfl
    (by decide)).2.1 (by decide)

/-- C7 as stated fails: the markup whose one byte is 0xFF, not valid UTF-8, is stored
without error and read back at once as the three bytes of U+FFFD. -/
theorem cache_round_trip_invalid_utf8 :
    ((ManagerCache.mk (str "c")).SimpanCache (envContoh 0 (.statusLain 500)) duniaAwal
        (str "a") [0xFF]).2 = none
    ∧ ((ManagerCache.mk (str "c")).AmbilCache (envContoh 0 (.statusLain 500))
        ((ManagerCache.mk (str "c")).SimpanCache (envContoh 0 (.statusLain 500)) duniaAwal
          (str "a") [0xFF]).1 (str "a")).2 = ([0xEF, 0xBF, 0xBD], true)
    ∧ ((ManagerCache.mk (str "c")).AmbilCache (envContoh 0 (.statusLain 500))
        ((ManagerCache.mk (str "c")).SimpanCache (envContoh 0 (.statusLain 500)) duniaAwal
          (str "a") [0xFF]).1 (str "a")).2 ≠ ([0xFF], true) := by
  refine ⟨rfl, rfl, ?_⟩
  have h : ((ManagerCache.mk (str "c")).AmbilCache (envContoh 0 (.statusLain 500))
        ((ManagerCache.mk (str "c")).SimpanCache (envContoh 0 (.statusLain 500)) duniaAwal
          (str "a") [0xFF]).1 (str "a")).2 = ([0xEF, 0xBF, 0xBD], true) := rfl
  rw [h]
  decide

/-- C8: `AmbilCache` on an entry whose expiry lies before the clock reading reports a miss
with empty markup and removes the file; after that, whatever uses of the cache store
follow that do not write the file of the term, and whatever the clock reads, `AmbilCache`
for the term reports a miss. -/
theorem expired_entry_is_removed (E : Env) (m : ManagerCache) (w : World) (kata : Str)
    (entri : EntriCache)
    (hfile : w.files (m.namaFileCache E.lib kata) = some (.json entri))
    (hexp : entri.Expired < E.now w.clock) :
    (m.AmbilCache E w kata).2 = ([], false)
    ∧ (m.AmbilCache E w kata).1.files (m.namaFileCache E.lib kata) = none
    ∧ ∀ (E2 E3 : Env) (ops : List OperasiCache), E2.lib = E.lib → E3.lib = E.lib →
        (∀ op ∈ ops, ¬ op.menulis m E.lib kata) →
        (m.AmbilCache E3 (jalankanSemua m E2 (m.AmbilCache E w kata).1 ops) kata).2
          = ([], false) := by
  have hgone : (m.AmbilCache E w kata).1.files (m.namaFileCache E.lib kata) = none := by
    simp [ManagerCache.AmbilCache, hfile, hexp, World.remove]
  refine ⟨?_, hgone, ?_⟩
  · simp [ManagerCache.AmbilCache, hfile, hexp]
  · intro E2 E3 ops h2 h3 hops
    have habs := jalankanSemua_keeps_absent m E2 kata ops (m.AmbilCache E w kata).1
      (by rw [h2]; exact hgone) (by rw [h2]; exact hops)
    rw [AmbilCache_absent m E3 _ kata (by rw [h3, ← h2]; exact habs)]

/-! ### Direct fetch -/

theorem langsung_world (E : Env) (w : World) (kata : Str) (a : Option AutentikasiKBBI) :
    (ambilHalamanLangsung E w kata a).world.fetches = w.fetches + 1
    ∧ (ambilHalamanLangsung E w kata a).world.files = w.files
    ∧ (ambilHalamanLangsung E w kata a).world.clock = w.clock
    ∧ (ambilHalamanLangsung E w kata a).world.backoff = w.backoff
    ∧ (ambilHalamanLangsung E w kata a).world.saves = w.saves := by
  simp only [ambilHalamanLangsung]
  split
  all_goals first
    | exact ⟨rfl, rfl, rfl, rfl, rfl⟩
    | (split <;> exact ⟨rfl, rfl, rfl, rfl, rfl⟩)

theorem langsung_percobaan (E : Env) (w : World) (kata : Str) (a : Option AutentikasiKBBI) :
    (ambilHalamanLangsung E w kata a).html = (percobaan E kata w.fetches).1
    ∧ (ambilHalamanLangsung E w kata a).err = (percobaan E kata w.fetches).2 := by
  simp only [percobaan, ambilHalamanLangsung]
  split
  all_goals first
    | exact ⟨rfl, rfl⟩
    | (split <;> exact ⟨rfl, rfl⟩)

theorem langsung_sesi (E : Env) (w w2 : World) (kata : Str) (a : Option AutentikasiKBBI)
    (h : w2.fetches = w.fetches) :
    (ambilHalamanLangsung E w2 kata a).sesi = (ambilHalamanLangsung E w kata a).sesi := by
  simp only [ambilHalamanLangsung, h]
  split
  all_goals first
    | rfl
    | (split <;> rfl)

/-! ### Fetch through the cache -/

theorem AmbilCache_counters (m : ManagerCache) (E : Env) (w : World) (kata : Str) :
    (m.AmbilCache E w kata).1.fetches = w.fetches
    ∧ (m.AmbilCache E w kata).1.backoff = w.backoff
    ∧ (m.AmbilCache E w kata).1.saves = w.saves := by
  simp only [ManagerCache.AmbilCache]
  split
  · exact ⟨rfl, rfl, rfl⟩
  · exact ⟨rfl, rfl, rfl⟩
  · split <;> exact ⟨rfl, rfl, rfl⟩

theorem AmbilCache_miss (m : ManagerCache) (E : Env) (w : World) (kata : Str)
    (h : (m.AmbilCache E w kata).2.2 = false) :
    (m.AmbilCache E w kata).2.1 = []
    ∧ buntu (m.AmbilCache E w kata).1.files (m.namaFileCache E.lib kata) := by
  cases hf : w.files (m.namaFileCache E.lib kata) with
  | none => simp [ManagerCache.AmbilCache, hf, buntu]
  | some b =>
    cases b with
    | rusak => simp [ManagerCache.AmbilCache, hf, buntu]
    | json entri =>
      by_cases hexp : E.now w.clock > entri.Expired
      · simp [ManagerCache.AmbilCache, hf, hexp, buntu, World.remove]
      · simp [ManagerCache.AmbilCache, hf, hexp] at h

theorem AmbilCache_buntu (m : ManagerCache) (E : Env) (w : World) (kata : Str)
    (h : buntu w.files (m.namaFileCache E.lib kata)) :
    m.AmbilCache E w kata = (w, [], false) := by
  rcases h with h | h <;> simp [ManagerCache.AmbilCache, h]

theorem denganCache_tanpa (E : Env) (w : World) (kata : Str) (a : Option AutentikasiKBBI)
    (lokasiKuki : Str) :
    AmbilHalamanDenganCache E w kata a lokasiKuki true = ambilHalamanLangsung E w kata a := by
  simp [AmbilHalamanDenganCache]

theorem denganCache_noManager (E : Env) (w : World) (kata : Str) (a : Option AutentikasiKBBI)
    (lokasiKuki : Str) (tanpaCache : Bool) (err : Galat)
    (hm : BaruManagerCache E lokasiKuki = .error err) :
    AmbilHalamanDenganCache E w kata a lokasiKuki tanpaCache
      = ambilHalamanLangsung E w kata a := by
  cases tanpaCache <;> simp [AmbilHalamanDenganCache, hm]

theorem denganCache_hit (E : Env) (w w1 : World) (kata : Str) (a : Option AutentikasiKBBI)
    (lokasiKuki htmlCache : Str) (m : ManagerCache)
    (hm : BaruManagerCache E lokasiKuki = .ok m)
    (hA : m.AmbilCache E w kata = (w1, htmlCache, true)) :
    AmbilHalamanDenganCache E w kata a lokasiKuki false = ⟨w1, a, htmlCache, none⟩ := by
  simp [AmbilHalamanDenganCache, hm, hA]

theorem denganCache_miss_err (E : Env) (w w1 : World) (kata : Str)
    (a : Option AutentikasiKBBI) (lokasiKuki htmlCache : Str) (m : ManagerCache)
    (hm : BaruManagerCache E lokasiKuki = .ok m)
    (hA : m.AmbilCache E w kata = (w1, htmlCache, false))
    (he : (ambilHalamanLangsung E w1 kata a).err ≠ none) :
    AmbilHalamanDenganCache E w kata a lokasiKuki false = ambilHalamanLangsung E w1 kata a := by
  simp only [AmbilHalamanDenganCache, hm, hA, Bool.false_eq_true, if_false]
  cases hr : (ambilHalamanLangsung E w1 kata a).err with
  | none => exact absurd hr he
  | some e => rfl

theorem denganCache_miss_ok (E : Env) (w w1 : World) (kata : Str)
    (a : Option AutentikasiKBBI) (lokasiKuki htmlCache : Str) (m : ManagerCache)
    (hm : BaruManagerCache E lokasiKuki = .ok m)
    (hA : m.AmbilCache E w kata = (w1, htmlCache, false))
    (he : (ambilHalamanLangsung E w1 kata a).err = none) :
    AmbilHalamanDenganCache E w kata a lokasiKuki false
      = { ambilHalamanLangsung E w1 kata a with
          world := (m.SimpanCache E (ambilHalamanLangsung E w1 kata a).world kata
            (ambilHalamanLangsung E w1 kata a).html).1 } := by
  simp only [AmbilHalamanDenganCache, hm, hA, Bool.false_eq_true, if_false]
  rw [he]

theorem SimpanCache_counters (m : ManagerCache) (E : Env) (w : World) (kata html : Str) :
    (m.SimpanCache E w kata html).1.fetches = w.fetches
    ∧ (m.SimpanCache E w kata html).1.backoff = w.backoff
    ∧ (m.SimpanCache E w kata html).1.saves = w.saves + 1 := by
  simp only [ManagerCache.SimpanCache]
  split
  · exact ⟨rfl, rfl, rfl⟩
  · split <;> exact ⟨rfl, rfl, rfl⟩

theorem cacheHit_of_tetapMiss (E : Env) (w : World) (kata lokasiKuki : Str)
    (tanpaCache : Bool) (h : tetapMiss E w.files kata lokasiKuki tanpaCache) :
    cacheHit E w kata lokasiKuki tanpaCache = false := by
  rcases h with h | ⟨err, h⟩ | ⟨m, hm, hb⟩
  · simp [cacheHit, h]
  · cases tanpaCache <;> simp [cacheHit, h]
  · cases tanpaCache
    · simp [cacheHit, hm, AmbilCache_buntu m E w kata hb]
    · simp [cacheHit]

theorem denganCache_of_miss (E : Env) (w : World) (kata : Str) (a : Option AutentikasiKBBI)
    (lokasiKuki : Str) (tanpaCache : Bool)
    (h : cacheHit E w kata lokasiKuki tanpaCache = false) :
    (AmbilHalamanDenganCache E w kata a lokasiKuki tanpaCache).html
        = (percobaan E kata w.fetches).1
    ∧ (AmbilHalamanDenganCache E w kata a lokasiKuki tanpaCache).err
        = (percobaan E kata w.fetches).2
    ∧ (AmbilHalamanDenganCache E w kata a lokasiKuki tanpaCache).sesi
        = (ambilHalamanLangsung E w kata a).sesi
    ∧ (AmbilHalamanDenganCache E w kata a lokasiKuki tanpaCache).world.fetches = w.fetches + 1
    ∧ (AmbilHalamanDenganCache E w kata a lokasiKuki tanpaCache).world.backoff = w.backoff
    ∧ ((AmbilHalamanDenganCache E w kata a lokasiKuki tanpaCache).err ≠ none →
        (AmbilHalamanDenganCache E w kata a lokasiKuki tanpaCache).world.saves = w.saves
        ∧ tetapMiss E (AmbilHalamanDenganCache E w kata a lokasiKuki tanpaCache).world.files
            kata lokasiKuki tanpaCache) := by
  have hL := langsung_world E w kata a
  have hP := langsung_percobaan E w kata a
  cases tanpaCache with
  | true =>
    rw [denganCache_tanpa]
    exact ⟨hP.1, hP.2, rfl, hL.1, hL.2.2.2.1, fun _ => ⟨hL.2.2.2.2, Or.inl rfl⟩⟩
  | false =>
    cases hm : BaruManagerCache E lokasiKuki with
    | error err =>
      rw [denganCache_noManager E w kata a lokasiKuki false err hm]
      exact ⟨hP.1, hP.2, rfl, hL.1, hL.2.2.2.1, fun _ => ⟨hL.2.2.2.2, Or.inr (Or.inl ⟨err, hm⟩)⟩⟩
    | ok m =>
      rcases hA : m.AmbilCache E w kata with ⟨w1, htmlCache, found⟩
      have hfound : found = false := by simpa [cacheHit, hm, hA] using h
      subst hfound
      have hc := AmbilCache_counters m E w kata
      have hmiss := AmbilCache_miss m E w kata (by rw [hA])
      rw [hA] at hc hmiss
      simp only at hc hmiss
      have hL1 := langsung_world E w1 kata a
      have hP1 := langsung_percobaan E w1 kata a
      have hS1 := langsung_sesi E w w1 kata a hc.1
      rw [hc.1] at hP1
      cases he : (ambilHalamanLangsung E w1 kata a).err with
      | some e =>
        rw [denganCache_miss_err E w w1 kata a lokasiKuki htmlCache m hm hA (by simp [he])]
        refine ⟨hP1.1, hP1.2, hS1, by rw [hL1.1, hc.1], by rw [hL1.2.2.2.1, hc.2.1], fun _ => ?_⟩
        refine ⟨by rw [hL1.2.2.2.2, hc.2.2], Or.inr (Or.inr ⟨m, hm, ?_⟩)⟩
        rw [hL1.2.1]
        exact hmiss.2
      | none =>
        rw [denganCache_miss_ok E w w1 kata a lokasiKuki htmlCache m hm hA he]
        have hS := SimpanCache_counters m E (ambilHalamanLangsung E w1 kata a).world kata
          (ambilHalamanLangsung E w1 kata a).html
        refine ⟨hP1.1, ?_, hS1, ?_, ?_, fun hne => ?_⟩
        · show (ambilHalamanLangsung E w1 kata a).err = _
          exact hP1.2
        · show (m.SimpanCache E _ kata _).1.fetches = _
          rw [hS.1, hL1.1, hc.1]
        · show (m.SimpanCache E _ kata _).1.backoff = _
          rw [hS.2.1, hL1.2.2.2.1, hc.2.1]
        · exact absurd he hne

theorem denganCache_of_hit (E : Env) (w : World) (kata : Str) (a : Option AutentikasiKBBI)
    (lokasiKuki : Str) (tanpaCache : Bool)
    (h : cacheHit E w kata lokasiKuki tanpaCache = true) :
    ∃ m, tanpaCache = false ∧ BaruManagerCache E lokasiKuki = .ok m
      ∧ (m.AmbilCache E w kata).2.2 = true
      ∧ AmbilHalamanDenganCache E w kata a lokasiKuki tanpaCache
          = ⟨(m.AmbilCache E w kata).1, a, (m.AmbilCache E w kata).2.1, none⟩ := by
  cases tanpaCache with
  | true => simp [cacheHit] at h
  | false =>
    cases hm : BaruManagerCache E lokasiKuki with
    | error err => simp [cacheHit, hm] at h
    | ok m =>
      rcases hA : m.AmbilCache E w kata with ⟨w1, htmlCache, found⟩
      have hfound : found = true := by simpa [cacheHit, hm, hA] using h
      subst hfound
      refine ⟨m, rfl, rfl, by rw [hA], ?_⟩
      rw [hA]
      exact denganCache_hit E w w1 kata a lokasiKuki htmlCache m hm hA

/-! ### Retry loop -/

theorem percobaan_halaman (E : Env) (kata url isi : Str) (n : Nat)
    (h : E.http n (urlLengkap E.lib kata) = .halaman url isi) :
    percobaan E kata n = (isi, (cekKesalahan url isi).map Galat.kbbi) := by
  simp only [urlLengkap] at h
  simp only [percobaan, ambilHalamanLangsung, h]
  cases cekKesalahan url isi <;> rfl

theorem percobaan_sementara (E : Env) (kata : Str) (n : Nat)
    (h : (E.http n (urlLengkap E.lib kata)).sementara = true) :
    ∃ e, (percobaan E kata n).2 = some e ∧ janganRetry e = false := by
  simp only [urlLengkap] at h
  cases hr : E.http n (HostKBBI ++ str "/" ++ tentukanLokasi E.lib kata) with
  | halaman url isi =>
    rw [hr] at h
    have hk : cekKesalahan url isi = some ErrTerjadiKesalahan := by
      simpa [Respons.sementara] using h
    refine ⟨.kbbi ErrTerjadiKesalahan, ?_, by decide⟩
    simp only [percobaan, ambilHalamanLangsung, hr, hk]
  | gagalRequest err =>
    simp only [percobaan, ambilHalamanLangsung, hr]
    exact ⟨_, rfl, rfl⟩
  | gagalKirim err =>
    simp only [percobaan, ambilHalamanLangsung, hr]
    exact ⟨_, rfl, rfl⟩
  | statusLain kode =>
    simp only [percobaan, ambilHalamanLangsung, hr]
    exact ⟨_, rfl, rfl⟩
  | gagalGzip err =>
    simp only [percobaan, ambilHalamanLangsung, hr]
    exact ⟨_, rfl, rfl⟩
  | gagalBaca err =>
    simp only [percobaan, ambilHalamanLangsung, hr]
    exact ⟨_, rfl, rfl⟩

theorem retryLoop_return (E : Env) (kata : Str) (maxRetry : Int) (lokasiKuki : Str)
    (tanpaCache : Bool) (sisa i : Nat) (w : World) (a : Option AutentikasiKBBI)
    (lastErr : Option Galat)
    (h : (AmbilHalamanDenganCache E w kata a lokasiKuki tanpaCache).err = none
      ∨ ∃ e, (AmbilHalamanDenganCache E w kata a lokasiKuki tanpaCache).err = some e
          ∧ janganRetry e = true) :
    retryLoop E kata maxRetry lokasiKuki tanpaCache (sisa + 1) i w a lastErr
      = AmbilHalamanDenganCache E w kata a lokasiKuki tanpaCache := by
  rcases h with h | ⟨e, h, hj⟩
  · simp only [retryLoop]; rw [h]
  · simp only [retryLoop]; rw [h]; simp [hj]

theorem retryLoop_continue (E : Env) (kata : Str) (maxRetry : Int) (lokasiKuki : Str)
    (tanpaCache : Bool) (sisa i : Nat) (w : World) (a : Option AutentikasiKBBI)
    (lastErr : Option Galat) (e : Galat)
    (h : (AmbilHalamanDenganCache E w kata a lokasiKuki tanpaCache).err = some e)
    (hj : janganRetry e = false) :
    retryLoop E kata maxRetry lokasiKuki tanpaCache (sisa + 1) i w a lastErr
      = retryLoop E kata maxRetry lokasiKuki tanpaCache sisa (i + 1)
          { (AmbilHalamanDenganCache E w kata a lokasiKuki tanpaCache).world with
            backoff := (AmbilHalamanDenganCache E w kata a lokasiKuki tanpaCache).world.backoff
              ++ [i + 1] }
          (AmbilHalamanDenganCache E w kata a lokasiKuki tanpaCache).sesi (some e) := by
  conv => lhs; simp only [retryLoop]
  rw [h]
  simp [hj]

theorem retryLoop_all_fail (E : Env) (kata : Str) (maxRetry : Int) (lokasiKuki : Str)
    (tanpaCache : Bool) :
    ∀ (sisa i : Nat) (w : World) (a : Option AutentikasiKBBI) (lastErr : Option Galat),
      cacheHit E w kata lokasiKuki tanpaCache = false →
      (∀ j, j < sisa → (E.http (w.fetches + j) (urlLengkap E.lib kata)).sementara = true) →
      (retryLoop E kata maxRetry lokasiKuki tanpaCache sisa i w a lastErr).world.fetches
          = w.fetches + sisa
      ∧ (retryLoop E kata maxRetry lokasiKuki tanpaCache sisa i w a lastErr).world.backoff
          = w.backoff ++ List.range' (i + 1) sisa
      ∧ (retryLoop E kata maxRetry lokasiKuki tanpaCache sisa i w a lastErr).world.saves
          = w.saves
      ∧ (retryLoop E kata maxRetry lokasiKuki tanpaCache sisa i w a lastErr).html = []
      ∧ (retryLoop E kata maxRetry lokasiKuki tanpaCache sisa i w a lastErr).err
          = some (.bungkus
              (pesanHabis maxRetry
                (if sisa = 0 then lastErr else (percobaan E kata (w.fetches + sisa - 1)).2))
              (if sisa = 0 then lastErr else (percobaan E kata (w.fetches + sisa - 1)).2)) := by
  intro sisa
  induction sisa with
  | zero =>
    intro i w a lastErr _ _
    simp [retryLoop, pesanHabis]
  | succ n ih =>
    intro i w a lastErr hmiss hfail
    obtain ⟨e, he, hj⟩ := percobaan_sementara E kata w.fetches (by simpa using hfail 0 (by omega))
    have hD := denganCache_of_miss E w kata a lokasiKuki tanpaCache hmiss
    have herr : (AmbilHalamanDenganCache E w kata a lokasiKuki tanpaCache).err = some e := by
      rw [hD.2.1, he]
    have hrest := hD.2.2.2.2.2 (by rw [herr]; simp)
    rw [retryLoop_continue E kata maxRetry lokasiKuki tanpaCache n i w a lastErr e herr hj]
    have hI := ih (i + 1)
      { (AmbilHalamanDenganCache E w kata a lokasiKuki tanpaCache).world with
        backoff := (AmbilHalamanDenganCache E w kata a lokasiKuki tanpaCache).world.backoff
          ++ [i + 1] }
      (AmbilHalamanDenganCache E w kata a lokasiKuki tanpaCache).sesi (some e)
      (cacheHit_of_tetapMiss E _ kata lokasiKuki tanpaCache hrest.2)
      (by
        intro j hjn
        have := hfail (j + 1) (by omega)
        simpa [hD.2.2.2.1, Nat.add_assoc, Nat.add_comm 1 j] using this)
    obtain ⟨h1, h2, h3, h4, h5⟩ := hI
    refine ⟨?_, ?_, ?_, h4, ?_⟩
    · rw [h1]; simp only [hD.2.2.2.1]; omega
    · rw [h2]; simp only [hD.2.2.2.2.1, List.append_assoc, List.singleton_append]
      rw [List.range'_succ]
    · rw [h3]; exact hrest.1
    · rw [h5]
      simp only [hD.2.2.2.1]
      by_cases hn : n = 0
      · subst hn
        simp [he]
      · have : w.fetches + 1 + n - 1 = w.fetches + (n + 1) - 1 := by omega
        simp [hn, this]

theorem cekKesalahan_kinds (url isi : Str) (k : KesalahanKBBI)
    (h : cekKesalahan url isi = some k) :
    k = ErrTerjadiKesalahan ∨ k = ErrTidakDitemukan ∨ k = ErrBatasSehari
      ∨ k = ErrModaTerbatas ∨ k = ErrAkunDibekukan := by
  simp only [cekKesalahan] at h
  repeat' split at h
  all_goals simp only [Option.some.injEq, reduceCtorEq] at h
  all_goals subst h
  all_goals simp

theorem janganRetry_four (k : KesalahanKBBI)
    (h : k = ErrTidakDitemukan ∨ k = ErrBatasSehari ∨ k = ErrModaTerbatas
      ∨ k = ErrAkunDibekukan) : janganRetry (.kbbi k) = true := by
  rcases h with h | h | h | h <;> subst h <;> decide

theorem denganCache_fetches_le (E : Env) (w : World) (kata : Str)
    (a : Option AutentikasiKBBI) (lokasiKuki : Str) (tanpaCache : Bool) :
    w.fetches ≤ (AmbilHalamanDenganCache E w kata a lokasiKuki tanpaCache).world.fetches := by
  cases h : cacheHit E w kata lokasiKuki tanpaCache with
  | false =>
    rw [(denganCache_of_miss E w kata a lokasiKuki tanpaCache h).2.2.2.1]
    omega
  | true =>
    obtain ⟨m, _, _, _, hr⟩ := denganCache_of_hit E w kata a lokasiKuki tanpaCache h
    rw [hr]
    exact le_of_eq (AmbilCache_counters m E w kata).1.symm

theorem retryLoop_fetches_le (E : Env) (kata : Str) (maxRetry : Int) (lokasiKuki : Str)
    (tanpaCache : Bool) :
    ∀ (sisa i : Nat) (w : World) (a : Option AutentikasiKBBI) (lastErr : Option Galat),
      w.fetches
        ≤ (retryLoop E kata maxRetry lokasiKuki tanpaCache sisa i w a lastErr).world.fetches := by
  intro sisa
  induction sisa with
  | zero => intro i w a lastErr; simp [retryLoop]
  | succ n ih =>
    intro i w a lastErr
    have hle := denganCache_fetches_le E w kata a lokasiKuki tanpaCache
    cases he : (AmbilHalamanDenganCache E w kata a lokasiKuki tanpaCache).err with
    | none =>
      rw [retryLoop_return E kata maxRetry lokasiKuki tanpaCache n i w a lastErr (Or.inl he)]
      exact hle
    | some e =>
      cases hj : janganRetry e with
      | true =>
        rw [retryLoop_return E kata maxRetry lokasiKuki tanpaCache n i w a lastErr
          (Or.inr ⟨e, he, hj⟩)]
        exact hle
      | false =>
        rw [retryLoop_continue E kata maxRetry lokasiKuki tanpaCache n i w a lastErr e he hj]
        exact le_trans hle (ih (i + 1)
          { (AmbilHalamanDenganCache E w kata a lokasiKuki tanpaCache).world with
            backoff := (AmbilHalamanDenganCache E w kata a lokasiKuki tanpaCache).world.backoff
              ++ [i + 1] } _ _)

theorem retry_terminal_first (E : Env) (w : World) (kata : Str)
    (a : Option AutentikasiKBBI) (maxRetry : Int) (lokasiKuki : Str) (tanpaCache : Bool)
    (url isi : Str) (k : KesalahanKBBI)
    (hmax : 1 ≤ maxRetry)
    (hmiss : cacheHit E w kata lokasiKuki tanpaCache = false)
    (hresp : E.http w.fetches (urlLengkap E.lib kata) = .halaman url isi)
    (hk : cekKesalahan url isi = some k)
    (hkind : k = ErrTidakDitemukan ∨ k = ErrBatasSehari ∨ k = ErrModaTerbatas
      ∨ k = ErrAkunDibekukan) :
    AmbilHalamanDenganRetrydanCache E w kata a maxRetry lokasiKuki tanpaCache
      = AmbilHalamanDenganCache E w kata a lokasiKuki tanpaCache := by
  obtain ⟨n, hn⟩ : ∃ n, maxRetry.toNat = n + 1 := ⟨maxRetry.toNat - 1, by omega⟩
  have hD := denganCache_of_miss E w kata a lokasiKuki tanpaCache hmiss
  have hP := percobaan_halaman E kata url isi w.fetches hresp
  rw [hP, hk] at hD
  simp only [Option.map_some'] at hD
  unfold AmbilHalamanDenganRetrydanCache
  rw [hn, retryLoop_return E kata maxRetry lokasiKuki tanpaCache n 0 w a none
    (Or.inr ⟨.kbbi k, hD.2.1, janganRetry_four k hkind⟩)]

/-- C2: when the first network attempt is classified as not found, daily limit, restricted
mode or suspended account, the orchestrator returns that very error with the markup of that
attempt, after one network attempt and without any backoff sleep. -/
theorem terminal_error_returns_at_once (E : Env) (w : World) (kata : Str)
    (a : Option AutentikasiKBBI) (maxRetry : Int) (lokasiKuki : Str) (tanpaCache : Bool)
    (url isi : Str) (k : KesalahanKBBI)
    (hmax : 1 ≤ maxRetry)
    (hmiss : cacheHit E w kata lokasiKuki tanpaCache = false)
    (hresp : E.http w.fetches (urlLengkap E.lib kata) = .halaman url isi)
    (hk : cekKesalahan url isi = some k)
    (hkind : k = ErrTidakDitemukan ∨ k = ErrBatasSehari ∨ k = ErrModaTerbatas
      ∨ k = ErrAkunDibekukan) :
    (AmbilHalamanDenganRetrydanCache E w kata a maxRetry lokasiKuki tanpaCache).html = isi
    ∧ (AmbilHalamanDenganRetrydanCache E w kata a maxRetry lokasiKuki tanpaCache).err
        = some (.kbbi k)
    ∧ (AmbilHalamanDenganRetrydanCache E w kata a maxRetry lokasiKuki tanpaCache).world.fetches
        = w.fetches + 1
    ∧ (AmbilHalamanDenganRetrydanCache E w kata a maxRetry lokasiKuki tanpaCache).world.backoff
        = w.backoff := by
  have hD := denganCache_of_miss E w kata a lokasiKuki tanpaCache hmiss
  have hP := percobaan_halaman E kata url isi w.fetches hresp
  rw [hP, hk] at hD
  simp only [Option.map_some'] at hD
  rw [retry_terminal_first E w kata a maxRetry lokasiKuki tanpaCache url isi k hmax hmiss
    hresp hk hkind]
  exact ⟨hD.1, hD.2.1, hD.2.2.2.1, hD.2.2.2.2.1⟩

/-- C2, for a not-found page answered to the term "a" with three attempts allowed and the
cache switched off. -/
theorem terminal_error_returns_at_once_witness :
    (AmbilHalamanDenganRetrydanCache
        (envContoh 0 (.halaman (str "x/entri/a") (str "Entri tidak ditemukan.")))
        duniaAwal (str "a") none 3 [] true).world.fetches = 1 :=
  (terminal_error_returns_at_once
    (envContoh 0 (.halaman (str "x/entri/a") (str "Entri tidak ditemukan.")))
    duniaAwal (str "a") none 3 [] true (str "x/entri/a") (str "Entri tidak ditemukan.")
    ErrTidakDitemukan (by decide) rfl rfl (by decide) (Or.inl rfl)).2.2.1

/-- C3 as stated fails for the generic failure: with two attempts allowed and every
response redirected to the error path, the first attempt is classified
`ErrTerjadiKesalahan` and the orchestrator makes two network attempts. -/
theorem generic_failure_is_retried :
    cekKesalahan (str "x/Beranda/Error") [] = some ErrTerjadiKesalahan
    ∧ (AmbilHalamanDenganRetrydanCache (envContoh 0 (.halaman (str "x/Beranda/Error") []))
        duniaAwal (str "a") none 2 [] true).world.fetches = 2 := by
  constructor
  · decide
  · rfl

/-- C3 (amended): when the first network attempt is classified as not found, daily limit,
restricted mode or suspended account, the orchestrator returns after exactly one network
attempt; when it is classified as the generic failure, the orchestrator makes one attempt
if one attempt is allowed and at least two attempts if two or more are allowed. -/
theorem short_circuit_by_kind (E : Env) (w : World) (kata : Str)
    (a : Option AutentikasiKBBI) (maxRetry : Int) (lokasiKuki : Str) (tanpaCache : Bool)
    (url isi : Str) (k : KesalahanKBBI)
    (hmax : 1 ≤ maxRetry)
    (hmiss : cacheHit E w kata lokasiKuki tanpaCache = false)
    (hresp : E.http w.fetches (urlLengkap E.lib kata) = .halaman url isi)
    (hk : cekKesalahan url isi = some k) :
    (k ≠ ErrTerjadiKesalahan →
      (AmbilHalamanDenganRetrydanCache E w kata a maxRetry lokasiKuki tanpaCache).world.fetches
        = w.fetches + 1)
    ∧ (k = ErrTerjadiKesalahan → maxRetry = 1 →
      (AmbilHalamanDenganRetrydanCache E w kata a maxRetry lokasiKuki tanpaCache).world.fetches
        = w.fetches + 1)
    ∧ (k = ErrTerjadiKesalahan → 2 ≤ maxRetry →
      w.fetches + 2 ≤
        (AmbilHalamanDenganRetrydanCache E w kata a maxRetry lokasiKuki
          tanpaCache).world.fetches) := by
  have hD := denganCache_of_miss E w kata a lokasiKuki tanpaCache hmiss
  have hP := percobaan_halaman E kata url isi w.fetches hresp
  rw [hP, hk] at hD
  simp only [Option.map_some'] at hD
  refine ⟨fun hne => ?_, fun hg h1 => ?_, fun hg h2 => ?_⟩
  · have hkind : k = ErrTidakDitemukan ∨ k = ErrBatasSehari ∨ k = ErrModaTerbatas
        ∨ k = ErrAkunDibekukan := by
      rcases cekKesalahan_kinds url isi k hk with h | h
      · exact absurd h hne
      · exact h
    rw [retry_terminal_first E w kata a maxRetry lokasiKuki tanpaCache url isi k hmax hmiss
      hresp hk hkind]
    exact hD.2.2.2.1
  · subst h1
    subst hg
    have hj : janganRetry (.kbbi ErrTerjadiKesalahan) = false := by decide
    show (retryLoop E kata 1 lokasiKuki tanpaCache 1 0 w a none).world.fetches = _
    rw [retryLoop_continue E kata 1 lokasiKuki tanpaCache 0 0 w a none _ hD.2.1 hj]
    simpa [retryLoop] using hD.2.2.2.1
  · subst hg
    obtain ⟨n, hn⟩ : ∃ n, maxRetry.toNat = n + 2 := ⟨maxRetry.toNat - 2, by omega⟩
    have hj : janganRetry (.kbbi ErrTerjadiKesalahan) = false := by decide
    have hrest := hD.2.2.2.2.2 (by rw [hD.2.1]; simp)
    unfold AmbilHalamanDenganRetrydanCache
    rw [hn, retryLoop_continue E kata maxRetry lokasiKuki tanpaCache (n + 1) 0 w a none _
      hD.2.1 hj]
    generalize hw1 : ({ (AmbilHalamanDenganCache E w kata a lokasiKuki tanpaCache).world with
      backoff := (AmbilHalamanDenganCache E w kata a lokasiKuki tanpaCache).world.backoff
        ++ [0 + 1] } : World) = w1
    have hf1 : w1.fetches = w.fetches + 1 := by rw [← hw1]; exact hD.2.2.2.1
    have hmiss1 : cacheHit E w1 kata lokasiKuki tanpaCache = false :=
      cacheHit_of_tetapMiss E w1 kata lokasiKuki tanpaCache (by rw [← hw1]; exact hrest.2)
    generalize (AmbilHalamanDenganCache E w kata a lokasiKuki tanpaCache).sesi = a1
    have hD1 := denganCache_of_miss E w1 kata a1 lokasiKuki tanpaCache hmiss1
    cases he : (AmbilHalamanDenganCache E w1 kata a1 lokasiKuki tanpaCache).err with
    | none =>
      rw [retryLoop_return E kata maxRetry lokasiKuki tanpaCache n 1 w1 a1 _ (Or.inl he)]
      rw [hD1.2.2.2.1, hf1]
    | some e =>
      cases hje : janganRetry e with
      | true =>
        rw [retryLoop_return E kata maxRetry lokasiKuki tanpaCache n 1 w1 a1 _
          (Or.inr ⟨e, he, hje⟩)]
        rw [hD1.2.2.2.1, hf1]
      | false =>
        rw [retryLoop_continue E kata maxRetry lokasiKuki tanpaCache n 1 w1 a1 _ e he hje]
        refine le_trans ?_ (retryLoop_fetches_le E kata maxRetry lokasiKuki tanpaCache _ _ _ _ _)
        show w.fetches + 2
          ≤ (AmbilHalamanDenganCache E w1 kata a1 lokasiKuki tanpaCache).world.fetches
        rw [hD1.2.2.2.1, hf1]

/-- C3, for a suspended-account redirect answered to the term "a" with three attempts
allowed. -/
theorem short_circuit_by_kind_witness :
    (AmbilHalamanDenganRetrydanCache (envContoh 0 (.halaman (str "x/Account/Banned") []))
        duniaAwal (str "a") none 3 [] true).world.fetches = 1 :=
  (short_circuit_by_kind (envContoh 0 (.halaman (str "x/Account/Banned") []))
    duniaAwal (str "a") none 3 [] true (str "x/Account/Banned") [] ErrAkunDibekukan
    (by decide) rfl rfl (by decide)).1 (by decide)

/-! ### Occurrence of a substring -/

theorem HasPrefix_append (p s : Str) : HasPrefix (p ++ s) p = true := by
  induction p with
  | nil => cases s <;> rfl
  | cons b p ih => simp [HasPrefix, ih]

theorem Contains_of_HasPrefix (s sub : Str) (h : HasPrefix s sub = true) :
    Contains s sub = true := by
  cases s with
  | nil => simpa [Contains] using h
  | cons c s => simp [Contains, h]

theorem Contains_append_left (a s sub : Str) (h : Contains s sub = true) :
    Contains (a ++ s) sub = true := by
  induction a with
  | nil => simpa using h
  | cons c a ih => simp [Contains, ih]

theorem pesanHabis_names (maxRetry : Int) (lastErr : Option Galat) :
    Contains (pesanHabis maxRetry lastErr) (fmtInt maxRetry) = true := by
  unfold pesanHabis
  rw [List.append_assoc, List.append_assoc]
  exact Contains_append_left _ _ _ (Contains_of_HasPrefix _ _ (HasPrefix_append _ _))

/-- C4: when no lookup is a cache hit and every network attempt fails at the transport
level or is classified as the generic failure, the orchestrator makes exactly `maxRetry`
attempts, sleeps 1, 2, ..., `maxRetry` seconds after them in this order (a strictly
increasing sequence), writes nothing to the cache, and returns empty markup with an error
whose message names `maxRetry` and which wraps the error of the last attempt. -/
theorem retry_exhaustion (E : Env) (w : World) (kata : Str)
    (a : Option AutentikasiKBBI) (maxRetry : Int) (lokasiKuki : Str) (tanpaCache : Bool)
    (hmax : 1 ≤ maxRetry)
    (hmiss : cacheHit E w kata lokasiKuki tanpaCache = false)
    (hfail : ∀ j : Nat, j < maxRetry.toNat →
      (E.http (w.fetches + j) (urlLengkap E.lib kata)).sementara = true) :
    ∃ last : Galat,
      (percobaan E kata (w.fetches + maxRetry.toNat - 1)).2 = some last
      ∧ (AmbilHalamanDenganRetrydanCache E w kata a maxRetry lokasiKuki tanpaCache).html = []
      ∧ (AmbilHalamanDenganRetrydanCache E w kata a maxRetry lokasiKuki tanpaCache).err
          = some (.bungkus (pesanHabis maxRetry (some last)) (some last))
      ∧ Contains (pesanHabis maxRetry (some last)) (fmtInt maxRetry) = true
      ∧ (AmbilHalamanDenganRetrydanCache E w kata a maxRetry lokasiKuki
          tanpaCache).world.fetches = w.fetches + maxRetry.toNat
      ∧ (AmbilHalamanDenganRetrydanCache E w kata a maxRetry lokasiKuki
          tanpaCache).world.backoff = w.backoff ++ List.range' 1 maxRetry.toNat
      ∧ (∀ i : Nat, i < maxRetry.toNat → (List.range' 1 maxRetry.toNat)[i]? = some (i + 1))
      ∧ List.Pairwise (fun x y => x < y) (List.range' 1 maxRetry.toNat)
      ∧ (AmbilHalamanDenganRetrydanCache E w kata a maxRetry lokasiKuki
          tanpaCache).world.saves = w.saves := by
  have hpos : maxRetry.toNat ≠ 0 := by omega
  obtain ⟨last, hlast, _⟩ := percobaan_sementara E kata (w.fetches + maxRetry.toNat - 1)
    (by
      have := hfail (maxRetry.toNat - 1) (by omega)
      have hidx : w.fetches + (maxRetry.toNat - 1) = w.fetches + maxRetry.toNat - 1 := by omega
      rwa [hidx] at this)
  obtain ⟨h1, h2, h3, h4, h5⟩ := retryLoop_all_fail E kata maxRetry lokasiKuki tanpaCache
    maxRetry.toNat 0 w a none hmiss hfail
  rw [if_neg hpos, hlast] at h5
  refine ⟨last, hlast, h4, h5, pesanHabis_names _ _, h1, h2, ?_, ?_, h3⟩
  · intro i hi
    rw [List.getElem?_range' _ _ hi]
    simp [Nat.add_comm]
  · exact List.pairwise_lt_range' 1 maxRetry.toNat

/-- C4, for the term "a" with three attempts allowed, the cache switched off and every
response of status 500: the sleeps are of 1, 2 and 3 seconds. -/
theorem retry_exhaustion_witness :
    ∃ last : Galat,
      (AmbilHalamanDenganRetrydanCache (envContoh 0 (.statusLain 500)) duniaAwal (str "a")
        none 3 [] true).err = some (.bungkus (pesanHabis 3 (some last)) (some last))
      ∧ (AmbilHalamanDenganRetrydanCache (envContoh 0 (.statusLain 500)) duniaAwal (str "a")
        none 3 [] true).world.backoff = [1, 2, 3] := by
  obtain ⟨last, _, _, h3, _, _, h6, _⟩ :=
    retry_exhaustion (envContoh 0 (.statusLain 500)) duniaAwal (str "a") none 3 [] true
      (by decide) rfl (fun _ _ => rfl)
  exact ⟨last, h3, h6⟩

/-! ### What a successful fetch leaves in the cache -/

theorem SimpanCache_ok (m : ManagerCache) (E : Env) (w : World) (kata html : Str)
    (hmarshal : ∀ entri, E.marshalErr entri = none)
    (hwrite : E.writeFile (m.namaFileCache E.lib kata) = none) :
    (m.SimpanCache E w kata html).1.clock = w.clock + 1
    ∧ (m.SimpanCache E w kata html).1.files (m.namaFileCache E.lib kata)
        = some (.json { Kata := jsonString kata, HTML := jsonString html,
                        Timestamp := E.now w.clock,
                        Expired := E.now w.clock + DurasiCache }) := by
  simp [ManagerCache.SimpanCache, hmarshal, hwrite, World.write]

theorem denganCache_success_saved (E : Env) (w : World) (kata : Str)
    (a : Option AutentikasiKBBI) (lokasiKuki : Str) (m : ManagerCache)
    (hm : BaruManagerCache E lokasiKuki = .ok m)
    (hmarshal : ∀ entri, E.marshalErr entri = none)
    (hwrite : E.writeFile (m.namaFileCache E.lib kata) = none)
    (hmiss : cacheHit E w kata lokasiKuki false = false)
    (hok : (AmbilHalamanDenganCache E w kata a lokasiKuki false).err = none) :
    (AmbilHalamanDenganCache E w kata a lokasiKuki false).world.files
        (m.namaFileCache E.lib kata)
      = some (.json
          { Kata := jsonString kata,
            HTML := jsonString (AmbilHalamanDenganCache E w kata a lokasiKuki false).html,
            Timestamp :=
              E.now ((AmbilHalamanDenganCache E w kata a lokasiKuki false).world.clock - 1),
            Expired :=
              E.now ((AmbilHalamanDenganCache E w kata a lokasiKuki false).world.clock - 1)
                + DurasiCache }) := by
  rcases hA : m.AmbilCache E w kata with ⟨w1, htmlCache, found⟩
  have hfound : found = false := by simpa [cacheHit, hm, hA] using hmiss
  subst hfound
  cases he : (ambilHalamanLangsung E w1 kata a).err with
  | some e =>
    rw [denganCache_miss_err E w w1 kata a lokasiKuki htmlCache m hm hA (by simp [he]), he]
      at hok
    simp at hok
  | none =>
    rw [denganCache_miss_ok E w w1 kata a lokasiKuki htmlCache m hm hA he]
    have hS := SimpanCache_ok m E (ambilHalamanLangsung E w1 kata a).world kata
      (ambilHalamanLangsung E w1 kata a).html hmarshal hwrite
    show (m.SimpanCache E _ kata _).1.files _ = _
    rw [hS.2]
    simp only [hS.1, Nat.add_sub_cancel]

theorem retryLoop_success_saved (E : Env) (kata : Str) (maxRetry : Int) (lokasiKuki : Str)
    (m : ManagerCache)
    (hm : BaruManagerCache E lokasiKuki = .ok m)
    (hmarshal : ∀ entri, E.marshalErr entri = none)
    (hwrite : E.writeFile (m.namaFileCache E.lib kata) = none) :
    ∀ (sisa i : Nat) (w : World) (a : Option AutentikasiKBBI) (lastErr : Option Galat),
      cacheHit E w kata lokasiKuki false = false →
      (retryLoop E kata maxRetry lokasiKuki false sisa i w a lastErr).err = none →
      (retryLoop E kata maxRetry lokasiKuki false sisa i w a lastErr).world.files
          (m.namaFileCache E.lib kata)
        = some (.json
            { Kata := jsonString kata,
              HTML := jsonString (retryLoop E kata maxRetry lokasiKuki false sisa i w a
                lastErr).html,
              Timestamp := E.now ((retryLoop E kata maxRetry lokasiKuki false sisa i w a
                lastErr).world.clock - 1),
              Expired := E.now ((retryLoop E kata maxRetry lokasiKuki false sisa i w a
                lastErr).world.clock - 1) + DurasiCache }) := by
  intro sisa
  induction sisa with
  | zero => intro i w a lastErr _ hok; simp [retryLoop] at hok
  | succ n ih =>
    intro i w a lastErr hmiss hok
    cases he : (AmbilHalamanDenganCache E w kata a lokasiKuki false).err with
    | none =>
      rw [retryLoop_return E kata maxRetry lokasiKuki false n i w a lastErr (Or.inl he)]
      exact denganCache_success_saved E w kata a lokasiKuki m hm hmarshal hwrite hmiss he
    | some e =>
      cases hj : janganRetry e with
      | true =>
        rw [retryLoop_return E kata maxRetry lokasiKuki false n i w a lastErr
          (Or.inr ⟨e, he, hj⟩), he] at hok
        simp at hok
      | false =>
        have hD := denganCache_of_miss E w kata a lokasiKuki false hmiss
        have hrest := hD.2.2.2.2.2 (by rw [he]; simp)
        rw [retryLoop_continue E kata maxRetry lokasiKuki false n i w a lastErr e he hj]
          at hok ⊢
        exact ih (i + 1) _ _ _
          (cacheHit_of_tetapMiss E _ kata lokasiKuki false hrest.2) hok

theorem cache_hit_served (E : Env) (w : World) (kata : Str) (a : Option AutentikasiKBBI)
    (maxRetry : Int) (lokasiKuki : Str) (m : ManagerCache) (entri : EntriCache)
    (hmax : 1 ≤ maxRetry)
    (hm : BaruManagerCache E lokasiKuki = .ok m)
    (hfile : w.files (m.namaFileCache E.lib kata) = some (.json entri))
    (hfresh : E.now w.clock ≤ entri.Expired) :
    AmbilHalamanDenganRetrydanCache E w kata a maxRetry lokasiKuki false
      = ⟨{ w with clock := w.clock + 1 }, a, entri.HTML, none⟩ := by
  obtain ⟨n, hn⟩ : ∃ n, maxRetry.toNat = n + 1 := ⟨maxRetry.toNat - 1, by omega⟩
  have hA : m.AmbilCache E w kata = ({ w with clock := w.clock + 1 }, entri.HTML, true) := by
    simp [ManagerCache.AmbilCache, hfile, not_lt.mpr hfresh]
  have hD := denganCache_hit E w _ kata a lokasiKuki entri.HTML m hm hA
  unfold AmbilHalamanDenganRetrydanCache
  rw [hn, retryLoop_return E kata maxRetry lokasiKuki false n 0 w a none
    (Or.inl (by rw [hD])), hD]

/-- C5 (amended): with the cache in use and an unexpired entry for the term, the
orchestrator returns the cached markup with no error, no network attempt and no backoff
sleep, and leaves the session as it was. When the entry is the one left by an earlier
successful call that went to the network and could write the cache, the entry expires 30
days after that call stamped it and the markup returned is the earlier markup as JSON text
holds it, each invalid UTF-8 byte being replaced by U+FFFD: the earlier markup itself
whenever that is valid UTF-8. -/
theorem cache_hit_bypasses_network (E : Env) (w : World) (kata : Str)
    (a : Option AutentikasiKBBI) (maxRetry : Int) (lokasiKuki : Str) (m : ManagerCache)
    (entri : EntriCache)
    (hmax : 1 ≤ maxRetry)
    (hm : BaruManagerCache E lokasiKuki = .ok m)
    (hfile : w.files (m.namaFileCache E.lib kata) = some (.json entri))
    (hfresh : E.now w.clock ≤ entri.Expired) :
    ((AmbilHalamanDenganRetrydanCache E w kata a maxRetry lokasiKuki false).html = entri.HTML
      ∧ (AmbilHalamanDenganRetrydanCache E w kata a maxRetry lokasiKuki false).err = none
      ∧ (AmbilHalamanDenganRetrydanCache E w kata a maxRetry lokasiKuki false).world.fetches
          = w.fetches
      ∧ (AmbilHalamanDenganRetrydanCache E w kata a maxRetry lokasiKuki false).world.backoff
          = w.backoff
      ∧ (AmbilHalamanDenganRetrydanCache E w kata a maxRetry lokasiKuki false).world.courtesy
          = w.courtesy
      ∧ (AmbilHalamanDenganRetrydanCache E w kata a maxRetry lokasiKuki false).sesi = a)
    ∧ ∀ (E0 : Env) (w0 : World) (a0 : Option AutentikasiKBBI) (maxRetry0 : Int),
        E0.lib = E.lib → BaruManagerCache E0 lokasiKuki = .ok m →
        (∀ e, E0.marshalErr e = none) → E0.writeFile (m.namaFileCache E.lib kata) = none →
        cacheHit E0 w0 kata lokasiKuki false = false →
        (AmbilHalamanDenganRetrydanCache E0 w0 kata a0 maxRetry0 lokasiKuki false).err = none →
        w.files (m.namaFileCache E.lib kata)
          = (AmbilHalamanDenganRetrydanCache E0 w0 kata a0 maxRetry0 lokasiKuki
              false).world.files (m.namaFileCache E.lib kata) →
        entri.Expired
            = E0.now ((AmbilHalamanDenganRetrydanCache E0 w0 kata a0 maxRetry0 lokasiKuki
                false).world.clock - 1) + DurasiCache
          ∧ (AmbilHalamanDenganRetrydanCache E w kata a maxRetry lokasiKuki false).html
            = jsonString
                (AmbilHalamanDenganRetrydanCache E0 w0 kata a0 maxRetry0 lokasiKuki false).html
          ∧ (ValidString
                (AmbilHalamanDenganRetrydanCache E0 w0 kata a0 maxRetry0 lokasiKuki
                  false).html = true →
              (AmbilHalamanDenganRetrydanCache E w kata a maxRetry lokasiKuki false).html
                = (AmbilHalamanDenganRetrydanCache E0 w0 kata a0 maxRetry0 lokasiKuki
                    false).html) := by
  have hr := cache_hit_served E w kata a maxRetry lokasiKuki m entri hmax hm hfile hfresh
  refine ⟨by rw [hr]; exact ⟨rfl, rfl, rfl, rfl, rfl, rfl⟩, ?_⟩
  intro E0 w0 a0 maxRetry0 hlib hm0 hmarshal hwrite hmiss0 hok0 hsame
  have hsaved := retryLoop_success_saved E0 kata maxRetry0 lokasiKuki m hm0 hmarshal
    (by rw [hlib]; exact hwrite) maxRetry0.toNat 0 w0 a0 none hmiss0 hok0
  rw [hlib] at hsaved
  have hent : Berkas.json entri = Berkas.json _ :=
    Option.some.inj (hfile.symm.trans (hsame.trans hsaved))
  have hent2 := Berkas.json.inj hent
  have hhtml : entri.HTML = jsonString
      (AmbilHalamanDenganRetrydanCache E0 w0 kata a0 maxRetry0 lokasiKuki false).html := by
    rw [hent2]; rfl
  refine ⟨by rw [hent2]; rfl, by rw [hr]; exact hhtml, fun hv => ?_⟩
  rw [hr]
  show entri.HTML = _
  rw [hhtml, jsonString, validAux_jsonStringAux _ 0 hv]

/-- C5, for the entry that an earlier save of the markup "rumah" left for the term "a",
read at the time of the save. -/
theorem cache_hit_bypasses_network_witness :
    (AmbilHalamanDenganRetrydanCache (envContoh 0 (.statusLain 500))
        (managerContoh.SimpanCache (envContoh 0 (.statusLain 500)) duniaAwal (str "a")
          (str "rumah")).1 (str "a") none 3 [] false).html = entriContoh.HTML
    ∧ (AmbilHalamanDenganRetrydanCache (envContoh 0 (.statusLain 500))
        (managerContoh.SimpanCache (envContoh 0 (.statusLain 500)) duniaAwal (str "a")
          (str "rumah")).1 (str "a") none 3 [] false).err = none :=
  ⟨(cache_hit_bypasses_network (envContoh 0 (.statusLain 500))
      (managerContoh.SimpanCache (envContoh 0 (.statusLain 500)) duniaAwal (str "a")
        (str "rumah")).1 (str "a") none 3 [] managerContoh entriContoh
      (by decide) rfl rfl (by decide)).1.1,
   (cache_hit_bypasses_network (envContoh 0 (.statusLain 500))
      (managerContoh.SimpanCache (envContoh 0 (.statusLain 500)) duniaAwal (str "a")
        (str "rumah")).1 (str "a") none 3 [] managerContoh entriContoh
      (by decide) rfl rfl (by decide)).1.2.1⟩

/-- C5 as stated fails in its second half: a first call that fetches the markup whose one
byte is 0xFF succeeds and returns it, and a second call at the same instant is served from
the cache without a network attempt but returns the three bytes of U+FFFD. -/
theorem second_call_differs_on_invalid_utf8 :
    (AmbilHalamanDenganRetrydanCache (envContoh 0 (.halaman (str "x/entri/a") [0xFF]))
        duniaAwal (str "a") none 3 [] false).err = none
    ∧ (AmbilHalamanDenganRetrydanCache (envContoh 0 (.halaman (str "x/entri/a") [0xFF]))
        duniaAwal (str "a") none 3 [] false).html = [0xFF]
    ∧ (AmbilHalamanDenganRetrydanCache (envContoh 0 (.halaman (str "x/entri/a") [0xFF]))
        (AmbilHalamanDenganRetrydanCache (envContoh 0 (.halaman (str "x/entri/a") [0xFF]))
          duniaAwal (str "a") none 3 [] false).world (str "a") none 3 [] false).world.fetches
        = (AmbilHalamanDenganRetrydanCache (envContoh 0 (.halaman (str "x/entri/a") [0xFF]))
          duniaAwal (str "a") none 3 [] false).world.fetches
    ∧ (AmbilHalamanDenganRetrydanCache (envContoh 0 (.halaman (str "x/entri/a") [0xFF]))
        (AmbilHalamanDenganRetrydanCache (envContoh 0 (.halaman (str "x/entri/a") [0xFF]))
          duniaAwal (str "a") none 3 [] false).world (str "a") none 3 [] false).html
        = [0xEF, 0xBF, 0xBD] :=
  ⟨rfl, rfl, rfl, rfl⟩

/-- C6: when `AmbilHalamanDenganCache` looks the term up, misses, and the network fetch
returns an error of any kind, `SimpanCache` is not called, and `AmbilCache` for the term
is a miss in every later world that holds the same file for the term, whatever the clock
reads. -/
theorem failed_fetch_not_cached (E : Env) (w : World) (kata : Str)
    (a : Option AutentikasiKBBI) (lokasiKuki : Str) (m : ManagerCache)
    (hm : BaruManagerCache E lokasiKuki = .ok m)
    (hmiss : (m.AmbilCache E w kata).2.2 = false)
    (herr : (AmbilHalamanDenganCache E w kata a lokasiKuki false).err ≠ none) :
    (AmbilHalamanDenganCache E w kata a lokasiKuki false).world.saves = w.saves
    ∧ (AmbilHalamanDenganCache E w kata a lokasiKuki false).err = (percobaan E kata w.fetches).2
    ∧ ∀ (E2 : Env) (w2 : World), E2.lib = E.lib →
        w2.files (m.namaFileCache E.lib kata)
          = (AmbilHalamanDenganCache E w kata a lokasiKuki false).world.files
              (m.namaFileCache E.lib kata) →
        (m.AmbilCache E2 w2 kata).2 = ([], false) := by
  have hD := denganCache_of_miss E w kata a lokasiKuki false (by simp [cacheHit, hm, hmiss])
  obtain ⟨hsaves, hT⟩ := hD.2.2.2.2.2 herr
  refine ⟨hsaves, hD.2.1, fun E2 w2 hlib hfile => ?_⟩
  rcases hT with h | ⟨err, h⟩ | ⟨m2, hm2, hb⟩
  · simp at h
  · rw [hm] at h; simp at h
  · rw [hm] at hm2
    have hmm : m = m2 := by injection hm2
    subst hmm
    have hb2 : buntu w2.files (m.namaFileCache E2.lib kata) := by
      unfold buntu at hb ⊢
      rw [hlib, hfile]
      exact hb
    rw [AmbilCache_buntu m E2 w2 kata hb2]

/-- C6, for a not-found page answered to the term "a" with an empty cache. -/
theorem failed_fetch_not_cached_witness :
    (AmbilHalamanDenganCache
        (envContoh 0 (.halaman (str "x/entri/a") (str "Entri tidak ditemukan.")))
        duniaAwal (str "a") none [] false).world.saves = 0 :=
  (failed_fetch_not_cached
    (envContoh 0 (.halaman (str "x/entri/a") (str "Entri tidak ditemukan.")))
    duniaAwal (str "a") none [] managerContoh rfl rfl (by
      have h : (AmbilHalamanDenganCache
        (envContoh 0 (.halaman (str "x/entri/a") (str "Entri tidak ditemukan.")))
        duniaAwal (str "a") none [] false).err = some (.kbbi ErrTidakDitemukan) := rfl
      rw [h]; simp)).1

/-- C9: whenever the lookup is not a hit, `AmbilHalamanDenganCache` with the cache in use
returns the markup and the error that it returns with the cache switched off, and leaves
the session in the same state, whatever fails in creating the manager, reading the entry
or writing it. -/
theorem cache_failures_invisible (E : Env) (w : World) (kata : Str)
    (a : Option AutentikasiKBBI) (lokasiKuki : Str)
    (hmiss : cacheHit E w kata lokasiKuki false = false) :
    (AmbilHalamanDenganCache E w kata a lokasiKuki false).html
        = (AmbilHalamanDenganCache E w kata a lokasiKuki true).html
    ∧ (AmbilHalamanDenganCache E w kata a lokasiKuki false).err
        = (AmbilHalamanDenganCache E w kata a lokasiKuki true).err
    ∧ (AmbilHalamanDenganCache E w kata a lokasiKuki false).sesi
        = (AmbilHalamanDenganCache E w kata a lokasiKuki true).sesi := by
  have h1 := denganCache_of_miss E w kata a lokasiKuki false hmiss
  have h2 := denganCache_of_miss E w kata a lokasiKuki true (by simp [cacheHit])
  exact ⟨h1.1.trans h2.1.symm, h1.2.1.trans h2.2.1.symm, h1.2.2.1.trans h2.2.2.1.symm⟩

/-- C9, in surroundings where the cache directory cannot be created. -/
theorem cache_failures_invisible_witness :
    (AmbilHalamanDenganCache (envTanpaDirektori 0 (.halaman (str "x/entri/a") (str "rumah")))
        duniaAwal (str "a") none [] false).html
      = (AmbilHalamanDenganCache (envTanpaDirektori 0 (.halaman (str "x/entri/a") (str "rumah")))
        duniaAwal (str "a") none [] true).html :=
  (cache_failures_invisible (envTanpaDirektori 0 (.halaman (str "x/entri/a") (str "rumah")))
    duniaAwal (str "a") none [] rfl).1

/-- C8, for the entry saved at time 0 and looked up one nanosecond after its expiry. -/
theorem expired_entry_is_removed_witness :
    (managerContoh.AmbilCache (envContoh (DurasiCache + 1) (.statusLain 500))
        (managerContoh.SimpanCache (envContoh 0 (.statusLain 500)) duniaAwal (str "a")
          (str "rumah")).1 (str "a")).2 = ([], false) :=
  (expired_entry_is_removed (envContoh (DurasiCache + 1) (.statusLain 500)) managerContoh
    (managerContoh.SimpanCache (envContoh 0 (.statusLain 500)) duniaAwal (str "a")
      (str "rumah")).1 (str "a") entriContoh rfl (by decide)).1

/-! ### Structural parser: shape of the result -/

theorem foldl_inv {α β : Type} (P : β → Prop) (f : β → α → β)
    (h : ∀ b a, P b → P (f b a)) : ∀ (l : List α) (b : β), P b → P (l.foldl f b) := by
  intro l
  induction l with
  | nil => intro b hb; exact hb
  | cons a l ih => intro b hb; exact ih (f b a) (h b a hb)

theorem parsePeribahawanIdiom_frame (doc : Node) (definisi : Definisi) :
    (parsePeribahawanIdiom doc definisi).Entri = definisi.Entri
    ∧ (parsePeribahawanIdiom doc definisi).SaranEntri = definisi.SaranEntri
    ∧ (parsePeribahawanIdiom doc definisi).Pranala = definisi.Pranala := by
  unfold parsePeribahawanIdiom
  refine foldl_inv
    (fun d : Definisi => d.Entri = definisi.Entri ∧ d.SaranEntri = definisi.SaranEntri
      ∧ d.Pranala = definisi.Pranala) _ ?_ _ _ ⟨rfl, rfl, rfl⟩
  intro d s hd
  unfold peribahasaSatu
  simp only []
  split
  · exact hd
  · split
    · exact hd
    · exact hd

theorem ParseDefinisi_ok (H : PustakaHTML) (html : Str) (terautentikasi : Bool)
    (d : Definisi) (h : ParseDefinisi H html terautentikasi = .ok d) :
    ∃ doc, H.Parse html = .ok doc
      ∧ ((Contains html penandaSaran = true ∧ d.Entri = []
            ∧ d.SaranEntri = parseSaranEntri doc ∧ d.Pranala = [])
        ∨ (Contains html penandaSaran = false
            ∧ d.Entri = parseEntriList H doc terautentikasi ∧ d.SaranEntri = []
            ∧ d.Pranala = [])) := by
  unfold ParseDefinisi at h
  cases hp : H.Parse html with
  | error err => rw [hp] at h; simp at h
  | ok doc =>
    rw [hp] at h
    refine ⟨doc, rfl, ?_⟩
    by_cases hc : Contains html penandaSaran = true
    · left
      have hc2 : Contains html (str "Berikut beberapa saran entri lain yang mirip.") = true := hc
      simp only [hc2, if_true, Except.ok.injEq] at h
      subst h
      exact ⟨hc, rfl, rfl, rfl⟩
    · right
      have hc2 : ¬ Contains html (str "Berikut beberapa saran entri lain yang mirip.") = true :=
        hc
      have hc3 : Contains html (str "Berikut beberapa saran entri lain yang mirip.") = false := by
        simpa using hc2
      simp only [hc3, Bool.false_eq_true, if_false, Except.ok.injEq] at h
      subst h
      have hf := parsePeribahawanIdiom_frame doc
        { Pranala := [], Entri := parseEntriList H doc terautentikasi, Peribahasa := [],
          Idiom := [], SaranEntri := [] }
      exact ⟨by simpa using hc, hf.1, hf.2.1, hf.2.2⟩

theorem simpanEntri_mem (H : PustakaHTML) (terautentikasi : Bool) (entris : List Entri)
    (currentEntri : Str) (e : Entri)
    (he : e ∈ simpanEntri H terautentikasi entris currentEntri) :
    e ∈ entris ∨ (e = parseEntri H currentEntri terautentikasi ∧ e.Nama ≠ []) := by
  unfold simpanEntri at he
  simp only [] at he
  split at he
  · rename_i hn
    rcases List.mem_append.mp he with h | h
    · exact Or.inl h
    · right
      have : e = parseEntri H currentEntri terautentikasi := by simpa using h
      exact ⟨this, by rw [this]; exact hn⟩
  · exact Or.inl he

theorem parseEntriList_mem (H : PustakaHTML) (doc : Node) (terautentikasi : Bool)
    (e : Entri) (he : e ∈ parseEntriList H doc terautentikasi) :
    ∃ htmlEntri, e = parseEntri H htmlEntri terautentikasi ∧ e.Nama ≠ [] := by
  have hinv : ∀ (l : List Path) (st : Segmen),
      (∀ x ∈ st.entris, ∃ htmlEntri, x = parseEntri H htmlEntri terautentikasi ∧ x.Nama ≠ []) →
      ∀ x ∈ (l.foldl (langkahSegmen H terautentikasi doc) st).entris,
        ∃ htmlEntri, x = parseEntri H htmlEntri terautentikasi ∧ x.Nama ≠ [] := by
    intro l st hst
    refine foldl_inv
      (fun st : Segmen => ∀ x ∈ st.entris,
        ∃ htmlEntri, x = parseEntri H htmlEntri terautentikasi ∧ x.Nama ≠ []) _ ?_ l st hst
    intro st s hst x hx
    unfold langkahSegmen at hx
    split at hx
    · split at hx
      · rcases simpanEntri_mem H terautentikasi _ _ x hx with h | h
        · exact hst x h
        · exact ⟨_, h⟩
      · exact hst x hx
    · simp only [] at hx
      split at hx
      all_goals
        split at hx
        all_goals first
          | exact hst x hx
          | (rcases simpanEntri_mem H terautentikasi _ _ x hx with h | h
             · exact hst x h
             · exact ⟨_, h⟩)
  unfold parseEntriList at he
  simp only [] at he
  split at he
  · rcases simpanEntri_mem H terautentikasi _ _ e he with h | h
    · exact hinv _ _ (by intro x hx; simp at hx) e h
    · exact ⟨_, h⟩
  · exact hinv _ _ (by intro x hx; simp at hx) e he

/-- C11: the result of `ParseDefinisi` never has both a non-empty list of entries and a
non-empty list of suggestions: with the marker of suggestions in the markup the entries
are empty, and without it the suggestions are. -/
theorem entries_or_suggestions (H : PustakaHTML) (html : Str) (terautentikasi : Bool)
    (d : Definisi) (h : ParseDefinisi H html terautentikasi = .ok d) :
    ¬ (d.Entri ≠ [] ∧ d.SaranEntri ≠ []) := by
  obtain ⟨doc, _, hd | hd⟩ := ParseDefinisi_ok H html terautentikasi d h
  · exact fun hboth => hboth.1 hd.2.1
  · exact fun hboth => hboth.2 hd.2.2.1

/-- C18: every entry in the result of `ParseDefinisi` has a non-empty headword, and is the
parse of a fragment whose parse has a non-empty headword. -/
theorem entries_have_headword (H : PustakaHTML) (html : Str) (terautentikasi : Bool)
    (d : Definisi) (h : ParseDefinisi H html terautentikasi = .ok d) :
    ∀ e ∈ d.Entri, e.Nama ≠ []
      ∧ ∃ htmlEntri, e = parseEntri H htmlEntri terautentikasi
          ∧ (parseEntri H htmlEntri terautentikasi).Nama ≠ [] := by
  intro e he
  obtain ⟨doc, _, hd | hd⟩ := ParseDefinisi_ok H html terautentikasi d h
  · rw [hd.2.1] at he; simp at he
  · rw [hd.2.1] at he
    obtain ⟨x, hx, hn⟩ := parseEntriList_mem H doc terautentikasi e he
    exact ⟨hn, x, hx, by rw [← hx]; exact hn⟩

/-! ### Structural parser: which fields each step writes -/

theorem parseNamaEntri_frame (doc : Node) (judul : List Path) (entri : Entri) :
    (parseNamaEntri doc judul entri).khusus = entri.khusus
    ∧ (parseNamaEntri doc judul entri).bentuk = entri.bentuk
    ∧ (parseNamaEntri doc judul entri).Makna = entri.Makna := by
  unfold parseNamaEntri
  simp only []
  split <;> exact ⟨rfl, rfl, rfl⟩

theorem parseNomorEntri_frame (doc : Node) (judul : List Path) (entri : Entri) :
    (parseNomorEntri doc judul entri).khusus = entri.khusus
    ∧ (parseNomorEntri doc judul entri).bentuk = entri.bentuk
    ∧ (parseNomorEntri doc judul entri).Makna = entri.Makna := by
  unfold parseNomorEntri
  simp only []
  split <;> exact ⟨rfl, rfl, rfl⟩

theorem parseKataDasar_frame (doc : Node) (judul : List Path) (entri : Entri) :
    (parseKataDasar doc judul entri).khusus = entri.khusus
    ∧ (parseKataDasar doc judul entri).bentuk = entri.bentuk
    ∧ (parseKataDasar doc judul entri).Makna = entri.Makna := by
  unfold parseKataDasar
  refine foldl_inv
    (fun e : Entri => e.khusus = entri.khusus ∧ e.bentuk = entri.bentuk
      ∧ e.Makna = entri.Makna) _ ?_ _ _ ⟨rfl, rfl, rfl⟩
  intro e s he
  simp only []
  split
  · exact he
  · exact he

theorem parsePelafalan_frame (doc : Node) (judul : List Path) (entri : Entri) :
    (parsePelafalan doc judul entri).khusus = entri.khusus
    ∧ (parsePelafalan doc judul entri).bentuk = entri.bentuk
    ∧ (parsePelafalan doc judul entri).Makna = entri.Makna := by
  unfold parsePelafalan
  simp only []
  split <;> exact ⟨rfl, rfl, rfl⟩

theorem parseVarian_frame (doc : Node) (judul : List Path) (entri : Entri)
    (terautentikasi : Bool) :
    (parseVarian doc judul entri terautentikasi).khusus = entri.khusus
    ∧ (parseVarian doc judul entri terautentikasi).Makna = entri.Makna
    ∧ (entri.bentuk = ([], []) →
        (parseVarian doc judul entri terautentikasi).Varian = []
        ∨ (parseVarian doc judul entri terautentikasi).BentukTidakBaku = []) := by
  unfold parseVarian
  split
  · exact ⟨rfl, rfl, fun h => Or.inl (congrArg Prod.fst h)⟩
  · split
    · exact ⟨rfl, rfl, fun h => Or.inl (congrArg Prod.fst h)⟩
    · simp only []
      split
      · have hf := foldl_inv
          (fun e : Entri => e.khusus = entri.khusus ∧ e.Makna = entri.Makna
            ∧ e.Varian = entri.Varian)
          (fun (entri : Entri) (s : Path) =>
            { entri with
              BentukTidakBaku := entri.BentukTidakBaku ++
                [if (Find doc [s] (selTag "sup")).length > 0 then
                    TrimLeft (TrimSpace (Text doc [s])) (str ", ") ++ str " ("
                      ++ TrimSpace (Text doc (Find doc [s] (selTag "sup"))) ++ str ")"
                  else TrimLeft (TrimSpace (Text doc [s])) (str ", ")] })
          (fun e s he => he) (Find doc ‹List Path› (selTag "b")) entri ⟨rfl, rfl, rfl⟩
        exact ⟨hf.1, hf.2.1, fun h => Or.inl (hf.2.2.trans (congrArg Prod.fst h))⟩
      · split
        · exact ⟨rfl, rfl, fun h => Or.inr (congrArg Prod.snd h)⟩
        · exact ⟨rfl, rfl, fun h => Or.inl (congrArg Prod.fst h)⟩

theorem parseEtimologi_frame (H : PustakaHTML) (doc : Node) (entri : Entri) :
    (parseEtimologi H doc entri).bentuk = entri.bentuk
    ∧ (parseEtimologi H doc entri).Makna = entri.Makna
    ∧ (parseEtimologi H doc entri).Peribahasa = entri.Peribahasa
    ∧ (parseEtimologi H doc entri).Idiom = entri.Idiom := by
  unfold parseEtimologi
  refine foldl_inv
    (fun e : Entri => e.bentuk = entri.bentuk ∧ e.Makna = entri.Makna
      ∧ e.Peribahasa = entri.Peribahasa ∧ e.Idiom = entri.Idiom) _ ?_ _ _ ⟨rfl, rfl, rfl, rfl⟩
  intro e s he
  simp only []
  split
  · split
    · split
      · exact he
      · exact he
    · exact he
  · exact he

theorem parseTerkait_frame (H : PustakaHTML) (doc : Node) (entri : Entri) :
    (parseTerkait H doc entri).bentuk = entri.bentuk
    ∧ (parseTerkait H doc entri).Makna = entri.Makna
    ∧ (parseTerkait H doc entri).Peribahasa = entri.Peribahasa
    ∧ (parseTerkait H doc entri).Idiom = entri.Idiom := by
  unfold parseTerkait
  refine foldl_inv
    (fun e : Entri => e.bentuk = entri.bentuk ∧ e.Makna = entri.Makna
      ∧ e.Peribahasa = entri.Peribahasa ∧ e.Idiom = entri.Idiom) _ ?_ _ _ ⟨rfl, rfl, rfl, rfl⟩
  intro e s he
  unfold terkaitSatu
  simp only []
  split
  · exact he
  · split
    · exact he
    · exact he

theorem maknaSatu_frame (terautentikasi : Bool) (keadaan : Node × Entri) (s : Path) :
    (maknaSatu terautentikasi keadaan s).2.khusus = keadaan.2.khusus
    ∧ (maknaSatu terautentikasi keadaan s).2.bentuk = keadaan.2.bentuk := by
  unfold maknaSatu
  simp only []
  split
  · exact ⟨rfl, rfl⟩
  · split
    · exact ⟨rfl, rfl⟩
    · split
      · split <;> exact ⟨rfl, rfl⟩
      · exact ⟨rfl, rfl⟩

theorem parseMakna_frame (doc : Node) (entri : Entri) (terautentikasi : Bool) :
    (parseMakna doc entri terautentikasi).khusus = entri.khusus
    ∧ (parseMakna doc entri terautentikasi).bentuk = entri.bentuk := by
  unfold parseMakna
  simp only []
  split
  · exact ⟨rfl, rfl⟩
  · refine foldl_inv
      (fun k : Node × Entri => k.2.khusus = entri.khusus ∧ k.2.bentuk = entri.bentuk)
      _ ?_ _ _ ⟨rfl, rfl⟩
    intro k s hk
    have hf := maknaSatu_frame terautentikasi k s
    exact ⟨hf.1.trans hk.1, hf.2.trans hk.2⟩

theorem parseEntri_fields (H : PustakaHTML) (htmlEntri : Str) (terautentikasi : Bool) :
    (terautentikasi = false →
      (parseEntri H htmlEntri terautentikasi).khusus = (none, [], [], [], []))
    ∧ ((parseEntri H htmlEntri terautentikasi).Varian = []
        ∨ (parseEntri H htmlEntri terautentikasi).BentukTidakBaku = [])
    ∧ (parseEntri H htmlEntri terautentikasi).Peribahasa = []
    ∧ (parseEntri H htmlEntri terautentikasi).Idiom = [] := by
  unfold parseEntri
  split
  · exact ⟨fun _ => rfl, Or.inl rfl, rfl, rfl⟩
  · rename_i doc _
    simp only []
    split
    · exact ⟨fun _ => rfl, Or.inl rfl, rfl, rfl⟩
    · generalize hj : First (Find doc akar (selTag "h2")) = judul
      have h1 := parseNamaEntri_frame doc judul Entri.nol
      have h2 := parseNomorEntri_frame doc judul (parseNamaEntri doc judul Entri.nol)
      have h3 := parseKataDasar_frame doc judul
        (parseNomorEntri doc judul (parseNamaEntri doc judul Entri.nol))
      have h4 := parsePelafalan_frame doc judul
        (parseKataDasar doc judul
          (parseNomorEntri doc judul (parseNamaEntri doc judul Entri.nol)))
      generalize he4 : parsePelafalan doc judul
        (parseKataDasar doc judul
          (parseNomorEntri doc judul (parseNamaEntri doc judul Entri.nol))) = e4 at h4
      have hk4 : e4.khusus = (none, [], [], [], []) :=
        h4.1.trans (h3.1.trans (h2.1.trans h1.1))
      have hb4 : e4.bentuk = ([], []) := h4.2.1.trans (h3.2.1.trans (h2.2.1.trans h1.2.1))
      have h5 := parseVarian_frame doc judul e4 terautentikasi
      generalize he5 : parseVarian doc judul e4 terautentikasi = e5 at h5
      have hk5 : e5.khusus = (none, [], [], [], []) := h5.1.trans hk4
      have hx5 : e5.Varian = [] ∨ e5.BentukTidakBaku = [] := h5.2.2 hb4
      cases terautentikasi with
      | false =>
        simp only [Bool.false_eq_true, if_false]
        have h6 := parseMakna_frame doc e5 false
        have hb : (parseMakna doc e5 false).Varian = e5.Varian
            ∧ (parseMakna doc e5 false).BentukTidakBaku = e5.BentukTidakBaku :=
          ⟨congrArg Prod.fst h6.2, congrArg Prod.snd h6.2⟩
        have hk := h6.1.trans hk5
        refine ⟨fun _ => hk, ?_, ?_, ?_⟩
        · rw [hb.1, hb.2]; exact hx5
        · exact congrArg (fun t => t.2.2.2.1) hk
        · exact congrArg (fun t => t.2.2.2.2) hk
      | true =>
        simp only [if_true]
        have h6 := parseEtimologi_frame H doc e5
        have h7 := parseTerkait_frame H doc (parseEtimologi H doc e5)
        generalize he7 : parseTerkait H doc (parseEtimologi H doc e5) = e7 at h7
        have h8 := parseMakna_frame doc e7 true
        have hb7 : e7.bentuk = e5.bentuk := h7.1.trans h6.1
        have hb : (parseMakna doc e7 true).Varian = e5.Varian
            ∧ (parseMakna doc e7 true).BentukTidakBaku = e5.BentukTidakBaku :=
          ⟨congrArg Prod.fst (h8.2.trans hb7), congrArg Prod.snd (h8.2.trans hb7)⟩
        have hp5 : e5.Peribahasa = [] ∧ e5.Idiom = [] :=
          ⟨congrArg (fun t => t.2.2.2.1) hk5, congrArg (fun t => t.2.2.2.2) hk5⟩
        have hp8 : (parseMakna doc e7 true).Peribahasa = e7.Peribahasa
            ∧ (parseMakna doc e7 true).Idiom = e7.Idiom :=
          ⟨congrArg (fun t => t.2.2.2.1) h8.1, congrArg (fun t => t.2.2.2.2) h8.1⟩
        refine ⟨fun h => by simp at h, ?_, ?_, ?_⟩
        · rw [hb.1, hb.2]; exact hx5
        · rw [hp8.1, h7.2.2.1, h6.2.2.1]; exact hp5.1
        · rw [hp8.2, h7.2.2.2, h6.2.2.2]; exact hp5.2

/-- C14: without authentication no entry of the result has an etymology, derived words or
compound words, whatever labels and headings the markup holds. -/
theorem unauthenticated_entries_ungated (H : PustakaHTML) (html : Str) (d : Definisi)
    (h : ParseDefinisi H html false = .ok d) :
    ∀ e ∈ d.Entri, e.Etimologi = none ∧ e.KataTurunan = [] ∧ e.GabunganKata = [] := by
  intro e he
  obtain ⟨doc, _, hd | hd⟩ := ParseDefinisi_ok H html false d h
  · rw [hd.2.1] at he; simp at he
  · rw [hd.2.1] at he
    obtain ⟨x, hx, _⟩ := parseEntriList_mem H doc false e he
    have hk := (parseEntri_fields H x false).1 rfl
    rw [← hx] at hk
    exact ⟨congrArg (fun t => t.1) hk, congrArg (fun t => t.2.1) hk,
      congrArg (fun t => t.2.2.1) hk⟩

theorem parseVarian_tebal (doc : Node) (judul : List Path) (entri : Entri)
    (terautentikasi : Bool) (varian : List Path)
    (hv : pilihVarian doc judul terautentikasi = some varian)
    (hb : (Find doc varian (selTag "b")).length > 0) :
    (parseVarian doc judul entri terautentikasi).Varian = entri.Varian := by
  unfold parseVarian
  rw [hv]
  simp only []
  split
  · rfl
  · refine foldl_inv (fun e : Entri => e.Varian = entri.Varian) _ ?_ _ entri rfl
    intro e s he
    exact he

/-- C19: no parsed entry has both variants and nonstandard forms; and when the chosen
"small" element holds a "b" element, `parseVarian` leaves the variants of the entry as they
were and fills the nonstandard forms only. -/
theorem variants_or_nonstandard (H : PustakaHTML) (html : Str) (terautentikasi : Bool)
    (d : Definisi) (h : ParseDefinisi H html terautentikasi = .ok d) :
    (∀ e ∈ d.Entri, ¬ (e.Varian ≠ [] ∧ e.BentukTidakBaku ≠ []))
    ∧ ∀ (doc : Node) (judul varian : List Path) (entri : Entri),
        pilihVarian doc judul terautentikasi = some varian →
        (Find doc varian (selTag "b")).length > 0 →
        (parseVarian doc judul entri terautentikasi).Varian = entri.Varian := by
  refine ⟨?_, fun doc judul varian entri hv hb =>
    parseVarian_tebal doc judul entri terautentikasi varian hv hb⟩
  intro e he
  obtain ⟨doc, _, hd | hd⟩ := ParseDefinisi_ok H html terautentikasi d h
  · rw [hd.2.1] at he; simp at he
  · rw [hd.2.1] at he
    obtain ⟨x, hx, _⟩ := parseEntriList_mem H doc terautentikasi e he
    have hk := (parseEntri_fields H x terautentikasi).2.1
    rw [← hx] at hk
    rcases hk with hv | hb
    · exact fun hboth => hboth.1 hv
    · exact fun hboth => hboth.2 hb

/-! ### White space, selections and removal -/

theorem spasi2_panah (a : Nat) : spasi2 0x92 a = false := by simp [spasi2]

theorem spasi3_panah (a : Nat) : spasi3 0x86 0x92 a = false := by simp [spasi3]

theorem spasi3_panah2 (a b : Nat) : spasi3 0x92 b a = false := by simp [spasi3]

theorem trimSpaceRev_panah0 : trimSpaceRev [0x92, 0x86, 0xE2] = [0x92, 0x86, 0xE2] := by
  decide

theorem trimSpaceRev_panah : ∀ r : Str,
    ∃ r2, trimSpaceRev (r ++ [0x92, 0x86, 0xE2]) = r2 ++ [0x92, 0x86, 0xE2]
  | [] => ⟨[], trimSpaceRev_panah0⟩
  | [a] => by
    by_cases ha : asciiSpace a = true
    · exact ⟨[], by simp [trimSpaceRev, ha]; decide⟩
    · exact ⟨[a], by simp [trimSpaceRev, ha, spasi2_panah, spasi3_panah]⟩
  | [a, b] => by
    by_cases ha : asciiSpace a = true
    · obtain ⟨r2, h2⟩ := trimSpaceRev_panah [b]
      exact ⟨r2, by simpa [trimSpaceRev, ha] using h2⟩
    · by_cases hb : spasi2 b a = true
      · exact ⟨[], by simp [trimSpaceRev, ha, hb]; decide⟩
      · exact ⟨[a, b], by simp [trimSpaceRev, ha, hb, spasi3_panah2]⟩
  | a :: b :: c :: r => by
    by_cases ha : asciiSpace a = true
    · obtain ⟨r2, h2⟩ := trimSpaceRev_panah (b :: c :: r)
      exact ⟨r2, by simpa [trimSpaceRev, ha] using h2⟩
    · by_cases hb : spasi2 b a = true
      · obtain ⟨r2, h2⟩ := trimSpaceRev_panah (c :: r)
        exact ⟨r2, by simpa [trimSpaceRev, ha, hb] using h2⟩
      · by_cases hc : spasi3 c b a = true
        · obtain ⟨r2, h2⟩ := trimSpaceRev_panah r
          exact ⟨r2, by simpa [trimSpaceRev, ha, hb, hc] using h2⟩
        · exact ⟨a :: b :: c :: r, by simp [trimSpaceRev, ha, hb, hc]⟩

theorem HasPrefix_iff (s p : Str) : HasPrefix s p = true ↔ ∃ t, s = p ++ t := by
  induction p generalizing s with
  | nil => cases s <;> simp [HasPrefix]
  | cons b p ih =>
    cases s with
    | nil => simp [HasPrefix]
    | cons a s =>
      simp only [HasPrefix, Bool.and_eq_true, beq_iff_eq, ih, List.cons_append, List.cons.injEq]
      constructor
      · rintro ⟨rfl, t, rfl⟩; exact ⟨t, rfl, rfl⟩
      · rintro ⟨t, rfl, rfl⟩; exact ⟨rfl, t, rfl⟩

theorem TrimSpace_panah (s : Str) (h : HasPrefix s panah = true) :
    HasPrefix (TrimSpace s) panah = true := by
  obtain ⟨t, rfl⟩ := (HasPrefix_iff s panah).mp h
  have hp : panah = [0xE2, 0x86, 0x92] := by decide
  have hl : trimSpaceLeft (panah ++ t) = panah ++ t := by
    rw [hp]
    cases t with
    | nil => decide
    | cons c t => simp [trimSpaceLeft, asciiSpace, spasi2, spasi3]
  obtain ⟨r2, h2⟩ := trimSpaceRev_panah t.reverse
  have hrev : (panah ++ t).reverse = t.reverse ++ [0x92, 0x86, 0xE2] := by
    rw [hp]; simp
  unfold TrimSpace
  rw [hl, hrev, h2]
  apply (HasPrefix_iff _ _).mpr
  exact ⟨r2.reverse, by rw [hp]; simp⟩

mutual
theorem kepala_lepas : ∀ (n : Node) (p s : Path),
    kepala ((lepas n p).di s) = kepala (n.di s)
  | .removed m, [], s => by simp [lepas]
  | .removed m, i :: p, s => by
    simp only [lepas, Node.di]
    exact kepala_lepas m (i :: p) s
  | .document cs, [], s => by simp [lepas, Node.di]
  | .element tag attr cs, [], s => by simp [lepas, Node.di]
  | .text data, [], s => by simp [lepas, Node.di]
  | .comment data, [], s => by simp [lepas, Node.di]
  | .document cs, i :: p, [] => by simp [lepas, Node.di, kepala]
  | .document cs, i :: p, j :: s => by
    simp only [lepas, Node.di]
    exact kepala_lepasAnak cs i p j s
  | .element tag attr cs, i :: p, [] => by simp [lepas, Node.di, kepala]
  | .element tag attr cs, i :: p, j :: s => by
    simp only [lepas, Node.di]
    exact kepala_lepasAnak cs i p j s
  | .text data, i :: p, s => by simp [lepas]
  | .comment data, i :: p, s => by simp [lepas]
theorem kepala_lepasAnak : ∀ (cs : List Node) (i : Nat) (p : Path) (j : Nat) (s : Path),
    kepala (diAnak (lepasAnak cs i p) j s) = kepala (diAnak cs j s)
  | [], i, p, j, s => by simp [lepasAnak]
  | c :: cs, 0, p, 0, s => by
    simp only [lepasAnak, diAnak]
    exact kepala_lepas c p s
  | c :: cs, 0, p, j + 1, s => by simp [lepasAnak, diAnak]
  | c :: cs, i + 1, p, 0, s => by simp [lepasAnak, diAnak]
  | c :: cs, i + 1, p, j + 1, s => by
    simp only [lepasAnak, diAnak]
    exact kepala_lepasAnak cs i p j s
end

theorem kepala_Remove (sel : List Path) : ∀ (doc : Node) (s : Path),
    kepala ((Remove doc sel).di s) = kepala (doc.di s) := by
  induction sel with
  | nil => intro doc s; rfl
  | cons p sel ih =>
    intro doc s
    show kepala ((Remove (lepas doc p) sel).di s) = _
    rw [ih (lepas doc p) s, kepala_lepas]

theorem AttrOr_kepala (doc : Node) (s : Path) (nama bawaan : Str) :
    AttrOr doc [s] nama bawaan
      = match kepala (doc.di s) with
        | some ta => (cariAttr ta.2 nama).getD bawaan
        | none => bawaan := by
  unfold AttrOr
  cases h : doc.di s with
  | none => simp only [h, kepala]
  | some n => cases n <;> simp only [h, kepala]

theorem AttrOr_Remove (doc : Node) (sel : List Path) (s : Path) (nama bawaan : Str) :
    AttrOr (Remove doc sel) [s] nama bawaan = AttrOr doc [s] nama bawaan := by
  rw [AttrOr_kepala, AttrOr_kepala, kepala_Remove]

mutual
theorem cariNode_sound (sel : Selector) : ∀ (n : Node) (q p : Path), p ∈ cariNode sel q n →
    ∃ rel tag attr cs, p = q ++ rel ∧ n.di rel = some (.element tag attr cs)
      ∧ sel.cocok (.element tag attr cs) = true
  | .element tag attr cs, q, p, h => by
    simp only [cariNode, List.mem_append] at h
    rcases h with h | h
    · by_cases hc : sel.cocok (.element tag attr cs) = true
      · simp only [hc, if_true, List.mem_singleton] at h
        exact ⟨[], tag, attr, cs, by simp [h], by simp [Node.di], hc⟩
      · simp [hc] at h
    · obtain ⟨j, rel, t, a, c, hp, hd, hc⟩ := cariAnak_sound sel cs q 0 p h
      exact ⟨j :: rel, t, a, c, by simpa using hp, by simpa [Node.di] using hd, hc⟩
  | .document cs, q, p, h => by
    simp only [cariNode] at h
    obtain ⟨j, rel, t, a, c, hp, hd, hc⟩ := cariAnak_sound sel cs q 0 p h
    exact ⟨j :: rel, t, a, c, by simpa using hp, by simpa [Node.di] using hd, hc⟩
  | .text data, q, p, h => by simp [cariNode] at h
  | .comment data, q, p, h => by simp [cariNode] at h
  | .removed m, q, p, h => by simp [cariNode] at h
theorem cariAnak_sound (sel : Selector) : ∀ (cs : List Node) (q : Path) (i : Nat) (p : Path),
    p ∈ cariAnak sel q i cs →
    ∃ j rel tag attr c, p = q ++ (i + j) :: rel ∧ diAnak cs j rel = some (.element tag attr c)
      ∧ sel.cocok (.element tag attr c) = true
  | [], q, i, p, h => by simp [cariAnak] at h
  | c :: cs, q, i, p, h => by
    simp only [cariAnak, List.mem_append] at h
    rcases h with h | h
    · obtain ⟨rel, t, a, c2, hp, hd, hc⟩ := cariNode_sound sel c (q ++ [i]) p h
      exact ⟨0, rel, t, a, c2, by simpa using hp, by simpa [diAnak] using hd, hc⟩
    · obtain ⟨j, rel, t, a, c2, hp, hd, hc⟩ := cariAnak_sound sel cs q (i + 1) p h
      refine ⟨j + 1, rel, t, a, c2, ?_, by simpa [diAnak] using hd, hc⟩
      rw [hp]
      congr 2
      omega
end

theorem di_cons : ∀ (doc n : Node), doc.di [] = some n →
    ∀ (j : Nat) (rel : Path), doc.di (j :: rel) = diAnak n.children j rel
  | .removed m, n, h, j, rel => by
    simp only [Node.di] at h ⊢
    exact di_cons m n h j rel
  | .document cs, n, h, j, rel => by
    simp only [Node.di, Option.some.injEq] at h
    subst h
    simp [Node.di, Node.children]
  | .element tag attr cs, n, h, j, rel => by
    simp only [Node.di, Option.some.injEq] at h
    subst h
    simp [Node.di, Node.children]
  | .text data, n, h, j, rel => by
    simp only [Node.di, Option.some.injEq] at h
    subst h
    simp [Node.di, Node.children, diAnak]
  | .comment data, n, h, j, rel => by
    simp only [Node.di, Option.some.injEq] at h
    subst h
    simp [Node.di, Node.children, diAnak]

theorem mem_tanpaUlang (p : Path) : ∀ l : List Path, p ∈ tanpaUlang l → p ∈ l
  | [], h => by simp [tanpaUlang] at h
  | q :: l, h => by
    simp only [tanpaUlang, List.mem_cons, List.mem_filter] at h
    rcases h with h | h
    · exact List.mem_cons.mpr (Or.inl h)
    · exact List.mem_cons.mpr (Or.inr (mem_tanpaUlang p l h.1))

theorem Find_akar_sound (doc : Node) (sel : Selector) (p : Path)
    (h : p ∈ Find doc akar sel) :
    ∃ tag attr cs, doc.di p = some (.element tag attr cs)
      ∧ sel.cocok (.element tag attr cs) = true := by
  unfold Find akar at h
  have h2 := mem_tanpaUlang p _ h
  simp only [List.flatMap_cons, List.flatMap_nil, List.append_nil] at h2
  cases hd : doc.di [] with
  | none => simp [hd] at h2
  | some n =>
    simp only [hd] at h2
    obtain ⟨j, rel, t, a, c, hp, hdi, hc⟩ := cariAnak_sound sel n.children [] 0 p h2
    refine ⟨t, a, c, ?_, hc⟩
    rw [hp]
    simp only [List.nil_append, Nat.zero_add]
    rw [di_cons doc n hd j rel]
    exact hdi

theorem AttrOr_of_selAttr (doc : Node) (p : Path) (key val : String)
    (h : p ∈ Find doc akar (selAttr key val)) :
    AttrOr doc [p] (str key) [] = str val := by
  obtain ⟨tag, attr, cs, hd, hc⟩ := Find_akar_sound doc _ p h
  have hattr : cariAttr attr (str key) = some (str val) := by
    simpa [Selector.cocok, selAttr, AttrTest.cocok] using hc
  simp [AttrOr, hd, hattr]

/-! ### Senses -/

theorem prakategorial_has_class (doc : Node) (pertama : Path)
    (h : pertama ∈ Find doc akar (selAttr "color" "darkgreen")) :
    (parseMaknaSingle doc pertama).2.Kelas ≠ [] := by
  have hattr := AttrOr_of_selAttr doc pertama "color" "darkgreen" h
  unfold parseMaknaSingle
  simp only []
  rw [AttrOr_Remove, hattr]
  simp

theorem isAllRujukan_of_hanyaRujukan (m : Makna) (h : hanyaRujukan m) :
    isAllRujukan m = true := by
  unfold isAllRujukan
  rw [List.all_eq_true]
  intro sub hsub
  exact TrimSpace_panah sub (h.2 sub hsub)

theorem maknaSatu_inv (terautentikasi : Bool) (keadaan : Node × Entri) (s : Path)
    (h : ∀ m ∈ keadaan.2.Makna, ¬ hanyaRujukan m) :
    ∀ m ∈ (maknaSatu terautentikasi keadaan s).2.Makna, ¬ hanyaRujukan m := by
  unfold maknaSatu
  simp only []
  split
  · exact h
  · split
    · exact h
    · split
      · split
        · exact h
        · rename_i hkeep
          intro m hm
          rcases List.mem_append.mp hm with hm | hm
          · exact h m hm
          · have hmeq : m = (parseMaknaSingle keadaan.1 s).2 := by simpa using hm
            intro hr
            apply hkeep
            rw [← hmeq]
            simp only [Bool.and_eq_true, decide_eq_true_eq]
            exact ⟨isAllRujukan_of_hanyaRujukan m hr, by rw [hr.1]; rfl⟩
      · exact h

theorem parseMakna_inv (doc : Node) (entri : Entri) (terautentikasi : Bool)
    (h : entri.Makna = []) :
    ∀ m ∈ (parseMakna doc entri terautentikasi).Makna, ¬ hanyaRujukan m := by
  unfold parseMakna
  simp only []
  split
  · rename_i pertama rest hfind
    intro m hm
    have hmeq : m = (parseMaknaSingle doc pertama).2 := by simpa [h] using hm
    have hk := prakategorial_has_class doc pertama (by rw [hfind]; exact List.mem_cons_self _ _)
    intro hr
    exact hk (by rw [← hmeq]; exact hr.1)
  · refine foldl_inv (fun k : Node × Entri => ∀ m ∈ k.2.Makna, ¬ hanyaRujukan m) _ ?_ _ _
      (by intro m hm; simp [h] at hm)
    intro k s hk
    exact maknaSatu_inv terautentikasi k s hk

theorem parseEntri_makna (H : PustakaHTML) (htmlEntri : Str) (terautentikasi : Bool) :
    ∀ m ∈ (parseEntri H htmlEntri terautentikasi).Makna, ¬ hanyaRujukan m := by
  unfold parseEntri
  split
  · intro m hm; simp [Entri.nol] at hm
  · rename_i doc _
    simp only []
    split
    · intro m hm; simp [Entri.nol] at hm
    · generalize First (Find doc akar (selTag "h2")) = judul
      have h1 := (parseNamaEntri_frame doc judul Entri.nol).2.2
      have h2 := (parseNomorEntri_frame doc judul (parseNamaEntri doc judul Entri.nol)).2.2
      have h3 := (parseKataDasar_frame doc judul
        (parseNomorEntri doc judul (parseNamaEntri doc judul Entri.nol))).2.2
      have h4 := (parsePelafalan_frame doc judul
        (parseKataDasar doc judul
          (parseNomorEntri doc judul (parseNamaEntri doc judul Entri.nol)))).2.2
      generalize parsePelafalan doc judul
        (parseKataDasar doc judul
          (parseNomorEntri doc judul (parseNamaEntri doc judul Entri.nol))) = e4 at h4
      have hm4 : e4.Makna = [] := h4.trans (h3.trans (h2.trans h1))
      have h5 := (parseVarian_frame doc judul e4 terautentikasi).2.1
      generalize parseVarian doc judul e4 terautentikasi = e5 at h5
      have hm5 : e5.Makna = [] := h5.trans hm4
      cases terautentikasi with
      | false =>
        simp only [Bool.false_eq_true, if_false]
        exact parseMakna_inv doc e5 false hm5
      | true =>
        simp only [if_true]
        have h6 := (parseEtimologi_frame H doc e5).2.1
        have h7 := (parseTerkait_frame H doc (parseEtimologi H doc e5)).2.1
        exact parseMakna_inv doc _ true (h7.trans (h6.trans hm5))

theorem ParseDefinisi_makna (H : PustakaHTML) (html : Str) (terautentikasi : Bool)
    (d : Definisi) (h : ParseDefinisi H html terautentikasi = .ok d) :
    ∀ e ∈ d.Entri, ∀ m ∈ e.Makna, ¬ hanyaRujukan m := by
  intro e he
  obtain ⟨doc, _, hd | hd⟩ := ParseDefinisi_ok H html terautentikasi d h
  · rw [hd.2.1] at he; simp at he
  · rw [hd.2.1] at he
    obtain ⟨x, hx, _⟩ := parseEntriList_mem H doc terautentikasi e he
    rw [hx]
    exact parseEntri_makna H x terautentikasi

/-- C16: no sense of an entry of the result has zero word classes while every one of its
sub-senses begins with the arrow; and a list item whose trimmed text begins with the
arrow leaves the senses of the entry as they were. -/
theorem no_pure_cross_reference_sense (H : PustakaHTML) (html : Str) (terautentikasi : Bool)
    (d : Definisi) (h : ParseDefinisi H html terautentikasi = .ok d) :
    (∀ e ∈ d.Entri, ∀ m ∈ e.Makna,
      ¬ (m.Kelas = [] ∧ ∀ sub ∈ m.Submakna, HasPrefix sub panah = true))
    ∧ ∀ (keadaan : Node × Entri) (s : Path),
        HasPrefix (TrimSpace (Text keadaan.1 [s])) panah = true →
        (maknaSatu terautentikasi keadaan s).2 = keadaan.2 := by
  refine ⟨fun e he m hm => ParseDefinisi_makna H html terautentikasi d h e he m hm, ?_⟩
  intro keadaan s hp
  unfold maknaSatu
  simp only [hp, if_true]
  split <;> rfl

/-- C11, on the page of the examples. -/
theorem entries_or_suggestions_witness :
    ¬ ((hasilContoh halamanContoh true).Entri ≠ []
      ∧ (hasilContoh halamanContoh true).SaranEntri ≠ []) :=
  entries_or_suggestions htmlContoh (str halamanContoh) true _ rfl

/-- C18, on the page of the examples: its entry has the headword "kata". -/
theorem entries_have_headword_witness : (entriPertama halamanContoh false).Nama ≠ [] :=
  (entries_have_headword htmlContoh (str halamanContoh) false _ rfl
    (entriPertama halamanContoh false) (List.mem_of_mem_head? rfl)).1

/-- C14, on the page of the examples. -/
theorem unauthenticated_entries_ungated_witness :
    (entriPertama halamanContoh false).Etimologi = none
      ∧ (entriPertama halamanContoh false).KataTurunan = []
      ∧ (entriPertama halamanContoh false).GabunganKata = [] :=
  unauthenticated_entries_ungated htmlContoh (str halamanContoh) _ rfl
    (entriPertama halamanContoh false) (List.mem_of_mem_head? rfl)

/-- C19, on the page of the examples, whose entry has the variants "a" and "b". -/
theorem variants_or_nonstandard_witness :
    ¬ ((entriPertama halamanContoh true).Varian ≠ []
      ∧ (entriPertama halamanContoh true).BentukTidakBaku ≠ []) :=
  (variants_or_nonstandard htmlContoh (str halamanContoh) true _ rfl).1
    (entriPertama halamanContoh true) (List.mem_of_mem_head? rfl)

/-- C16, on the page of the examples: its first list item is a link and yields no sense,
and the sense of the second is no cross-reference. -/
theorem no_pure_cross_reference_sense_witness :
    ¬ ((maknaPertama halamanContoh false).Kelas = []
      ∧ ∀ sub ∈ (maknaPertama halamanContoh false).Submakna, HasPrefix sub panah = true) :=
  (no_pure_cross_reference_sense htmlContoh (str halamanContoh) false _ rfl).1
    (entriPertama halamanContoh false) (List.mem_of_mem_head? rfl)
    (maknaPertama halamanContoh false) (List.mem_of_mem_head? rfl)

/-- Every entry of a result has empty lists of proverbs and idioms, whatever the flag: no
step of `parseEntri` writes these two fields of an entry. -/
theorem entries_without_proverbs (H : PustakaHTML) (html : Str) (terautentikasi : Bool)
    (d : Definisi) (h : ParseDefinisi H html terautentikasi = .ok d) :
    ∀ e ∈ d.Entri, e.Peribahasa = [] ∧ e.Idiom = [] := by
  intro e he
  obtain ⟨doc, _, hd | hd⟩ := ParseDefinisi_ok H html terautentikasi d h
  · rw [hd.2.1] at he; simp at he
  · rw [hd.2.1] at he
    obtain ⟨x, hx, _⟩ := parseEntriList_mem H doc terautentikasi e he
    have hf := parseEntri_fields H x terautentikasi
    rw [hx]
    exact ⟨hf.2.2.1, hf.2.2.2⟩

/-- C20 fails on the code at the page "<hr><h2>a</h2><hr><h2>b</h2>": the heading after
the rule without style makes the entry "a" appear a second time, while the page cut after
that rule has the entry once. -/
theorem segmentation_goes_on_after_rule :
    (hasilContoh "<hr><h2>a</h2><hr><h2>b</h2>" false).Entri.map (fun e => e.Nama)
      = [str "a", str "a"]
    ∧ (hasilContoh "<hr><h2>a</h2><hr>" false).Entri.map (fun e => e.Nama) = [str "a"] := by
  constructor <;> rfl

/-! ### The search entry point -/

theorem CariDenganAuth_none (E : Env) (H : PustakaHTML) (w : World) (kata : Str)
    (a : Option AutentikasiKBBI) (h : (AmbilHalamanDenganRetry E w kata a 3).err = none) :
    (CariDenganAuth E H w kata a).definisi = none
      ∨ (CariDenganAuth E H w kata a).err = none := by
  simp only [CariDenganAuth, h]
  cases ParseDefinisi H (AmbilHalamanDenganRetry E w kata a 3).html
      (sesiTerautentikasi (AmbilHalamanDenganRetry E w kata a 3).sesi) with
  | error e => left; rfl
  | ok d => right; rfl

theorem CariDenganAuth_lain (E : Env) (H : PustakaHTML) (w : World) (kata : Str)
    (a : Option AutentikasiKBBI) (err : Galat)
    (h : (AmbilHalamanDenganRetry E w kata a 3).err = some err)
    (hn : ¬ (jenisTidakDitemukan err = true ∧ (AmbilHalamanDenganRetry E w kata a 3).html ≠ [])) :
    (CariDenganAuth E H w kata a).definisi = none
      ∧ (CariDenganAuth E H w kata a).err = some err := by
  simp only [CariDenganAuth, h, if_neg hn]
  simp

theorem CariDenganAuth_tidakDitemukan (E : Env) (H : PustakaHTML) (w : World) (kata : Str)
    (a : Option AutentikasiKBBI) (err : Galat)
    (h : (AmbilHalamanDenganRetry E w kata a 3).err = some err)
    (hj : jenisTidakDitemukan err = true)
    (hh : (AmbilHalamanDenganRetry E w kata a 3).html ≠ []) :
    (∀ d, ParseDefinisi H (AmbilHalamanDenganRetry E w kata a 3).html
          (sesiTerautentikasi (AmbilHalamanDenganRetry E w kata a 3).sesi) = .ok d →
        (CariDenganAuth E H w kata a).definisi = some (SetPranala d kata)
          ∧ (CariDenganAuth E H w kata a).err = some err)
    ∧ (∀ e, ParseDefinisi H (AmbilHalamanDenganRetry E w kata a 3).html
          (sesiTerautentikasi (AmbilHalamanDenganRetry E w kata a 3).sesi) = .error e →
        (CariDenganAuth E H w kata a).definisi = none
          ∧ (CariDenganAuth E H w kata a).err = some e) := by
  have hc : jenisTidakDitemukan err = true
      ∧ (AmbilHalamanDenganRetry E w kata a 3).html ≠ [] := ⟨hj, hh⟩
  constructor
  · intro d hd
    simp only [CariDenganAuth, h, if_pos hc, hd]
    simp
  · intro e he
    simp only [CariDenganAuth, h, if_pos hc, he]
    simp

/-- C13: `CariDenganAuth` returns a result together with an error exactly when the fetch
ended in an error of the kind "TidakDitemukan" with non-empty markup that parses; when that
markup carries the did-you-mean marker and an element of class "col-md-3" with non-blank
text, the result has no entries, has suggestions and has its link set, and the error is the
one of the fetch; on any other fetch error the result is nil and the error is that of the
fetch. -/
theorem search_result_with_error (E : Env) (H : PustakaHTML) (w : World) (kata : Str)
    (a : Option AutentikasiKBBI) :
    (((CariDenganAuth E H w kata a).definisi ≠ none
        ∧ (CariDenganAuth E H w kata a).err ≠ none) ↔
      ∃ err d, (AmbilHalamanDenganRetry E w kata a 3).err = some err
        ∧ jenisTidakDitemukan err = true
        ∧ (AmbilHalamanDenganRetry E w kata a 3).html ≠ []
        ∧ ParseDefinisi H (AmbilHalamanDenganRetry E w kata a 3).html
            (sesiTerautentikasi (AmbilHalamanDenganRetry E w kata a 3).sesi) = .ok d)
    ∧ (∀ doc, (AmbilHalamanDenganRetry E w kata a 3).err = some (.kbbi ErrTidakDitemukan) →
        Contains (AmbilHalamanDenganRetry E w kata a 3).html (str "Entri tidak ditemukan.")
          = true →
        Contains (AmbilHalamanDenganRetry E w kata a 3).html penandaSaran = true →
        H.Parse (AmbilHalamanDenganRetry E w kata a 3).html = .ok doc →
        (∃ s ∈ Find doc akar (selKelas "col-md-3"), TrimSpace (Text doc [s]) ≠ []) →
        ∃ d, (CariDenganAuth E H w kata a).definisi = some d
          ∧ d.Entri = [] ∧ d.SaranEntri ≠ []
          ∧ d.Pranala = str "https://kbbi.kemdikbud.go.id/entri/" ++ kata
          ∧ (CariDenganAuth E H w kata a).err = some (.kbbi ErrTidakDitemukan))
    ∧ (∀ err, (AmbilHalamanDenganRetry E w kata a 3).err = some err →
        ¬ (jenisTidakDitemukan err = true
            ∧ (AmbilHalamanDenganRetry E w kata a 3).html ≠ []) →
        (CariDenganAuth E H w kata a).definisi = none
          ∧ (CariDenganAuth E H w kata a).err = some err) := by
  refine ⟨?_, ?_, ?_⟩
  · constructor
    · rintro ⟨hd, he⟩
      cases hr : (AmbilHalamanDenganRetry E w kata a 3).err with
      | none =>
        rcases CariDenganAuth_none E H w kata a hr with h | h
        · exact absurd h hd
        · exact absurd h he
      | some err =>
        by_cases hc : jenisTidakDitemukan err = true
            ∧ (AmbilHalamanDenganRetry E w kata a 3).html ≠ []
        · cases hp : ParseDefinisi H (AmbilHalamanDenganRetry E w kata a 3).html
              (sesiTerautentikasi (AmbilHalamanDenganRetry E w kata a 3).sesi) with
          | error e =>
            exact absurd ((CariDenganAuth_tidakDitemukan E H w kata a err hr hc.1 hc.2).2
              e hp).1 hd
          | ok d => exact ⟨err, d, rfl, hc.1, hc.2, rfl⟩
        · exact absurd (CariDenganAuth_lain E H w kata a err hr hc).1 hd
    · rintro ⟨err, d, hr, hj, hh, hp⟩
      have h := (CariDenganAuth_tidakDitemukan E H w kata a err hr hj hh).1 d hp
      rw [h.1, h.2]
      exact ⟨by simp, by simp⟩
  · intro doc hr _ hs hp ⟨s, hs1, hs2⟩
    have hh : (AmbilHalamanDenganRetry E w kata a 3).html ≠ [] := by
      intro h0
      rw [h0] at hs
      revert hs
      decide
    have hd : ParseDefinisi H (AmbilHalamanDenganRetry E w kata a 3).html
        (sesiTerautentikasi (AmbilHalamanDenganRetry E w kata a 3).sesi)
        = .ok { Pranala := [], Entri := [], Peribahasa := [], Idiom := [],
                SaranEntri := parseSaranEntri doc } := by
      have hs2 : Contains (AmbilHalamanDenganRetry E w kata a 3).html
          (str "Berikut beberapa saran entri lain yang mirip.") = true := hs
      simp only [ParseDefinisi, hp, hs2, if_true]
    have h := (CariDenganAuth_tidakDitemukan E H w kata a _ hr rfl hh).1 _ hd
    refine ⟨_, h.1, rfl, ?_, rfl, h.2⟩
    intro h0
    have hm : TrimSpace (Text doc [s]) ∈ parseSaranEntri doc := by
      unfold parseSaranEntri
      rw [List.mem_filterMap]
      exact ⟨s, hs1, by simp [hs2]⟩
    have h1 : parseSaranEntri doc = [] := h0
    rw [h1] at hm
    exact absurd hm (List.not_mem_nil _)
  · intro err hr hn
    exact CariDenganAuth_lain E H w kata a err hr hn

theorem cekKesalahan_html_nonempty (url html : Str)
    (hk : cekKesalahan url html = some ErrTidakDitemukan) : html ≠ [] := by
  intro h0
  subst h0
  unfold cekKesalahan at hk
  split_ifs at hk <;> first | (revert hk; decide) | (rename_i hc; revert hc; decide)

/-- C12, amended: for markup that the classifier labels NotFound, which is then not empty,
the result of `ParseDefinisi` has no entries when the markup also carries the did-you-mean
marker, and has the entries that `parseEntriList` finds when it does not; `CariDenganAuth`,
fetching that markup with the NotFound error, returns that result with its link set. -/
theorem notfound_entries (H : PustakaHTML) (url html : Str) (terautentikasi : Bool)
    (d : Definisi) (hk : cekKesalahan url html = some ErrTidakDitemukan)
    (h : ParseDefinisi H html terautentikasi = .ok d) :
    html ≠ []
    ∧ (Contains html penandaSaran = true → d.Entri = [])
    ∧ (Contains html penandaSaran = false →
        ∃ doc, H.Parse html = .ok doc ∧ d.Entri = parseEntriList H doc terautentikasi)
    ∧ ∀ (E : Env) (w : World) (kata : Str) (a : Option AutentikasiKBBI),
        (AmbilHalamanDenganRetry E w kata a 3).html = html →
        (AmbilHalamanDenganRetry E w kata a 3).err = some (.kbbi ErrTidakDitemukan) →
        sesiTerautentikasi (AmbilHalamanDenganRetry E w kata a 3).sesi = terautentikasi →
        (CariDenganAuth E H w kata a).definisi = some (SetPranala d kata)
          ∧ (SetPranala d kata).Entri = d.Entri := by
  have hh := cekKesalahan_html_nonempty url html hk
  obtain ⟨doc, hp, hd | hd⟩ := ParseDefinisi_ok H html terautentikasi d h
  · refine ⟨hh, fun _ => hd.2.1, fun hc => ?_, ?_⟩
    · rw [hd.1] at hc; exact absurd hc (by decide)
    · intro E w kata a h1 h2 h3
      refine ⟨?_, rfl⟩
      exact ((CariDenganAuth_tidakDitemukan E H w kata a _ h2 rfl (h1 ▸ hh)).1 d
        (by rw [h1, h3]; exact h)).1
  · refine ⟨hh, fun hc => ?_, fun _ => ⟨doc, hp, hd.2.1⟩, ?_⟩
    · rw [hd.1] at hc; exact absurd hc (by decide)
    · intro E w kata a h1 h2 h3
      refine ⟨?_, rfl⟩
      exact ((CariDenganAuth_tidakDitemukan E H w kata a _ h2 rfl (h1 ▸ hh)).1 d
        (by rw [h1, h3]; exact h)).1

/-- C12, amended, on the not-found page of the examples with one suggestion. -/
theorem notfound_entries_witness : (hasilContoh halamanSaran false).Entri = [] :=
  (notfound_entries htmlContoh (str "https://kbbi.kemdikbud.go.id/entri/kata")
    (str halamanSaran) false _ rfl rfl).2.1 (by decide)

/-- C12 as stated fails: the page "Entri tidak ditemukan.<hr><h2>kata</h2>" is labelled
NotFound, and both `ParseDefinisi` and `CariDenganAuth` give a result with the entry
"kata". -/
theorem notfound_page_with_entry :
    cekKesalahan (str "https://kbbi.kemdikbud.go.id/entri/kata")
        (str "Entri tidak ditemukan.<hr><h2>kata</h2>") = some ErrTidakDitemukan
    ∧ (ParseDefinisi htmlContoh (str "Entri tidak ditemukan.<hr><h2>kata</h2>") false).toOption.map
          (fun d => d.Entri.map fun e => e.Nama) = some [str "kata"]
    ∧ (CariDenganAuth
          (envContoh 0 (.halaman (str "https://kbbi.kemdikbud.go.id/entri/kata")
            (str "Entri tidak ditemukan.<hr><h2>kata</h2>")))
          htmlContoh duniaAwal (str "kata") none).definisi.map
          (fun d => d.Entri.map fun e => e.Nama) = some [str "kata"]
    ∧ (CariDenganAuth
          (envContoh 0 (.halaman (str "https://kbbi.kemdikbud.go.id/entri/kata")
            (str "Entri tidak ditemukan.<hr><h2>kata</h2>")))
          htmlContoh duniaAwal (str "kata") none).err = some (.kbbi ErrTidakDitemukan) := by
  refine ⟨rfl, rfl, rfl, rfl⟩

/-- C13, on the not-found page of the examples with one suggestion. -/
theorem search_result_with_error_witness :
    ∃ d, (CariDenganAuth
          (envContoh 0 (.halaman (str "https://kbbi.kemdikbud.go.id/entri/kata")
            (str halamanSaran))) htmlContoh duniaAwal (str "kata") none).definisi = some d
      ∧ d.Entri = [] ∧ d.SaranEntri ≠ []
      ∧ d.Pranala = str "https://kbbi.kemdikbud.go.id/entri/" ++ str "kata"
      ∧ (CariDenganAuth
          (envContoh 0 (.halaman (str "https://kbbi.kemdikbud.go.id/entri/kata")
            (str halamanSaran))) htmlContoh duniaAwal (str "kata") none).err
          = some (.kbbi ErrTidakDitemukan) :=
  (search_result_with_error
    (envContoh 0 (.halaman (str "https://kbbi.kemdikbud.go.id/entri/kata")
      (str halamanSaran))) htmlContoh duniaAwal (str "kata") none).2.1
    _ rfl rfl rfl rfl (by decide)

/-! ### Success after failed attempts -/

theorem denganCache_fetches_succ_le (E : Env) (w : World) (kata : Str)
    (a : Option AutentikasiKBBI) (lokasiKuki : Str) (tanpaCache : Bool) :
    (AmbilHalamanDenganCache E w kata a lokasiKuki tanpaCache).world.fetches
      ≤ w.fetches + 1 := by
  cases h : cacheHit E w kata lokasiKuki tanpaCache with
  | false =>
    rw [(denganCache_of_miss E w kata a lokasiKuki tanpaCache h).2.2.2.1]
  | true =>
    obtain ⟨m, _, _, _, heq⟩ := denganCache_of_hit E w kata a lokasiKuki tanpaCache h
    rw [heq]
    simp only [(AmbilCache_counters m E w kata).1]
    omega

theorem retryLoop_fetches_bound (E : Env) (kata : Str) (maxRetry : Int) (lokasiKuki : Str)
    (tanpaCache : Bool) :
    ∀ (sisa i : Nat) (w : World) (a : Option AutentikasiKBBI) (lastErr : Option Galat),
      (retryLoop E kata maxRetry lokasiKuki tanpaCache sisa i w a lastErr).world.fetches
        ≤ w.fetches + sisa := by
  intro sisa
  induction sisa with
  | zero =>
    intro i w a lastErr
    simp [retryLoop]
  | succ n ih =>
    intro i w a lastErr
    have hb := denganCache_fetches_succ_le E w kata a lokasiKuki tanpaCache
    cases herr : (AmbilHalamanDenganCache E w kata a lokasiKuki tanpaCache).err with
    | none =>
      rw [retryLoop_return E kata maxRetry lokasiKuki tanpaCache n i w a lastErr (Or.inl herr)]
      omega
    | some e =>
      cases hj : janganRetry e with
      | true =>
        rw [retryLoop_return E kata maxRetry lokasiKuki tanpaCache n i w a lastErr
          (Or.inr ⟨e, herr, hj⟩)]
        omega
      | false =>
        rw [retryLoop_continue E kata maxRetry lokasiKuki tanpaCache n i w a lastErr e herr hj]
        have hI := ih (i + 1)
          { (AmbilHalamanDenganCache E w kata a lokasiKuki tanpaCache).world with
            backoff := (AmbilHalamanDenganCache E w kata a lokasiKuki tanpaCache).world.backoff
              ++ [i + 1] }
          (AmbilHalamanDenganCache E w kata a lokasiKuki tanpaCache).sesi (some e)
        refine Nat.le_trans hI ?_
        show (AmbilHalamanDenganCache E w kata a lokasiKuki tanpaCache).world.fetches + n
          ≤ w.fetches + (n + 1)
        omega

theorem retryLoop_skip (E : Env) (kata : Str) (maxRetry : Int) (lokasiKuki : Str)
    (tanpaCache : Bool) :
    ∀ (n sisa i : Nat) (w : World) (a : Option AutentikasiKBBI) (lastErr : Option Galat),
      cacheHit E w kata lokasiKuki tanpaCache = false →
      (∀ j, j < n → (E.http (w.fetches + j) (urlLengkap E.lib kata)).sementara = true) →
      ∃ (w2 : World) (a2 : Option AutentikasiKBBI) (e2 : Option Galat),
        retryLoop E kata maxRetry lokasiKuki tanpaCache (n + sisa) i w a lastErr
          = retryLoop E kata maxRetry lokasiKuki tanpaCache sisa (i + n) w2 a2 e2
        ∧ w2.fetches = w.fetches + n
        ∧ w2.backoff = w.backoff ++ List.range' (i + 1) n
        ∧ w2.saves = w.saves
        ∧ cacheHit E w2 kata lokasiKuki tanpaCache = false := by
  intro n
  induction n with
  | zero =>
    intro sisa i w a lastErr hmiss _
    exact ⟨w, a, lastErr, by simp, by simp, by simp, rfl, hmiss⟩
  | succ n ih =>
    intro sisa i w a lastErr hmiss hfail
    obtain ⟨e, he, hj⟩ := percobaan_sementara E kata w.fetches (by simpa using hfail 0 (by omega))
    have hD := denganCache_of_miss E w kata a lokasiKuki tanpaCache hmiss
    have herr : (AmbilHalamanDenganCache E w kata a lokasiKuki tanpaCache).err = some e := by
      rw [hD.2.1, he]
    have hrest := hD.2.2.2.2.2 (by rw [herr]; simp)
    have hsplit : n + 1 + sisa = (n + sisa) + 1 := by omega
    rw [hsplit,
      retryLoop_continue E kata maxRetry lokasiKuki tanpaCache (n + sisa) i w a lastErr e herr hj]
    obtain ⟨w2, a2, e2, h1, h2, h3, h4, h5⟩ := ih sisa (i + 1)
      { (AmbilHalamanDenganCache E w kata a lokasiKuki tanpaCache).world with
        backoff := (AmbilHalamanDenganCache E w kata a lokasiKuki tanpaCache).world.backoff
          ++ [i + 1] }
      (AmbilHalamanDenganCache E w kata a lokasiKuki tanpaCache).sesi (some e)
      (cacheHit_of_tetapMiss E _ kata lokasiKuki tanpaCache hrest.2)
      (by
        intro j hjn
        have := hfail (j + 1) (by omega)
        simpa [hD.2.2.2.1, Nat.add_assoc, Nat.add_comm 1 j] using this)
    refine ⟨w2, a2, e2, ?_, ?_, ?_, ?_, h5⟩
    · rw [h1]
      have hi : i + 1 + n = i + (n + 1) := by omega
      rw [hi]
    · rw [h2]; simp only [hD.2.2.2.1]; omega
    · rw [h3]; simp only [hD.2.2.2.2.1, List.append_assoc, List.singleton_append]
      rw [List.range'_succ]
    · rw [h4]; exact hrest.1

theorem sum_range'_one (n : Nat) : (List.range' 1 n).sum * 2 = n * (n + 1) := by
  induction n with
  | zero => rfl
  | succ n ih =>
    rw [List.range'_1_concat, List.sum_append, Nat.add_mul, ih]
    simp
    ring

/-- C22: with `1 ≤ k ≤ maxRetry` and a first lookup that is no cache hit, when the first
`k - 1` network attempts each fail at the transport level or with `ErrTerjadiKesalahan` and
attempt `k` reads a page without error, the markup of that page is returned with no error
after exactly `k` network attempts and sleeps of 1, 2, ..., `k - 1` seconds, which add up to
`k (k - 1) / 2`; and no run makes more than `maxRetry` attempts. -/
theorem retry_succeeds_at_attempt (E : Env) (w : World) (kata : Str)
    (a : Option AutentikasiKBBI) (maxRetry : Int) (lokasiKuki : Str) (tanpaCache : Bool)
    (k : Nat) (url isi : Str)
    (hk1 : 1 ≤ k) (hk2 : (k : Int) ≤ maxRetry)
    (hmiss : cacheHit E w kata lokasiKuki tanpaCache = false)
    (hfail : ∀ j : Nat, j < k - 1 →
      (E.http (w.fetches + j) (urlLengkap E.lib kata)).sementara = true)
    (hpage : E.http (w.fetches + (k - 1)) (urlLengkap E.lib kata) = .halaman url isi)
    (hok : cekKesalahan url isi = none) :
    (AmbilHalamanDenganRetrydanCache E w kata a maxRetry lokasiKuki tanpaCache).html = isi
    ∧ (AmbilHalamanDenganRetrydanCache E w kata a maxRetry lokasiKuki tanpaCache).err = none
    ∧ (AmbilHalamanDenganRetrydanCache E w kata a maxRetry lokasiKuki
        tanpaCache).world.fetches = w.fetches + k
    ∧ (AmbilHalamanDenganRetrydanCache E w kata a maxRetry lokasiKuki
        tanpaCache).world.backoff = w.backoff ++ List.range' 1 (k - 1)
    ∧ (List.range' 1 (k - 1)).sum = k * (k - 1) / 2
    ∧ ∀ (w0 : World) (a0 : Option AutentikasiKBBI),
        (AmbilHalamanDenganRetrydanCache E w0 kata a0 maxRetry lokasiKuki
          tanpaCache).world.fetches ≤ w0.fetches + maxRetry.toNat := by
  have hsplit : maxRetry.toNat = (k - 1) + ((maxRetry.toNat - k) + 1) := by omega
  obtain ⟨w2, a2, e2, h1, h2, h3, _, h5⟩ :=
    retryLoop_skip E kata maxRetry lokasiKuki tanpaCache (k - 1) ((maxRetry.toNat - k) + 1) 0
      w a none hmiss hfail
  have hD := denganCache_of_miss E w2 kata a2 lokasiKuki tanpaCache h5
  have hP := percobaan_halaman E kata url isi w2.fetches (by rw [h2]; exact hpage)
  have herr : (AmbilHalamanDenganCache E w2 kata a2 lokasiKuki tanpaCache).err = none := by
    rw [hD.2.1, hP, hok]; rfl
  have hrun : AmbilHalamanDenganRetrydanCache E w kata a maxRetry lokasiKuki tanpaCache
      = AmbilHalamanDenganCache E w2 kata a2 lokasiKuki tanpaCache := by
    unfold AmbilHalamanDenganRetrydanCache
    rw [hsplit, h1]
    exact retryLoop_return E kata maxRetry lokasiKuki tanpaCache _ _ w2 a2 e2 (Or.inl herr)
  refine ⟨?_, ?_, ?_, ?_, ?_, ?_⟩
  · rw [hrun, hD.1, hP]
  · rw [hrun]; exact herr
  · rw [hrun, hD.2.2.2.1, h2]; omega
  · rw [hrun, hD.2.2.2.2.1, h3]
  · have hs := sum_range'_one (k - 1)
    have hk : k - 1 + 1 = k := by omega
    rw [hk] at hs
    have : k * (k - 1) = (k - 1) * k := Nat.mul_comm _ _
    rw [this, ← hs]
    simp
  · intro w0 a0
    exact retryLoop_fetches_bound E kata maxRetry lokasiKuki tanpaCache maxRetry.toNat 0 w0 a0
      none

/-- C22, for the term "a" with three attempts allowed and the cache switched off: two
responses of status 500, then the page "rumah"; the sleeps are of 1 and 2 seconds. -/
theorem retry_succeeds_at_attempt_witness :
    (AmbilHalamanDenganRetrydanCache (envPulih 2 (.halaman (str "x/entri/a") (str "rumah")))
        duniaAwal (str "a") none 3 [] true).html = str "rumah"
    ∧ (AmbilHalamanDenganRetrydanCache (envPulih 2 (.halaman (str "x/entri/a") (str "rumah")))
        duniaAwal (str "a") none 3 [] true).world.fetches = 3
    ∧ (AmbilHalamanDenganRetrydanCache (envPulih 2 (.halaman (str "x/entri/a") (str "rumah")))
        duniaAwal (str "a") none 3 [] true).world.backoff = [1, 2] := by
  obtain ⟨h1, _, h3, h4, _⟩ :=
    retry_succeeds_at_attempt (envPulih 2 (.halaman (str "x/entri/a") (str "rumah")))
      duniaAwal (str "a") none 3 [] true 3 (str "x/entri/a") (str "rumah")
      (by decide) (by decide) rfl
      (fun j hj => by
        have hlt : j < 2 := hj
        simp [envPulih, duniaAwal, hlt, Respons.sementara])
      rfl (by decide)
  exact ⟨h1, h3, h4⟩

/-! ### No attempt allowed -/

/-- C27: with `maxRetry ≤ 0` the loop body never runs: the world is left as it was (no
lookup in the cache, no network attempt, no sleep), the markup is empty and the error is
the wrapped failure of the end of the function, whose cause is nil; this holds in every
world, also in one that holds an unexpired entry for the term. -/
theorem no_attempt_allowed (E : Env) (w : World) (kata : Str) (a : Option AutentikasiKBBI)
    (maxRetry : Int) (lokasiKuki : Str) (tanpaCache : Bool) (hmax : maxRetry ≤ 0) :
    AmbilHalamanDenganRetrydanCache E w kata a maxRetry lokasiKuki tanpaCache
      = ⟨w, a, [], some (.bungkus (pesanHabis maxRetry none) none)⟩
    ∧ (∀ e, (AmbilHalamanDenganRetrydanCache E w kata a maxRetry lokasiKuki tanpaCache).err
          = some e → e.Unwrap = none)
    ∧ (AmbilHalamanDenganRetrydanCache E w kata a maxRetry lokasiKuki tanpaCache).err ≠ none
    ∧ (AmbilHalamanDenganRetrydanCache E w kata a maxRetry lokasiKuki tanpaCache).html = []
    ∧ (AmbilHalamanDenganRetrydanCache E w kata a maxRetry lokasiKuki tanpaCache).world = w := by
  have h0 : maxRetry.toNat = 0 := by omega
  have hrun : AmbilHalamanDenganRetrydanCache E w kata a maxRetry lokasiKuki tanpaCache
      = ⟨w, a, [], some (.bungkus (pesanHabis maxRetry none) none)⟩ := by
    unfold AmbilHalamanDenganRetrydanCache
    rw [h0]
    rfl
  refine ⟨hrun, ?_, ?_, ?_, ?_⟩
  · intro e he
    rw [hrun] at he
    simp only [Option.some.injEq] at he
    subst he
    rfl
  · rw [hrun]; simp
  · rw [hrun]
  · rw [hrun]

/-- C27, for the term "a" and no attempt allowed, in the world that holds the entry
`entriContoh` for the term: a call with one attempt allowed is served that entry, the call
with none leaves the cache alone and fails. -/
theorem no_attempt_allowed_witness :
    (AmbilHalamanDenganRetrydanCache (envContoh 0 (.statusLain 500))
        (managerContoh.SimpanCache (envContoh 0 (.statusLain 500)) duniaAwal (str "a")
          (str "rumah")).1 (str "a") none 1 [] false).html = str "rumah"
    ∧ (AmbilHalamanDenganRetrydanCache (envContoh 0 (.statusLain 500))
        (managerContoh.SimpanCache (envContoh 0 (.statusLain 500)) duniaAwal (str "a")
          (str "rumah")).1 (str "a") none 0 [] false).html = []
    ∧ (AmbilHalamanDenganRetrydanCache (envContoh 0 (.statusLain 500))
        (managerContoh.SimpanCache (envContoh 0 (.statusLain 500)) duniaAwal (str "a")
          (str "rumah")).1 (str "a") none 0 [] false).err ≠ none
    ∧ (AmbilHalamanDenganRetrydanCache (envContoh 0 (.statusLain 500))
        (managerContoh.SimpanCache (envContoh 0 (.statusLain 500)) duniaAwal (str "a")
          (str "rumah")).1 (str "a") none 0 [] false).world
        = (managerContoh.SimpanCache (envContoh 0 (.statusLain 500)) duniaAwal (str "a")
          (str "rumah")).1 :=
  ⟨rfl,
   (no_attempt_allowed (envContoh 0 (.statusLain 500))
      (managerContoh.SimpanCache (envContoh 0 (.statusLain 500)) duniaAwal (str "a")
        (str "rumah")).1 (str "a") none 0 [] false (by decide)).2.2.2.1,
   (no_attempt_allowed (envContoh 0 (.statusLain 500))
      (managerContoh.SimpanCache (envContoh 0 (.statusLain 500)) duniaAwal (str "a")
        (str "rumah")).1 (str "a") none 0 [] false (by decide)).2.2.1,
   (no_attempt_allowed (envContoh 0 (.statusLain 500))
      (managerContoh.SimpanCache (envContoh 0 (.statusLain 500)) duniaAwal (str "a")
        (str "rumah")).1 (str "a") none 0 [] false (by decide)).2.2.2.2⟩

/-! ### The cache and the session -/

/-- C28 (amended): with the cache in use and an unexpired entry for the term,
`AmbilHalamanDenganCache` returns the markup of the entry for every session argument,
authenticated, unauthenticated or nil, hands the session back as it was and makes no
network attempt; so when the file of the term is the one that an earlier call under any
session left after a successful fetch, a call under any other session is served the markup
of that fetch as the cache file holds it: every byte that is not valid UTF-8 replaced by
U+FFFD, and the markup itself when it is valid UTF-8. -/
theorem cache_ignores_session (E : Env) (w : World) (kata lokasiKuki : Str)
    (m : ManagerCache) (entri : EntriCache)
    (hm : BaruManagerCache E lokasiKuki = .ok m)
    (hfile : w.files (m.namaFileCache E.lib kata) = some (.json entri))
    (hfresh : E.now w.clock ≤ entri.Expired) :
    (∀ a : Option AutentikasiKBBI,
      AmbilHalamanDenganCache E w kata a lokasiKuki false
        = ⟨{ w with clock := w.clock + 1 }, a, entri.HTML, none⟩)
    ∧ (∀ a1 a2 : Option AutentikasiKBBI,
        (AmbilHalamanDenganCache E w kata a1 lokasiKuki false).html
          = (AmbilHalamanDenganCache E w kata a2 lokasiKuki false).html)
    ∧ (∀ a : Option AutentikasiKBBI,
        (AmbilHalamanDenganCache E w kata a lokasiKuki false).sesi = a
        ∧ (AmbilHalamanDenganCache E w kata a lokasiKuki false).world.fetches = w.fetches)
    ∧ ∀ (E0 : Env) (w0 : World) (a0 : Option AutentikasiKBBI),
        E0.lib = E.lib → BaruManagerCache E0 lokasiKuki = .ok m →
        (∀ e, E0.marshalErr e = none) → E0.writeFile (m.namaFileCache E.lib kata) = none →
        cacheHit E0 w0 kata lokasiKuki false = false →
        (AmbilHalamanDenganCache E0 w0 kata a0 lokasiKuki false).err = none →
        w.files (m.namaFileCache E.lib kata)
          = (AmbilHalamanDenganCache E0 w0 kata a0 lokasiKuki false).world.files
              (m.namaFileCache E.lib kata) →
        ∀ a : Option AutentikasiKBBI,
          (AmbilHalamanDenganCache E w kata a lokasiKuki false).html
              = jsonString (AmbilHalamanDenganCache E0 w0 kata a0 lokasiKuki false).html
          ∧ (ValidString (AmbilHalamanDenganCache E0 w0 kata a0 lokasiKuki false).html = true →
              (AmbilHalamanDenganCache E w kata a lokasiKuki false).html
                = (AmbilHalamanDenganCache E0 w0 kata a0 lokasiKuki false).html) := by
  have hA : m.AmbilCache E w kata = ({ w with clock := w.clock + 1 }, entri.HTML, true) := by
    simp [ManagerCache.AmbilCache, hfile, not_lt.mpr hfresh]
  have hD : ∀ a : Option AutentikasiKBBI,
      AmbilHalamanDenganCache E w kata a lokasiKuki false
        = ⟨{ w with clock := w.clock + 1 }, a, entri.HTML, none⟩ :=
    fun a => denganCache_hit E w _ kata a lokasiKuki entri.HTML m hm hA
  refine ⟨hD, fun a1 a2 => by rw [hD a1, hD a2], fun a => by rw [hD a]; exact ⟨rfl, rfl⟩, ?_⟩
  intro E0 w0 a0 hlib hm0 hmarshal hwrite hmiss0 hok0 hsame a
  have hsaved := denganCache_success_saved E0 w0 kata a0 lokasiKuki m hm0 hmarshal
    (by rw [hlib]; exact hwrite) hmiss0 hok0
  rw [hlib] at hsaved
  have hent : Berkas.json entri = Berkas.json _ :=
    Option.some.inj (hfile.symm.trans (hsame.trans hsaved))
  have hent2 := Berkas.json.inj hent
  have hhtml : entri.HTML
      = jsonString (AmbilHalamanDenganCache E0 w0 kata a0 lokasiKuki false).html := by
    rw [hent2]
  refine ⟨by rw [hD a]; exact hhtml, fun hv => ?_⟩
  rw [hD a]
  show entri.HTML = _
  rw [hhtml, jsonString, validAux_jsonStringAux _ 0 hv]

/-- C28 as stated fails: the page of the one byte FF is fetched and cached under an
authenticated session, and the later call under no session, served from the cache without
a network attempt, returns the three bytes of U+FFFD instead. -/
theorem cached_markup_changed_for_later_session :
    (AmbilHalamanDenganCache (envContoh 0 (.halaman (str "x/entri/a") [0xFF]))
        duniaAwal (str "a") (some (sesiContoh true)) [] false).html = [0xFF]
    ∧ (AmbilHalamanDenganCache (envContoh 0 (.halaman (str "x/entri/a") [0xFF]))
        duniaAwal (str "a") (some (sesiContoh true)) [] false).err = none
    ∧ (AmbilHalamanDenganCache (envContoh 0 (.halaman (str "x/entri/a") [0xFF]))
        duniaAwal (str "a") (some (sesiContoh true)) [] false).sesi
        = some (sesiContoh true)
    ∧ (AmbilHalamanDenganCache (envContoh 0 (.halaman (str "x/entri/a") [0xFF]))
        (AmbilHalamanDenganCache (envContoh 0 (.halaman (str "x/entri/a") [0xFF]))
          duniaAwal (str "a") (some (sesiContoh true)) [] false).world
        (str "a") none [] false).html = [0xEF, 0xBF, 0xBD]
    ∧ (AmbilHalamanDenganCache (envContoh 0 (.halaman (str "x/entri/a") [0xFF]))
        (AmbilHalamanDenganCache (envContoh 0 (.halaman (str "x/entri/a") [0xFF]))
          duniaAwal (str "a") (some (sesiContoh true)) [] false).world
        (str "a") none [] false).err = none
    ∧ (AmbilHalamanDenganCache (envContoh 0 (.halaman (str "x/entri/a") [0xFF]))
        (AmbilHalamanDenganCache (envContoh 0 (.halaman (str "x/entri/a") [0xFF]))
          duniaAwal (str "a") (some (sesiContoh true)) [] false).world
        (str "a") none [] false).world.fetches
        = (AmbilHalamanDenganCache (envContoh 0 (.halaman (str "x/entri/a") [0xFF]))
          duniaAwal (str "a") (some (sesiContoh true)) [] false).world.fetches :=
  ⟨rfl, rfl, rfl, rfl, rfl, rfl⟩

/-- C28 (amended), for the term "a": the page "rumah" is fetched and cached under an
authenticated session, and a later call under no session is served that page. -/
theorem cache_ignores_session_witness :
    (AmbilHalamanDenganCache (envContoh 0 (.halaman (str "x/entri/a") (str "rumah")))
        duniaAwal (str "a") (some (sesiContoh true)) [] false).html = str "rumah"
    ∧ (AmbilHalamanDenganCache (envContoh 0 (.halaman (str "x/entri/a") (str "rumah")))
        (AmbilHalamanDenganCache (envContoh 0 (.halaman (str "x/entri/a") (str "rumah")))
          duniaAwal (str "a") (some (sesiContoh true)) [] false).world
        (str "a") none [] false).html = str "rumah"
    ∧ (AmbilHalamanDenganCache (envContoh 0 (.halaman (str "x/entri/a") (str "rumah")))
        (AmbilHalamanDenganCache (envContoh 0 (.halaman (str "x/entri/a") (str "rumah")))
          duniaAwal (str "a") (some (sesiContoh true)) [] false).world
        (str "a") (some (sesiContoh false)) [] false).sesi = some (sesiContoh false) :=
  ⟨rfl,
   ((cache_ignores_session (envContoh 0 (.halaman (str "x/entri/a") (str "rumah")))
      (AmbilHalamanDenganCache (envContoh 0 (.halaman (str "x/entri/a") (str "rumah")))
        duniaAwal (str "a") (some (sesiContoh true)) [] false).world
      (str "a") [] managerContoh entriContoh rfl rfl (by decide)).2.2.2
      (envContoh 0 (.halaman (str "x/entri/a") (str "rumah"))) duniaAwal
      (some (sesiContoh true)) rfl rfl (fun _ => rfl) rfl rfl rfl rfl none).2 (by decide),
   ((cache_ignores_session (envContoh 0 (.halaman (str "x/entri/a") (str "rumah")))
      (AmbilHalamanDenganCache (envContoh 0 (.halaman (str "x/entri/a") (str "rumah")))
        duniaAwal (str "a") (some (sesiContoh true)) [] false).world
      (str "a") [] managerContoh entriContoh rfl rfl (by decide)).2.2.1
      (some (sesiContoh false))).1⟩

/-! ### The markup that comes with a not-found error -/

theorem cekKesalahan_marker (url html : Str) (k : KesalahanKBBI)
    (h : cekKesalahan url html = some k) (hj : k.Jenis = str "TidakDitemukan") :
    k = ErrTidakDitemukan ∧ Contains html (str "Entri tidak ditemukan.") = true := by
  unfold cekKesalahan at h
  split_ifs at h with h1 h2 h3 h4 h5 h6
  all_goals first
    | exact ⟨(Option.some.inj h).symm, h5⟩
    | (exfalso; rw [← Option.some.inj h] at hj; revert hj; decide)

theorem percobaan_kbbi (E : Env) (kata : Str) (n : Nat) (k : KesalahanKBBI)
    (h : (percobaan E kata n).2 = some (.kbbi k)) :
    ∃ url, cekKesalahan url (percobaan E kata n).1 = some k := by
  unfold percobaan at h ⊢
  unfold ambilHalamanLangsung at h ⊢
  simp only [] at h ⊢
  cases hr : E.http n (HostKBBI ++ str "/" ++ tentukanLokasi E.lib kata) with
  | gagalRequest err => rw [hr] at h; simp [Errorf] at h
  | gagalKirim err => rw [hr] at h; simp [Errorf] at h
  | statusLain kode => rw [hr] at h; simp at h
  | gagalGzip err => rw [hr] at h; simp [Errorf] at h
  | gagalBaca err => rw [hr] at h; simp [Errorf] at h
  | halaman url isi =>
    rw [hr] at h
    refine ⟨url, ?_⟩
    cases hc : cekKesalahan url isi with
    | none => simp [hc] at h
    | some e =>
      simp only [hc] at h ⊢
      simpa using h

theorem denganCache_kbbi (E : Env) (w : World) (kata : Str) (a : Option AutentikasiKBBI)
    (lokasiKuki : Str) (tanpaCache : Bool) (k : KesalahanKBBI)
    (h : (AmbilHalamanDenganCache E w kata a lokasiKuki tanpaCache).err = some (.kbbi k)) :
    ∃ url, cekKesalahan url (AmbilHalamanDenganCache E w kata a lokasiKuki tanpaCache).html
      = some k := by
  cases hc : cacheHit E w kata lokasiKuki tanpaCache with
  | true =>
    obtain ⟨m, _, _, _, heq⟩ := denganCache_of_hit E w kata a lokasiKuki tanpaCache hc
    rw [heq] at h
    simp at h
  | false =>
    have hD := denganCache_of_miss E w kata a lokasiKuki tanpaCache hc
    rw [hD.2.1] at h
    rw [hD.1]
    exact percobaan_kbbi E kata w.fetches k h

theorem retryLoop_kbbi (E : Env) (kata : Str) (maxRetry : Int) (lokasiKuki : Str)
    (tanpaCache : Bool) (k : KesalahanKBBI) :
    ∀ (sisa i : Nat) (w : World) (a : Option AutentikasiKBBI) (lastErr : Option Galat),
      (retryLoop E kata maxRetry lokasiKuki tanpaCache sisa i w a lastErr).err
        = some (.kbbi k) →
      ∃ url, cekKesalahan url
        (retryLoop E kata maxRetry lokasiKuki tanpaCache sisa i w a lastErr).html = some k := by
  intro sisa
  induction sisa with
  | zero =>
    intro i w a lastErr h
    simp [retryLoop] at h
  | succ n ih =>
    intro i w a lastErr h
    cases herr : (AmbilHalamanDenganCache E w kata a lokasiKuki tanpaCache).err with
    | none =>
      rw [retryLoop_return E kata maxRetry lokasiKuki tanpaCache n i w a lastErr
        (Or.inl herr)] at h
      rw [herr] at h
      simp at h
    | some e =>
      cases hj : janganRetry e with
      | true =>
        rw [retryLoop_return E kata maxRetry lokasiKuki tanpaCache n i w a lastErr
          (Or.inr ⟨e, herr, hj⟩)] at h ⊢
        exact denganCache_kbbi E w kata a lokasiKuki tanpaCache k h
      | false =>
        rw [retryLoop_continue E kata maxRetry lokasiKuki tanpaCache n i w a lastErr e herr
          hj] at h ⊢
        exact ih _ _ _ _ h

/-- C29: when `AmbilHalamanDenganRetrydanCache` returns a `*KesalahanKBBI` whose `Jenis` is
"TidakDitemukan", that error is `ErrTidakDitemukan` and the markup returned with it
contains "Entri tidak ditemukan.", so it is not empty; hence on such an error of the fetch
`CariDenganAuth` goes on to parse the markup, and `lakukanPencarian` hands it to
`tampilkanSaran`. -/
theorem notfound_markup_has_marker (E : Env) (w : World) (kata : Str)
    (a : Option AutentikasiKBBI) (maxRetry : Int) (lokasiKuki : Str) (tanpaCache : Bool)
    (k : KesalahanKBBI)
    (h : (AmbilHalamanDenganRetrydanCache E w kata a maxRetry lokasiKuki tanpaCache).err
      = some (.kbbi k))
    (hj : k.Jenis = str "TidakDitemukan") :
    k = ErrTidakDitemukan
    ∧ Contains (AmbilHalamanDenganRetrydanCache E w kata a maxRetry lokasiKuki tanpaCache).html
        (str "Entri tidak ditemukan.") = true
    ∧ (AmbilHalamanDenganRetrydanCache E w kata a maxRetry lokasiKuki tanpaCache).html ≠ []
    ∧ (maxRetry = 3 → lokasiKuki = [] → tanpaCache = false →
        (∀ (H : PustakaHTML) (d : Definisi),
          ParseDefinisi H (AmbilHalamanDenganRetry E w kata a 3).html
              (sesiTerautentikasi (AmbilHalamanDenganRetry E w kata a 3).sesi) = .ok d →
          (CariDenganAuth E H w kata a).definisi = some (SetPranala d kata)
            ∧ (CariDenganAuth E H w kata a).err = some (.kbbi k))
        ∧ ∀ (H : PustakaHTML) (J : PustakaJSON) (F : Bendera), F.kata = kata →
            lakukanPencarian E H J F w a
              = tampilkanSaran H J F (AmbilHalamanDenganRetry E w kata a 3).html
                  (AmbilHalamanDenganRetry E w kata a 3).sesi) := by
  obtain ⟨url, hurl⟩ := retryLoop_kbbi E kata maxRetry lokasiKuki tanpaCache k _ _ _ _ _ h
  have hm : k = ErrTidakDitemukan
      ∧ Contains
          (AmbilHalamanDenganRetrydanCache E w kata a maxRetry lokasiKuki tanpaCache).html
          (str "Entri tidak ditemukan.") = true := cekKesalahan_marker url _ k hurl hj
  have hne : (AmbilHalamanDenganRetrydanCache E w kata a maxRetry lokasiKuki tanpaCache).html
      ≠ [] := by
    intro h0
    have := hm.2
    rw [h0] at this
    revert this
    decide
  refine ⟨hm.1, hm.2, hne, ?_⟩
  intro h3 hl ht
  subst h3 hl ht
  have hjenis : jenisTidakDitemukan (.kbbi k) = true := by
    simp [jenisTidakDitemukan, hj]
  have h' : (AmbilHalamanDenganRetry E w kata a 3).err = some (.kbbi k) := h
  have hne' : (AmbilHalamanDenganRetry E w kata a 3).html ≠ [] := hne
  refine ⟨fun H d hd =>
    (CariDenganAuth_tidakDitemukan E H w kata a _ h' hjenis hne').1 d hd, ?_⟩
  intro H J F hF
  subst hF
  have hc : jenisTidakDitemukan (.kbbi k) = true
      ∧ (AmbilHalamanDenganRetry E w F.kata a 3).html ≠ [] := ⟨hjenis, hne'⟩
  simp only [lakukanPencarian, h', if_pos hc]

/-- C29, for the term "kata" and the not-found page of the examples with one suggestion:
the markup returned with the error is that page. -/
theorem notfound_markup_has_marker_witness :
    Contains (AmbilHalamanDenganRetrydanCache
        (envContoh 0 (.halaman (str "https://kbbi.kemdikbud.go.id/entri/kata")
          (str halamanSaran))) duniaAwal (str "kata") none 3 [] false).html
      (str "Entri tidak ditemukan.") = true
    ∧ (AmbilHalamanDenganRetrydanCache
        (envContoh 0 (.halaman (str "https://kbbi.kemdikbud.go.id/entri/kata")
          (str halamanSaran))) duniaAwal (str "kata") none 3 [] false).html ≠ [] :=
  ⟨(notfound_markup_has_marker
      (envContoh 0 (.halaman (str "https://kbbi.kemdikbud.go.id/entri/kata")
        (str halamanSaran))) duniaAwal (str "kata") none 3 [] false ErrTidakDitemukan
      rfl rfl).2.1,
   (notfound_markup_has_marker
      (envContoh 0 (.halaman (str "https://kbbi.kemdikbud.go.id/entri/kata")
        (str halamanSaran))) duniaAwal (str "kata") none 3 [] false ErrTidakDitemukan
      rfl rfl).2.2.1⟩

/-! ### Suggestions on the command line -/

/-- C25: once the not-found page has been parsed, `tampilkanSaran` hands the result to
`tampilkanHasil` exactly when the list of suggestions is not empty and the session is
authenticated or JSON output is asked for; it then prints the notice (in text mode), then
what `tampilkanHasil` prints, and returns its error; in every other case it prints the
notice in text mode and nothing in JSON mode, and returns no error. -/
theorem suggestions_surfaced_iff (H : PustakaHTML) (J : PustakaJSON) (F : Bendera)
    (html : Str) (autentikasiObj : Option AutentikasiKBBI) (d : Definisi)
    (h : ParseDefinisi H html (sesiTerautentikasi autentikasiObj) = .ok d) :
    ((tampilkanSaran H J F html autentikasiObj).ditampilkan ≠ [] ↔
      d.SaranEntri ≠ []
        ∧ (sesiTerautentikasi autentikasiObj = true ∨ F.outputJSON = true))
    ∧ (d.SaranEntri ≠ []
        ∧ (sesiTerautentikasi autentikasiObj = true ∨ F.outputJSON = true) →
      (tampilkanSaran H J F html autentikasiObj).ditampilkan = [d]
      ∧ (tampilkanSaran H J F html autentikasiObj).stdout
          = (if F.outputJSON = true then []
              else [F.kata ++ str " tidak ditemukan dalam KBBI.\n"])
            ++ (tampilkanHasil J F d).stdout
      ∧ (tampilkanSaran H J F html autentikasiObj).err = (tampilkanHasil J F d).err)
    ∧ (¬ (d.SaranEntri ≠ []
        ∧ (sesiTerautentikasi autentikasiObj = true ∨ F.outputJSON = true)) →
      (tampilkanSaran H J F html autentikasiObj).ditampilkan = []
      ∧ (tampilkanSaran H J F html autentikasiObj).stdout
          = (if F.outputJSON = true then []
              else [F.kata ++ str " tidak ditemukan dalam KBBI.\n"])
      ∧ (tampilkanSaran H J F html autentikasiObj).err = none) := by
  have hlen : d.SaranEntri.length > 0 ↔ d.SaranEntri ≠ [] := by
    cases d.SaranEntri <;> simp
  have hshown : (tampilkanHasil J F d).ditampilkan = [d] := by
    unfold tampilkanHasil
    split
    · split <;> rfl
    · rfl
  by_cases hc : d.SaranEntri ≠ []
      ∧ (sesiTerautentikasi autentikasiObj = true ∨ F.outputJSON = true)
  · have hc2 : d.SaranEntri.length > 0
        ∧ (sesiTerautentikasi autentikasiObj = true ∨ F.outputJSON = true) :=
      ⟨hlen.mpr hc.1, hc.2⟩
    have hrun : tampilkanSaran H J F html autentikasiObj
        = ⟨(if !F.outputJSON then [F.kata ++ str " tidak ditemukan dalam KBBI.\n"] else [])
            ++ (tampilkanHasil J F d).stdout, (tampilkanHasil J F d).ditampilkan,
           (tampilkanHasil J F d).err⟩ := by
      simp only [tampilkanSaran, h, if_pos hc2]
    refine ⟨⟨fun _ => hc, fun _ => by rw [hrun, hshown]; simp⟩, fun _ => ?_,
      fun hn => absurd hc hn⟩
    rw [hrun, hshown]
    refine ⟨rfl, ?_, rfl⟩
    cases F.outputJSON <;> rfl
  · have hc2 : ¬ (d.SaranEntri.length > 0
        ∧ (sesiTerautentikasi autentikasiObj = true ∨ F.outputJSON = true)) :=
      fun hx => hc ⟨hlen.mp hx.1, hx.2⟩
    have hrun : tampilkanSaran H J F html autentikasiObj
        = ⟨(if !F.outputJSON then [F.kata ++ str " tidak ditemukan dalam KBBI.\n"] else []),
           [], none⟩ := by
      simp only [tampilkanSaran, h, if_neg hc2]
    refine ⟨⟨fun hx => by rw [hrun] at hx; exact absurd rfl hx, fun hx => absurd hx hc⟩,
      fun hx => absurd hx hc, fun _ => ?_⟩
    rw [hrun]
    refine ⟨rfl, ?_, rfl⟩
    cases F.outputJSON <;> rfl

/-- C25, on the not-found page of the examples with the suggestion "kata": without a
session and in text mode only the notice is printed, and in JSON mode the result is
shown. -/
theorem suggestions_surfaced_iff_witness :
    (tampilkanSaran htmlContoh jsonContoh (benderaContoh false) (str halamanSaran)
        none).ditampilkan = []
    ∧ (tampilkanSaran htmlContoh jsonContoh (benderaContoh false) (str halamanSaran)
        none).stdout = [str "kata tidak ditemukan dalam KBBI.\n"]
    ∧ (tampilkanSaran htmlContoh jsonContoh (benderaContoh true) (str halamanSaran)
        none).ditampilkan = [hasilContoh halamanSaran false] :=
  ⟨((suggestions_surfaced_iff htmlContoh jsonContoh (benderaContoh false) (str halamanSaran)
      none _ rfl).2.2 (by decide)).1,
   ((suggestions_surfaced_iff htmlContoh jsonContoh (benderaContoh false) (str halamanSaran)
      none _ rfl).2.2 (by decide)).2.1,
   ((suggestions_surfaced_iff htmlContoh jsonContoh (benderaContoh true) (str halamanSaran)
      none _ rfl).2.1 (by decide)).1⟩

/-! ### The key of the cache -/

theorem hexDigit_ok : ∀ n, n < 16 →
    ((48 ≤ (str "0123456789abcdef").getD n 0 ∧ (str "0123456789abcdef").getD n 0 ≤ 57)
      ∨ (97 ≤ (str "0123456789abcdef").getD n 0 ∧ (str "0123456789abcdef").getD n 0 ≤ 102))
    ∧ nilaiHex ((str "0123456789abcdef").getD n 0) = n := by
  decide

theorem hexEncode_cons (b : Nat) (bs : Str) :
    hexEncode (b :: bs)
      = (str "0123456789abcdef").getD (b / 16) 0
        :: (str "0123456789abcdef").getD (b % 16) 0 :: hexEncode bs := rfl

theorem hexEncode_shape (bs : Str) (h : ∀ b ∈ bs, b < 256) :
    (hexEncode bs).length = 2 * bs.length
    ∧ (∀ c ∈ hexEncode bs, (48 ≤ c ∧ c ≤ 57) ∨ (97 ≤ c ∧ c ≤ 102))
    ∧ hexDecode (hexEncode bs) = bs := by
  induction bs with
  | nil => exact ⟨rfl, fun c hc => absurd hc (List.not_mem_nil c), rfl⟩
  | cons b bs ih =>
    have hb : b < 256 := h b (List.mem_cons_self _ _)
    obtain ⟨i1, i2, i3⟩ := ih (fun x hx => h x (List.mem_cons_of_mem _ hx))
    have h1 := hexDigit_ok (b / 16) (by omega)
    have h2 := hexDigit_ok (b % 16) (by omega)
    rw [hexEncode_cons]
    refine ⟨?_, ?_, ?_⟩
    · simp only [List.length_cons, i1]; omega
    · intro c hc
      simp only [List.mem_cons] at hc
      rcases hc with hc | hc | hc
      · rw [hc]; exact h1.1
      · rw [hc]; exact h2.1
      · exact i2 c hc
    · simp only [hexDecode, h1.2, h2.2, i3]
      congr 1
      omega

theorem putaran_length (s : List Nat) (kw : Nat × Nat) (h : s.length = 8) :
    (putaran s kw).length = 8 := by
  match s, h with
  | [a, b, c, d, e, f, g, hh], _ => rfl

theorem foldl_putaran_length (l : List (Nat × Nat)) :
    ∀ s : List Nat, s.length = 8 → (l.foldl putaran s).length = 8 := by
  induction l with
  | nil => intro s h; exact h
  | cons kw l ih => intro s h; exact ih _ (putaran_length s kw h)

theorem blokSha_length (h : List Nat) (blok : Str) (hh : h.length = 8) :
    (blokSha h blok).length = 8 := by
  unfold blokSha
  simp only [List.length_zipWith, foldl_putaran_length _ h hh, hh]
  rfl

theorem foldl_blokSha_length (l : List Str) :
    ∀ h : List Nat, h.length = 8 → (l.foldl blokSha h).length = 8 := by
  induction l with
  | nil => intro s h; exact h
  | cons b l ih => intro s h; exact ih _ (blokSha_length s b h)

theorem bytesBE_shape (lebar n : Nat) :
    (bytesBE lebar n).length = lebar ∧ ∀ b ∈ bytesBE lebar n, b < 256 := by
  induction lebar with
  | zero => exact ⟨rfl, fun b hb => absurd hb (List.not_mem_nil b)⟩
  | succ l ih =>
    refine ⟨by simp [bytesBE, ih.1], ?_⟩
    intro b hb
    simp only [bytesBE, List.mem_cons] at hb
    rcases hb with hb | hb
    · rw [hb]; exact Nat.mod_lt _ (by decide)
    · exact ih.2 b hb

theorem flatMap_bytes_length (l : List Nat) :
    (l.flatMap (bytesBE 4)).length = 4 * l.length := by
  induction l with
  | nil => rfl
  | cons x l ih =>
    rw [List.flatMap_cons, List.length_append, ih, (bytesBE_shape 4 x).1, List.length_cons]
    omega

theorem sha256_shape (msg : Str) :
    (sha256 msg).length = 32 ∧ ∀ b ∈ sha256 msg, b < 256 := by
  unfold sha256
  refine ⟨?_, ?_⟩
  · rw [flatMap_bytes_length, foldl_blokSha_length _ h0Sha rfl]
  · intro b hb
    rw [List.mem_flatMap] at hb
    obtain ⟨x, _, hx⟩ := hb
    exact (bytesBE_shape 4 x).2 b hx

theorem AmbilCache_reads (m : ManagerCache) (E : Env) (w w2 : World) (kata : Str)
    (hf : w2.files (m.namaFileCache E.lib kata) = w.files (m.namaFileCache E.lib kata))
    (hc : w2.clock = w.clock) :
    (m.AmbilCache E w2 kata).2 = (m.AmbilCache E w kata).2 := by
  unfold ManagerCache.AmbilCache
  simp only [hf, hc]
  cases w.files (m.namaFileCache E.lib kata) with
  | none => rfl
  | some b =>
    cases b with
    | rusak => rfl
    | json entri =>
      simp only []
      split <;> rfl

theorem AmbilCache_other_path (m : ManagerCache) (E : Env) (w : World) (kata path : Str)
    (hne : m.namaFileCache E.lib kata ≠ path) :
    (m.AmbilCache E w kata).1.files path = w.files path := by
  unfold ManagerCache.AmbilCache
  simp only []
  split
  · rfl
  · rfl
  · split
    · simp [World.remove, Ne.symm hne]
    · rfl

/-- C21: the key of a term is the hexadecimal encoding of its digest, whatever the manager
and whatever the bytes of the term; as `sha256.Sum256` returns 32 bytes, the key has
exactly 64 characters, each in 0-9 or a-f, and spells the digest; the file of the term is
the key with ".json" joined to the cache directory, and it is the one file that `AmbilCache`
reads and that `AmbilCache` and `SimpanCache` change. -/
theorem cache_key_is_hex_digest (L : Pustaka) (m : ManagerCache) (kata : Str)
    (hlen : (L.Sum256 kata).length = 32) (hbyte : ∀ b ∈ L.Sum256 kata, b < 256) :
    m.buatKey L kata = hexEncode (L.Sum256 kata)
    ∧ (∀ m2 : ManagerCache, m2.buatKey L kata = m.buatKey L kata)
    ∧ (m.buatKey L kata).length = 64
    ∧ (∀ c ∈ m.buatKey L kata, (48 ≤ c ∧ c ≤ 57) ∨ (97 ≤ c ∧ c ≤ 102))
    ∧ hexDecode (m.buatKey L kata) = L.Sum256 kata
    ∧ m.namaFileCache L kata = L.Join [m.DirektorCache, m.buatKey L kata ++ str ".json"]
    ∧ (∀ (E : Env) (w w2 : World), E.lib = L →
        w2.files (m.namaFileCache L kata) = w.files (m.namaFileCache L kata) →
        w2.clock = w.clock → (m.AmbilCache E w2 kata).2 = (m.AmbilCache E w kata).2)
    ∧ (∀ (E : Env) (w : World) (html path : Str), E.lib = L →
        m.namaFileCache L kata ≠ path →
        (m.AmbilCache E w kata).1.files path = w.files path
        ∧ (m.SimpanCache E w kata html).1.files path = w.files path)
    ∧ (∀ (E : Env) (w : World) (html : Str), E.lib = L →
        (∀ entri, E.marshalErr entri = none) → E.writeFile (m.namaFileCache L kata) = none →
        ∃ entri, (m.SimpanCache E w kata html).1.files (m.namaFileCache L kata)
          = some (.json entri)) := by
  obtain ⟨h1, h2, h3⟩ := hexEncode_shape (L.Sum256 kata) hbyte
  refine ⟨rfl, fun _ => rfl, ?_, h2, h3, rfl, ?_, ?_, ?_⟩
  · show (hexEncode (L.Sum256 kata)).length = 64
    rw [h1, hlen]
  · intro E w w2 hL hf hc
    subst hL
    exact AmbilCache_reads m E w w2 kata hf hc
  · intro E w html path hL hne
    subst hL
    exact ⟨AmbilCache_other_path m E w kata path hne,
      SimpanCache_other_path m E w kata html path hne⟩
  · intro E w html hL hmarshal hwrite
    subst hL
    exact ⟨_, (SimpanCache_ok m E w kata html hmarshal hwrite).2⟩

/-- C21, for the term "é" (the bytes C3 A9) and the digest of `crypto/sha256`. -/
theorem cache_key_is_hex_digest_witness :
    managerContoh.buatKey pustakaSHA (str "é")
        = str "4a99557e4033c3539de2eb65472017cad5f9557f7a0625a09f1c3f6e2ba69c4c"
    ∧ (managerContoh.buatKey pustakaSHA (str "é")).length = 64
    ∧ managerContoh.namaFileCache pustakaSHA (str "é")
        = str "/home/u/.kbbi/cache/4a99557e4033c3539de2eb65472017cad5f9557f7a0625a09f1c3f6e2ba69c4c.json" :=
  ⟨(cache_key_is_hex_digest pustakaSHA managerContoh (str "é") (sha256_shape _).1
      (sha256_shape _).2).1.trans (by decide),
   (cache_key_is_hex_digest pustakaSHA managerContoh (str "é") (sha256_shape _).1
      (sha256_shape _).2).2.2.1,
   (cache_key_is_hex_digest pustakaSHA managerContoh (str "é") (sha256_shape _).1
      (sha256_shape _).2).2.2.2.2.2.1.trans (by decide)⟩

/-! ### Etymology and examples -/

/-- C24 fails on the code at the block "[<i style="color:darkred">Arab</i> <b>kitab</b>:
buku; tulisan]": the origin language is "Arab" and the origin form "kitab", and the first
meaning is "Arab kitab: buku", which holds both. -/
theorem etymology_meanings_keep_whole_text :
    (parseEtimologiHTML htmlContoh
        (str "[<i style=\"color:darkred\">Arab</i> <b>kitab</b>: buku; tulisan]")).map
      (fun e => (e.Bahasa, e.AsalKata, e.Arti))
      = some (str "Arab", str "kitab", [str "Arab kitab: buku", str "tulisan"])
    ∧ Contains (str "Arab kitab: buku") (str "Arab") = true
    ∧ Contains (str "Arab kitab: buku") (str "kitab") = true := by
  refine ⟨by rfl, by decide, by decide⟩

/-- C26 fails on the code at the result with the one entry "kata" and the one sense "arti"
with the example "contoh kalimat": its line carries no number, `hapusContoh` leaves it as
it is, and with `--tanpa-contoh` the example is printed; with two senses the lines are
numbered and cut. -/
theorem examples_kept_for_single_sense :
    (definisiContoh [maknaContoh "arti" "contoh kalimat"]).String
        = str "kata\narti: contoh kalimat"
    ∧ hapusContoh (definisiContoh [maknaContoh "arti" "contoh kalimat"]).String
        = str "kata\narti: contoh kalimat"
    ∧ (tampilkanHasil jsonContoh { benderaContoh false with tanpaContoh := true }
        (definisiContoh [maknaContoh "arti" "contoh kalimat"])).stdout
        = [str "kata\narti: contoh kalimat\n"]
    ∧ hapusContoh
        (definisiContoh [maknaContoh "arti" "contoh kalimat",
          maknaContoh "lain" "contoh dua"]).String
        = str "kata\n1. arti\n2. lain" := by
  refine ⟨by rfl, by rfl, by rfl, by rfl⟩

/-! ### The prakategorial sense -/

theorem parseEntri_heading (H : PustakaHTML) (htmlEntri : Str) (terautentikasi : Bool)
    (h : (parseEntri H htmlEntri terautentikasi).Nama ≠ []) :
    ∃ doc, H.Parse htmlEntri = .ok doc
      ∧ (First (Find doc akar (selTag "h2"))).length ≠ 0 := by
  unfold parseEntri at h
  cases hp : H.Parse htmlEntri with
  | error err => rw [hp] at h; exact absurd rfl h
  | ok doc =>
    refine ⟨doc, rfl, ?_⟩
    intro h0
    rw [hp] at h
    simp only [h0, if_true] at h
    exact absurd rfl h

theorem parseEntri_senses (H : PustakaHTML) (htmlEntri : Str) (terautentikasi : Bool)
    (doc : Node) (hp : H.Parse htmlEntri = .ok doc)
    (hj : (First (Find doc akar (selTag "h2"))).length ≠ 0) :
    ∃ entri : Entri, entri.Makna = []
      ∧ parseEntri H htmlEntri terautentikasi = parseMakna doc entri terautentikasi := by
  unfold parseEntri
  rw [hp]
  simp only [if_neg hj]
  generalize First (Find doc akar (selTag "h2")) = judul
  have h1 := (parseNamaEntri_frame doc judul Entri.nol).2.2
  have h2 := (parseNomorEntri_frame doc judul (parseNamaEntri doc judul Entri.nol)).2.2
  have h3 := (parseKataDasar_frame doc judul
    (parseNomorEntri doc judul (parseNamaEntri doc judul Entri.nol))).2.2
  have h4 := (parsePelafalan_frame doc judul
    (parseKataDasar doc judul
      (parseNomorEntri doc judul (parseNamaEntri doc judul Entri.nol)))).2.2
  generalize parsePelafalan doc judul
    (parseKataDasar doc judul
      (parseNomorEntri doc judul (parseNamaEntri doc judul Entri.nol))) = e4 at h4
  have hm4 : e4.Makna = [] := h4.trans (h3.trans (h2.trans h1))
  have h5 := (parseVarian_frame doc judul e4 terautentikasi).2.1
  generalize parseVarian doc judul e4 terautentikasi = e5 at h5
  have hm5 : e5.Makna = [] := h5.trans hm4
  cases terautentikasi with
  | false =>
    simp only [Bool.false_eq_true, if_false]
    exact ⟨e5, hm5, rfl⟩
  | true =>
    simp only [if_true]
    have h6 := (parseEtimologi_frame H doc e5).2.1
    have h7 := (parseTerkait_frame H doc (parseEtimologi H doc e5)).2.1
    exact ⟨_, h7.trans (h6.trans hm5), rfl⟩

theorem parseMakna_prakategorial (doc : Node) (entri : Entri) (terautentikasi : Bool)
    (pertama : Path) (lain : List Path)
    (hd : Find doc akar (selAttr "color" "darkgreen") = pertama :: lain) :
    (parseMakna doc entri terautentikasi).Makna
      = entri.Makna ++ [(parseMaknaSingle doc pertama).2] := by
  unfold parseMakna
  simp only [hd]

/-- C23: for a fragment that parses, has a heading and holds an element with the attribute
color="darkgreen", the entry has exactly one sense, the one that `parseMaknaSingle` reads
from the first such element; that sense has a word class; `parseMakna` adds this one sense
to the entry whatever list items the fragment holds; and every entry of a result is the
parse of a fragment with a heading, so that it has that one sense whenever its fragment
holds such an element. -/
theorem prakategorial_short_circuit (H : PustakaHTML) (htmlEntri : Str)
    (terautentikasi : Bool) (doc : Node) (pertama : Path) (lain : List Path)
    (hp : H.Parse htmlEntri = .ok doc)
    (hj : (First (Find doc akar (selTag "h2"))).length ≠ 0)
    (hd : Find doc akar (selAttr "color" "darkgreen") = pertama :: lain) :
    (parseEntri H htmlEntri terautentikasi).Makna = [(parseMaknaSingle doc pertama).2]
    ∧ (parseMaknaSingle doc pertama).2.Kelas ≠ []
    ∧ (∀ entri : Entri, (parseMakna doc entri terautentikasi).Makna
        = entri.Makna ++ [(parseMaknaSingle doc pertama).2])
    ∧ ∀ (html : Str) (d : Definisi), ParseDefinisi H html terautentikasi = .ok d →
        ∀ e ∈ d.Entri, ∃ (fragmen : Str) (doc2 : Node),
          H.Parse fragmen = .ok doc2 ∧ e = parseEntri H fragmen terautentikasi
          ∧ ∀ (p : Path) (l : List Path),
              Find doc2 akar (selAttr "color" "darkgreen") = p :: l →
              e.Makna = [(parseMaknaSingle doc2 p).2]
                ∧ (parseMaknaSingle doc2 p).2.Kelas ≠ [] := by
  have hsatu : ∀ (x : Str) (dc : Node) (p : Path) (l : List Path),
      H.Parse x = .ok dc → (First (Find dc akar (selTag "h2"))).length ≠ 0 →
      Find dc akar (selAttr "color" "darkgreen") = p :: l →
      (parseEntri H x terautentikasi).Makna = [(parseMaknaSingle dc p).2]
        ∧ (parseMaknaSingle dc p).2.Kelas ≠ [] := by
    intro x dc p l hx hh hf
    obtain ⟨entri, he, hrun⟩ := parseEntri_senses H x terautentikasi dc hx hh
    refine ⟨?_, prakategorial_has_class dc p (by rw [hf]; exact List.mem_cons_self _ _)⟩
    rw [hrun, parseMakna_prakategorial dc entri terautentikasi p l hf, he]
    rfl
  refine ⟨(hsatu htmlEntri doc pertama lain hp hj hd).1,
    (hsatu htmlEntri doc pertama lain hp hj hd).2,
    fun entri => parseMakna_prakategorial doc entri terautentikasi pertama lain hd, ?_⟩
  intro html d h e he
  obtain ⟨doc0, _, hd0 | hd0⟩ := ParseDefinisi_ok H html terautentikasi d h
  · rw [hd0.2.1] at he; simp at he
  · rw [hd0.2.1] at he
    obtain ⟨x, hx, hn⟩ := parseEntriList_mem H doc0 terautentikasi e he
    rw [hx] at hn
    obtain ⟨doc2, hp2, hj2⟩ := parseEntri_heading H x terautentikasi hn
    refine ⟨x, doc2, hp2, hx, ?_⟩
    intro p l hf
    rw [hx]
    exact hsatu x doc2 p l hp2 hj2 hf

/-- C23, on the fragment of the examples with the prakategorial element "a" and the list
item "arti": the entry has the one sense with the word class "a", and the list item gives
none. -/
theorem prakategorial_short_circuit_witness :
    (parseEntri htmlContoh (str fragmenPrakategorial) false).Makna.length = 1
    ∧ (parseEntri htmlContoh (str fragmenPrakategorial) false).Makna.map
        (fun m => (m.Kelas.map fun k => k.Kode, m.Submakna))
        = [([str "a"], [str "awalan"])] :=
  ⟨congrArg List.length
      (prakategorial_short_circuit htmlContoh (str fragmenPrakategorial) false _ _ _ rfl
        (by decide) rfl).1,
   congrArg (List.map fun m => (m.Kelas.map fun k => k.Kode, m.Submakna))
      (prakategorial_short_circuit htmlContoh (str fragmenPrakategorial) false _ _ _ rfl
        (by decide) rfl).1⟩

end GoKBBI
